import Mathlib

/-!
# DirectX video-acceleration helpers (`modules/codec/avcodec/directx_va.c`)

A shallow embedding of the mode negotiation (`FindVideoServiceConversion`,
`profile_supported`), of the surface-pool set-up (`directx_va_Setup`,
`DestroyVideoDecoder`), of the use of the pool (`directx_va_Get`,
`directx_va_Release`) and of the session close (`directx_va_Close`) of the
DirectX VA helper, and of the name lookup (`directx_va_GetDecoderName`), with
theorems about them.

Conventions of the embedding.

* C `int` values are `Int`; where an `int` addition may leave the 32-bit range
  the result is wrapped with `wrap32` (two's complement, what the x86 targets
  of this code produce).
* Pointers to platform objects (`IUnknown *`, `picture_t *`) are natural-number
  handles, `0` being `NULL`.
* The collaborator callbacks (`pf_...`) of `directx_sys_t` are functions on an
  abstract collaborator world `W`; every call of a collaborator, and every
  release of a platform object, is appended to the call log of the state.
* Logging (`msg_Dbg`, `msg_Warn`, `msg_Err`) and the state of the mutex are not
  modelled, but for the warning of `directx_va_Get`, which is an entry of the
  call log, and for the pointer `p_lock` of a slot, which `directx_va_Release`
  dereferences: it is `0` (`NULL`) until the allocation loop of
  `directx_va_Setup` sets it.
* A pointer into the `surface` array is the index of the slot; a read past the
  end of a modelled array yields a zero slot or handle and a write there is
  dropped.
-/

namespace DirectxVa

/-! ## Result codes and library constants -/

/-- `VLC_SUCCESS` of `vlc_common.h`. -/
def VLC_SUCCESS : Int := 0

/-- `VLC_EGENERIC` of `vlc_common.h`. -/
def VLC_EGENERIC : Int := -1

/-- `FF_THREAD_FRAME` of libavcodec: the frame-threading bit. -/
def FF_THREAD_FRAME : Int := 1

/-- `FF_PROFILE_MPEG2_SIMPLE` of libavcodec. -/
def FF_PROFILE_MPEG2_SIMPLE : Int := 5
/-- `FF_PROFILE_MPEG2_MAIN` of libavcodec. -/
def FF_PROFILE_MPEG2_MAIN : Int := 4
/-- `FF_PROFILE_H264_CONSTRAINED_BASELINE` of libavcodec, `66 | (1 << 9)`. -/
def FF_PROFILE_H264_CONSTRAINED_BASELINE : Int := 578
/-- `FF_PROFILE_H264_MAIN` of libavcodec. -/
def FF_PROFILE_H264_MAIN : Int := 77
/-- `FF_PROFILE_H264_HIGH` of libavcodec. -/
def FF_PROFILE_H264_HIGH : Int := 100
/-- `FF_PROFILE_HEVC_MAIN` of libavcodec. -/
def FF_PROFILE_HEVC_MAIN : Int := 1
/-- `FF_PROFILE_HEVC_MAIN_10` of libavcodec. -/
def FF_PROFILE_HEVC_MAIN_10 : Int := 2

/-- The libavcodec codec identifiers the helper distinguishes.  `NONE` is the
value `0` that the mode table uses for "no codec"; every identifier the file
does not name is an `OTHER`. -/
inductive AVCodecID where
  | NONE
  | MPEG1VIDEO
  | MPEG2VIDEO
  | H264
  | WMV3
  | VC1
  | HEVC
  | VP9
  | OTHER (id : Nat)
  deriving DecidableEq, Repr

/-- Two's-complement wrap of an integer to the range of a 32-bit `int`. -/
def wrap32 (x : Int) : Int := (x + 2147483648) % 4294967296 - 2147483648

/-! ## Profile lists (source lines 45-53) -/

def PROF_MPEG2_SIMPLE : List Int := [FF_PROFILE_MPEG2_SIMPLE, 0]
def PROF_MPEG2_MAIN : List Int := [FF_PROFILE_MPEG2_SIMPLE, FF_PROFILE_MPEG2_MAIN, 0]
def PROF_H264_HIGH : List Int :=
  [FF_PROFILE_H264_CONSTRAINED_BASELINE, FF_PROFILE_H264_MAIN, FF_PROFILE_H264_HIGH, 0]
def PROF_HEVC_MAIN : List Int := [FF_PROFILE_HEVC_MAIN, 0]
def PROF_HEVC_MAIN10 : List Int := [FF_PROFILE_HEVC_MAIN, FF_PROFILE_HEVC_MAIN_10, 0]

/-! ## Mode identifiers (source lines 78-146) -/

/-- The platform `GUID`: a 32-bit word, two 16-bit words and eight bytes.
`IsEqualGUID` is equality of all of them. -/
structure GUID where
  Data1 : Nat
  Data2 : Nat
  Data3 : Nat
  Data4 : List Nat
  deriving DecidableEq, Repr

/-- The `DEFINE_GUID` initialiser (`MS_GUID` names the same values, declared by
the platform header when it is not expanded to `DEFINE_GUID`). -/
def DEFINE_GUID (l w1 w2 b1 b2 b3 b4 b5 b6 b7 b8 : Nat) : GUID :=
  ⟨l, w1, w2, [b1, b2, b3, b4, b5, b6, b7, b8]⟩

/-- `IsEqualGUID`: exact equality of the 128 bits. -/
def IsEqualGUID (a b : GUID) : Bool := decide (a = b)

def DXVA2_ModeMPEG2_MoComp : GUID :=
  DEFINE_GUID 0xe6a9f44b 0x61b0 0x4563 0x9e 0xa4 0x63 0xd2 0xa3 0xc6 0xfe 0x66
def DXVA2_ModeMPEG2_IDCT : GUID :=
  DEFINE_GUID 0xbf22ad00 0x03ea 0x4690 0x80 0x77 0x47 0x33 0x46 0x20 0x9b 0x7e
def DXVA2_ModeMPEG2_VLD : GUID :=
  DEFINE_GUID 0xee27417f 0x5e28 0x4e65 0xbe 0xea 0x1d 0x26 0xb5 0x08 0xad 0xc9
def DXVA_ModeMPEG1_A : GUID :=
  DEFINE_GUID 0x1b81be09 0xa0c7 0x11d3 0xb9 0x84 0x00 0xc0 0x4f 0x2e 0x73 0xc5
def DXVA_ModeMPEG2_A : GUID :=
  DEFINE_GUID 0x1b81be0A 0xa0c7 0x11d3 0xb9 0x84 0x00 0xc0 0x4f 0x2e 0x73 0xc5
def DXVA_ModeMPEG2_B : GUID :=
  DEFINE_GUID 0x1b81be0B 0xa0c7 0x11d3 0xb9 0x84 0x00 0xc0 0x4f 0x2e 0x73 0xc5
def DXVA_ModeMPEG2_C : GUID :=
  DEFINE_GUID 0x1b81be0C 0xa0c7 0x11d3 0xb9 0x84 0x00 0xc0 0x4f 0x2e 0x73 0xc5
def DXVA_ModeMPEG2_D : GUID :=
  DEFINE_GUID 0x1b81be0D 0xa0c7 0x11d3 0xb9 0x84 0x00 0xc0 0x4f 0x2e 0x73 0xc5
def DXVA2_ModeMPEG2and1_VLD : GUID :=
  DEFINE_GUID 0x86695f12 0x340e 0x4f04 0x9f 0xd3 0x92 0x53 0xdd 0x32 0x74 0x60
def DXVA2_ModeMPEG1_VLD : GUID :=
  DEFINE_GUID 0x6f3ec719 0x3735 0x42cc 0x80 0x63 0x65 0xcc 0x3c 0xb3 0x66 0x16
def DXVA2_ModeH264_A : GUID :=
  DEFINE_GUID 0x1b81be64 0xa0c7 0x11d3 0xb9 0x84 0x00 0xc0 0x4f 0x2e 0x73 0xc5
def DXVA2_ModeH264_B : GUID :=
  DEFINE_GUID 0x1b81be65 0xa0c7 0x11d3 0xb9 0x84 0x00 0xc0 0x4f 0x2e 0x73 0xc5
def DXVA2_ModeH264_C : GUID :=
  DEFINE_GUID 0x1b81be66 0xa0c7 0x11d3 0xb9 0x84 0x00 0xc0 0x4f 0x2e 0x73 0xc5
def DXVA2_ModeH264_D : GUID :=
  DEFINE_GUID 0x1b81be67 0xa0c7 0x11d3 0xb9 0x84 0x00 0xc0 0x4f 0x2e 0x73 0xc5
def DXVA2_ModeH264_E : GUID :=
  DEFINE_GUID 0x1b81be68 0xa0c7 0x11d3 0xb9 0x84 0x00 0xc0 0x4f 0x2e 0x73 0xc5
def DXVA2_ModeH264_F : GUID :=
  DEFINE_GUID 0x1b81be69 0xa0c7 0x11d3 0xb9 0x84 0x00 0xc0 0x4f 0x2e 0x73 0xc5
def DXVA_ModeH264_VLD_Multiview : GUID :=
  DEFINE_GUID 0x9901CCD3 0xca12 0x4b7e 0x86 0x7a 0xe2 0x22 0x3d 0x92 0x55 0xc3
def DXVA_ModeH264_VLD_WithFMOASO_NoFGT : GUID :=
  DEFINE_GUID 0xd5f04ff9 0x3418 0x45d8 0x95 0x61 0x32 0xa7 0x6a 0xae 0x2d 0xdd
def DXVADDI_Intel_ModeH264_A : GUID :=
  DEFINE_GUID 0x604F8E64 0x4951 0x4c54 0x88 0xFE 0xAB 0xD2 0x5C 0x15 0xB3 0xD6
def DXVADDI_Intel_ModeH264_C : GUID :=
  DEFINE_GUID 0x604F8E66 0x4951 0x4c54 0x88 0xFE 0xAB 0xD2 0x5C 0x15 0xB3 0xD6
def DXVA_Intel_H264_NoFGT_ClearVideo : GUID :=
  DEFINE_GUID 0x604F8E68 0x4951 0x4c54 0x88 0xFE 0xAB 0xD2 0x5C 0x15 0xB3 0xD6
def DXVA_ModeH264_VLD_NoFGT_Flash : GUID :=
  DEFINE_GUID 0x4245F676 0x2BBC 0x4166 0xa0 0xBB 0x54 0xE7 0xB8 0x49 0xC3 0x80
def DXVA2_ModeWMV8_A : GUID :=
  DEFINE_GUID 0x1b81be80 0xa0c7 0x11d3 0xb9 0x84 0x00 0xc0 0x4f 0x2e 0x73 0xc5
def DXVA2_ModeWMV8_B : GUID :=
  DEFINE_GUID 0x1b81be81 0xa0c7 0x11d3 0xb9 0x84 0x00 0xc0 0x4f 0x2e 0x73 0xc5
def DXVA2_ModeWMV9_A : GUID :=
  DEFINE_GUID 0x1b81be90 0xa0c7 0x11d3 0xb9 0x84 0x00 0xc0 0x4f 0x2e 0x73 0xc5
def DXVA2_ModeWMV9_B : GUID :=
  DEFINE_GUID 0x1b81be91 0xa0c7 0x11d3 0xb9 0x84 0x00 0xc0 0x4f 0x2e 0x73 0xc5
def DXVA2_ModeWMV9_C : GUID :=
  DEFINE_GUID 0x1b81be94 0xa0c7 0x11d3 0xb9 0x84 0x00 0xc0 0x4f 0x2e 0x73 0xc5
def DXVA2_ModeVC1_A : GUID :=
  DEFINE_GUID 0x1b81beA0 0xa0c7 0x11d3 0xb9 0x84 0x00 0xc0 0x4f 0x2e 0x73 0xc5
def DXVA2_ModeVC1_B : GUID :=
  DEFINE_GUID 0x1b81beA1 0xa0c7 0x11d3 0xb9 0x84 0x00 0xc0 0x4f 0x2e 0x73 0xc5
def DXVA2_ModeVC1_C : GUID :=
  DEFINE_GUID 0x1b81beA2 0xa0c7 0x11d3 0xb9 0x84 0x00 0xc0 0x4f 0x2e 0x73 0xc5
def DXVA2_ModeVC1_D : GUID :=
  DEFINE_GUID 0x1b81beA3 0xa0c7 0x11d3 0xb9 0x84 0x00 0xc0 0x4f 0x2e 0x73 0xc5
def DXVA2_ModeVC1_D2010 : GUID :=
  DEFINE_GUID 0x1b81beA4 0xa0c7 0x11d3 0xb9 0x84 0x00 0xc0 0x4f 0x2e 0x73 0xc5
def DXVA_Intel_VC1_ClearVideo : GUID :=
  DEFINE_GUID 0xBCC5DB6D 0xA2B6 0x4AF0 0xAC 0xE4 0xAD 0xB1 0xF7 0x87 0xBC 0x89
def DXVA_Intel_VC1_ClearVideo_2 : GUID :=
  DEFINE_GUID 0xE07EC519 0xE651 0x4CD6 0xAC 0x84 0x13 0x70 0xCC 0xEE 0xC8 0x51
def DXVA_nVidia_MPEG4_ASP : GUID :=
  DEFINE_GUID 0x9947EC6F 0x689B 0x11DC 0xA3 0x20 0x00 0x19 0xDB 0xBC 0x41 0x84
def DXVA_ModeMPEG4pt2_VLD_Simple : GUID :=
  DEFINE_GUID 0xefd64d74 0xc9e8 0x41d7 0xa5 0xe9 0xe9 0xb0 0xe3 0x9f 0xa3 0x19
def DXVA_ModeMPEG4pt2_VLD_AdvSimple_NoGMC : GUID :=
  DEFINE_GUID 0xed418a9f 0x010d 0x4eda 0x9a 0xe3 0x9a 0x65 0x35 0x8d 0x8d 0x2e
def DXVA_ModeMPEG4pt2_VLD_AdvSimple_GMC : GUID :=
  DEFINE_GUID 0xab998b5b 0x4258 0x44a9 0x9f 0xeb 0x94 0xe5 0x97 0xa6 0xba 0xae
def DXVA_ModeMPEG4pt2_VLD_AdvSimple_Avivo : GUID :=
  DEFINE_GUID 0x7C74ADC6 0xe2ba 0x4ade 0x86 0xde 0x30 0xbe 0xab 0xb4 0x0c 0xc1
def DXVA_ModeHEVC_VLD_Main : GUID :=
  DEFINE_GUID 0x5b11d51b 0x2f4c 0x4452 0xbc 0xc3 0x09 0xf2 0xa1 0x16 0x0c 0xc0
def DXVA_ModeHEVC_VLD_Main10 : GUID :=
  DEFINE_GUID 0x107af0e0 0xef1a 0x4d19 0xab 0xa8 0x67 0xa1 0x63 0x07 0x3d 0x13
def DXVA_ModeH264_VLD_Stereo_Progressive_NoFGT : GUID :=
  DEFINE_GUID 0xd79be8da 0x0cf1 0x4c81 0xb8 0x2a 0x69 0xa4 0xe2 0x36 0xf4 0x3d
def DXVA_ModeH264_VLD_Stereo_NoFGT : GUID :=
  DEFINE_GUID 0xf9aaccbb 0xc2b6 0x4cfc 0x87 0x79 0x57 0x07 0xb1 0x76 0x05 0x52
def DXVA_ModeH264_VLD_Multiview_NoFGT : GUID :=
  DEFINE_GUID 0x705b9d82 0x76cf 0x49d6 0xb7 0xe6 0xac 0x88 0x72 0xdb 0x01 0x3c
def DXVA_ModeH264_VLD_SVC_Scalable_Baseline : GUID :=
  DEFINE_GUID 0xc30700c4 0xe384 0x43e0 0xb9 0x82 0x2d 0x89 0xee 0x7f 0x77 0xc4
def DXVA_ModeH264_VLD_SVC_Restricted_Scalable_Baseline : GUID :=
  DEFINE_GUID 0x9b8175d4 0xd670 0x4cf2 0xa9 0xf0 0xfa 0x56 0xdf 0x71 0xa1 0xae
def DXVA_ModeH264_VLD_SVC_Scalable_High : GUID :=
  DEFINE_GUID 0x728012c9 0x66a8 0x422f 0x97 0xe9 0xb5 0xe3 0x9b 0x51 0xc0 0x53
def DXVA_ModeH264_VLD_SVC_Restricted_Scalable_High_Progressive : GUID :=
  DEFINE_GUID 0x8efa5926 0xbd9e 0x4b04 0x8b 0x72 0x8f 0x97 0x7d 0xc4 0x4c 0x36
def DXVA_ModeH261_A : GUID :=
  DEFINE_GUID 0x1b81be01 0xa0c7 0x11d3 0xb9 0x84 0x00 0xc0 0x4f 0x2e 0x73 0xc5
def DXVA_ModeH261_B : GUID :=
  DEFINE_GUID 0x1b81be02 0xa0c7 0x11d3 0xb9 0x84 0x00 0xc0 0x4f 0x2e 0x73 0xc5
def DXVA_ModeH263_A : GUID :=
  DEFINE_GUID 0x1b81be03 0xa0c7 0x11d3 0xb9 0x84 0x00 0xc0 0x4f 0x2e 0x73 0xc5
def DXVA_ModeH263_B : GUID :=
  DEFINE_GUID 0x1b81be04 0xa0c7 0x11d3 0xb9 0x84 0x00 0xc0 0x4f 0x2e 0x73 0xc5
def DXVA_ModeH263_C : GUID :=
  DEFINE_GUID 0x1b81be05 0xa0c7 0x11d3 0xb9 0x84 0x00 0xc0 0x4f 0x2e 0x73 0xc5
def DXVA_ModeH263_D : GUID :=
  DEFINE_GUID 0x1b81be06 0xa0c7 0x11d3 0xb9 0x84 0x00 0xc0 0x4f 0x2e 0x73 0xc5
def DXVA_ModeH263_E : GUID :=
  DEFINE_GUID 0x1b81be07 0xa0c7 0x11d3 0xb9 0x84 0x00 0xc0 0x4f 0x2e 0x73 0xc5
def DXVA_ModeH263_F : GUID :=
  DEFINE_GUID 0x1b81be08 0xa0c7 0x11d3 0xb9 0x84 0x00 0xc0 0x4f 0x2e 0x73 0xc5
def DXVA_ModeVP8_VLD : GUID :=
  DEFINE_GUID 0x90b899ea 0x3a62 0x4705 0x88 0xb3 0x8d 0xf0 0x4b 0x27 0x44 0xe7
def DXVA_ModeVP9_VLD_Profile0 : GUID :=
  DEFINE_GUID 0x463707f8 0xa1d0 0x4585 0x87 0x6d 0x83 0xaa 0x6d 0x60 0xb8 0x9e

/-! ## The mode table (source lines 148-251) -/

/-- An entry of the mode table.  `p_profiles` is `none` for `NULL`, otherwise
the array as written in the source, its terminating `0` included. -/
structure directx_va_mode_t where
  name : String
  guid : GUID
  codec : AVCodecID
  p_profiles : Option (List Int)
  deriving DecidableEq, Repr

/-- The last entry before the sentinel: it carries `AV_CODEC_ID_VP9` when
libavcodec is at least 57.17.100 (`vp9 = true`) and no codec otherwise. -/
def VP9_MODE (vp9 : Bool) : directx_va_mode_t :=
  ⟨"VP9 profile 0",
    DXVA_ModeVP9_VLD_Profile0, if vp9 then AVCodecID.VP9 else AVCodecID.NONE, none⟩

/-- The table `DXVA_MODES`, preferred modes first, without its `NULL`
sentinel. -/
def DXVA_MODES (vp9 : Bool) : List directx_va_mode_t :=
  [
    ⟨"MPEG-1 decoder, restricted profile A",
      DXVA_ModeMPEG1_A, AVCodecID.NONE, none⟩,
    ⟨"MPEG-2 decoder, restricted profile A",
      DXVA_ModeMPEG2_A, AVCodecID.NONE, none⟩,
    ⟨"MPEG-2 decoder, restricted profile B",
      DXVA_ModeMPEG2_B, AVCodecID.NONE, none⟩,
    ⟨"MPEG-2 decoder, restricted profile C",
      DXVA_ModeMPEG2_C, AVCodecID.NONE, none⟩,
    ⟨"MPEG-2 decoder, restricted profile D",
      DXVA_ModeMPEG2_D, AVCodecID.NONE, none⟩,
    ⟨"MPEG-2 variable-length decoder",
      DXVA2_ModeMPEG2_VLD, AVCodecID.MPEG2VIDEO, (some PROF_MPEG2_SIMPLE)⟩,
    ⟨"MPEG-2 & MPEG-1 variable-length decoder",
      DXVA2_ModeMPEG2and1_VLD, AVCodecID.MPEG2VIDEO, (some PROF_MPEG2_MAIN)⟩,
    ⟨"MPEG-2 & MPEG-1 variable-length decoder",
      DXVA2_ModeMPEG2and1_VLD, AVCodecID.MPEG1VIDEO, none⟩,
    ⟨"MPEG-2 motion compensation",
      DXVA2_ModeMPEG2_MoComp, AVCodecID.NONE, none⟩,
    ⟨"MPEG-2 inverse discrete cosine transform",
      DXVA2_ModeMPEG2_IDCT, AVCodecID.NONE, none⟩,
    ⟨"MPEG-1 variable-length decoder, no D pictures",
      DXVA2_ModeMPEG1_VLD, AVCodecID.NONE, none⟩,
    ⟨"H.264 variable-length decoder, film grain technology",
      DXVA2_ModeH264_F, AVCodecID.H264, (some PROF_H264_HIGH)⟩,
    ⟨"H.264 variable-length decoder, no film grain technology (Intel ClearVideo)",
      DXVA_Intel_H264_NoFGT_ClearVideo, AVCodecID.H264, (some PROF_H264_HIGH)⟩,
    ⟨"H.264 variable-length decoder, no film grain technology",
      DXVA2_ModeH264_E, AVCodecID.H264, (some PROF_H264_HIGH)⟩,
    ⟨"H.264 variable-length decoder, no film grain technology, FMO/ASO",
      DXVA_ModeH264_VLD_WithFMOASO_NoFGT, AVCodecID.H264, (some PROF_H264_HIGH)⟩,
    ⟨"H.264 variable-length decoder, no film grain technology, Flash",
      DXVA_ModeH264_VLD_NoFGT_Flash, AVCodecID.H264, (some PROF_H264_HIGH)⟩,
    ⟨"H.264 inverse discrete cosine transform, film grain technology",
      DXVA2_ModeH264_D, AVCodecID.NONE, none⟩,
    ⟨"H.264 inverse discrete cosine transform, no film grain technology",
      DXVA2_ModeH264_C, AVCodecID.NONE, none⟩,
    ⟨"H.264 inverse discrete cosine transform, no film grain technology (Intel)",
      DXVADDI_Intel_ModeH264_C, AVCodecID.NONE, none⟩,
    ⟨"H.264 motion compensation, film grain technology",
      DXVA2_ModeH264_B, AVCodecID.NONE, none⟩,
    ⟨"H.264 motion compensation, no film grain technology",
      DXVA2_ModeH264_A, AVCodecID.NONE, none⟩,
    ⟨"H.264 motion compensation, no film grain technology (Intel)",
      DXVADDI_Intel_ModeH264_A, AVCodecID.NONE, none⟩,
    ⟨"H.264 stereo high profile, mbs flag set",
      DXVA_ModeH264_VLD_Stereo_Progressive_NoFGT, AVCodecID.NONE, none⟩,
    ⟨"H.264 stereo high profile",
      DXVA_ModeH264_VLD_Stereo_NoFGT, AVCodecID.NONE, none⟩,
    ⟨"H.264 multiview high profile",
      DXVA_ModeH264_VLD_Multiview_NoFGT, AVCodecID.NONE, none⟩,
    ⟨"H.264 scalable video coding, Scalable Baseline Profile",
      DXVA_ModeH264_VLD_SVC_Scalable_Baseline, AVCodecID.NONE, none⟩,
    ⟨"H.264 scalable video coding, Scalable Constrained Baseline Profile",
      DXVA_ModeH264_VLD_SVC_Restricted_Scalable_Baseline, AVCodecID.NONE, none⟩,
    ⟨"H.264 scalable video coding, Scalable High Profile",
      DXVA_ModeH264_VLD_SVC_Scalable_High, AVCodecID.NONE, none⟩,
    ⟨"H.264 scalable video coding, Scalable Constrained High Profile",
      DXVA_ModeH264_VLD_SVC_Restricted_Scalable_High_Progressive, AVCodecID.NONE, none⟩,
    ⟨"Windows Media Video 8 motion compensation",
      DXVA2_ModeWMV8_B, AVCodecID.NONE, none⟩,
    ⟨"Windows Media Video 8 post processing",
      DXVA2_ModeWMV8_A, AVCodecID.NONE, none⟩,
    ⟨"Windows Media Video 9 IDCT",
      DXVA2_ModeWMV9_C, AVCodecID.NONE, none⟩,
    ⟨"Windows Media Video 9 motion compensation",
      DXVA2_ModeWMV9_B, AVCodecID.NONE, none⟩,
    ⟨"Windows Media Video 9 post processing",
      DXVA2_ModeWMV9_A, AVCodecID.NONE, none⟩,
    ⟨"VC-1 variable-length decoder",
      DXVA2_ModeVC1_D, AVCodecID.VC1, none⟩,
    ⟨"VC-1 variable-length decoder",
      DXVA2_ModeVC1_D, AVCodecID.WMV3, none⟩,
    ⟨"VC-1 variable-length decoder",
      DXVA2_ModeVC1_D2010, AVCodecID.VC1, none⟩,
    ⟨"VC-1 variable-length decoder",
      DXVA2_ModeVC1_D2010, AVCodecID.WMV3, none⟩,
    ⟨"VC-1 variable-length decoder 2 (Intel)",
      DXVA_Intel_VC1_ClearVideo_2, AVCodecID.NONE, none⟩,
    ⟨"VC-1 variable-length decoder (Intel)",
      DXVA_Intel_VC1_ClearVideo, AVCodecID.NONE, none⟩,
    ⟨"VC-1 inverse discrete cosine transform",
      DXVA2_ModeVC1_C, AVCodecID.NONE, none⟩,
    ⟨"VC-1 motion compensation",
      DXVA2_ModeVC1_B, AVCodecID.NONE, none⟩,
    ⟨"VC-1 post processing",
      DXVA2_ModeVC1_A, AVCodecID.NONE, none⟩,
    ⟨"MPEG-4 Part 2 nVidia bitstream decoder",
      DXVA_nVidia_MPEG4_ASP, AVCodecID.NONE, none⟩,
    ⟨"MPEG-4 Part 2 variable-length decoder, Simple Profile",
      DXVA_ModeMPEG4pt2_VLD_Simple, AVCodecID.NONE, none⟩,
    ⟨"MPEG-4 Part 2 variable-length decoder, Simple&Advanced Profile, no GMC",
      DXVA_ModeMPEG4pt2_VLD_AdvSimple_NoGMC, AVCodecID.NONE, none⟩,
    ⟨"MPEG-4 Part 2 variable-length decoder, Simple&Advanced Profile, GMC",
      DXVA_ModeMPEG4pt2_VLD_AdvSimple_GMC, AVCodecID.NONE, none⟩,
    ⟨"MPEG-4 Part 2 variable-length decoder, Simple&Advanced Profile, Avivo",
      DXVA_ModeMPEG4pt2_VLD_AdvSimple_Avivo, AVCodecID.NONE, none⟩,
    ⟨"HEVC Main profile",
      DXVA_ModeHEVC_VLD_Main, AVCodecID.HEVC, (some PROF_HEVC_MAIN)⟩,
    ⟨"HEVC Main 10 profile",
      DXVA_ModeHEVC_VLD_Main10, AVCodecID.HEVC, (some PROF_HEVC_MAIN10)⟩,
    ⟨"H.261 decoder, restricted profile A",
      DXVA_ModeH261_A, AVCodecID.NONE, none⟩,
    ⟨"H.261 decoder, restricted profile B",
      DXVA_ModeH261_B, AVCodecID.NONE, none⟩,
    ⟨"H.263 decoder, restricted profile A",
      DXVA_ModeH263_A, AVCodecID.NONE, none⟩,
    ⟨"H.263 decoder, restricted profile B",
      DXVA_ModeH263_B, AVCodecID.NONE, none⟩,
    ⟨"H.263 decoder, restricted profile C",
      DXVA_ModeH263_C, AVCodecID.NONE, none⟩,
    ⟨"H.263 decoder, restricted profile D",
      DXVA_ModeH263_D, AVCodecID.NONE, none⟩,
    ⟨"H.263 decoder, restricted profile E",
      DXVA_ModeH263_E, AVCodecID.NONE, none⟩,
    ⟨"H.263 decoder, restricted profile F",
      DXVA_ModeH263_F, AVCodecID.NONE, none⟩,
    ⟨"VP8",
      DXVA_ModeVP8_VLD, AVCodecID.NONE, none⟩
,
    VP9_MODE vp9
  ]

/-! ## Name lookup (source lines 259-270) -/

/-- The loop of lines 261-264 over the table: the name of the first entry
whose GUID equals `guid`, `none` when the sentinel is reached. -/
def name_loop (guid : GUID) : List directx_va_mode_t → Option String
  | [] => none
  | mode :: rest =>
    if IsEqualGUID mode.guid guid then some mode.name else name_loop guid rest

/-- The function `directx_va_GetDecoderName`; `GUID_FMT` is the text that the
format `GUID_FMT` of `vlc_codecs.h` prints for a GUID.  The failure of `strdup`
or `malloc` is not modelled. -/
def directx_va_GetDecoderName (vp9 : Bool) (GUID_FMT : GUID → String) (guid : GUID) : String :=
  match name_loop guid (DXVA_MODES vp9) with
  | some name => name
  | none => "Unknown decoder " ++ GUID_FMT guid

/-! ## Stream formats and the profile helpers -/

/-- The fields of `video_format_t` the helper writes or passes on. -/
structure video_format_t where
  i_width : Int
  i_height : Int
  i_frame_rate : Int
  i_frame_rate_base : Int
  deriving DecidableEq, Repr

/-- The fields of `es_format_t` the helper reads: the generic profile, the
video format, and the codec extra data that the packetizer helpers parse. -/
structure es_format_t where
  i_profile : Int
  video : video_format_t
  p_extra : List Nat
  deriving DecidableEq, Repr

/-- The packetizer helpers of `h264_nal.h` and `hevc_nal.h`, parameters of the
embedding: each returns `some p` when it returns `true` and stores `p` in its
`uint8_t` out-parameter, `none` when it returns `false`. -/
structure nal_helpers where
  h264_get_profile_level : es_format_t → Option Nat
  hevc_get_profile_level : es_format_t → Option Nat

/-- The local `profile` of `profile_supported` after lines 498-510: the generic
`i_profile`, overwritten by the H.264 helper for an H.264 entry and by the HEVC
helper for an HEVC entry when the helper succeeds (the value is a `uint8_t`). -/
def effective_profile (hp : nal_helpers) (mode : directx_va_mode_t) (fmt : es_format_t) : Int :=
  let profile := fmt.i_profile
  let profile :=
    if mode.codec = AVCodecID.H264 then
      match hp.h264_get_profile_level fmt with
      | some h264_profile => ((h264_profile % 256 : Nat) : Int)
      | none => profile
    else profile
  let profile :=
    if mode.codec = AVCodecID.HEVC then
      match hp.hevc_get_profile_level fmt with
      | some hevc_profile => ((hevc_profile % 256 : Nat) : Int)
      | none => profile
    else profile
  profile

/-- The loop of lines 514-521 over a zero-terminated profile array. -/
def profile_loop (profile : Int) : List Int → Bool
  | [] => false
  | p :: ps => if p = 0 then false else if p = profile then true else profile_loop profile ps

/-- The initial `is_supported` of line 495:
`mode->p_profiles == NULL || !mode->p_profiles[0]`. -/
def no_profile_restriction (mode : directx_va_mode_t) : Bool :=
  match mode.p_profiles with
  | none => true
  | some ps => decide (ps.headD 0 = 0)

/-- The function `profile_supported` (lines 493-524). -/
def profile_supported (hp : nal_helpers) (mode : directx_va_mode_t) (fmt : es_format_t) : Bool :=
  let is_supported := no_profile_restriction mode
  if is_supported then true
  else
    let profile := effective_profile hp mode fmt
    if profile ≤ 0 then true
    else profile_loop profile (mode.p_profiles.getD [])

/-! ## Session state and collaborators -/

/-- A slot of the surface pool (`vlc_va_surface_t`); `p_lock` is the pointer
to the lock that `directx_va_Release` takes and `p_pic` the frame payload
handle, each `0` for `NULL`. -/
structure vlc_va_surface_t where
  refcount : Int
  order : Int
  p_lock : Nat
  p_pic : Nat
  deriving DecidableEq, Repr

/-- The address `&dx_sys->surface_lock` of the lock of the session, as a
handle; it is not `NULL`. -/
def surface_lock : Nat := 1

/-- The data fields of `directx_sys_t`.  `surface` and `hw_surface` are the
arrays of `MAX_SURFACE_COUNT` slots. -/
structure directx_sys_t where
  codec_id : AVCodecID
  width : Int
  height : Int
  hdecoder_dll : Nat
  d3ddev : Nat
  input : GUID
  d3ddec : Nat
  decoder : Nat
  surface_count : Int
  surface_order : Int
  surface_width : Int
  surface_height : Int
  thread_count : Int
  surface : List vlc_va_surface_t
  hw_surface : List Nat
  deriving DecidableEq, Repr

/-- The fields of `AVCodecContext` the helper reads or writes. -/
structure AVCodecContext where
  codec_id : AVCodecID
  coded_width : Int
  coded_height : Int
  active_thread_type : Int
  thread_count : Int
  framerate_num : Int
  framerate_den : Int
  hwaccel_context : Nat
  deriving DecidableEq, Repr

/-- A call that leaves the helper: a collaborator callback or the release of a
platform object. -/
inductive Call where
  | get_input_list
  | release_input_list
  | setup_output (g : GUID)
  | destroy_surfaces
  | Release_hw_surface (h : Nat)
  | picture_Release (p : Nat)
  | Release_decoder (h : Nat)
  | create_decoder_surfaces (codec_id : AVCodecID) (fmt : video_format_t)
  | setup_avcodec_ctx
  | alloc_surface_pic (fmt : video_format_t) (i : Nat)
  | check_device
  | destroy_video_service
  | Release_d3ddec (h : Nat)
  | destroy_device_manager
  | destroy_device
  | Release_d3ddev (h : Nat)
  | FreeLibrary (h : Nat)
  | LoadLibrary
  | create_device
  | create_device_manager
  | create_video_service
  | msg_Warn_no_free_buffer (old_used : Nat)
  deriving DecidableEq, Repr

/-- The collaborator callbacks of `directx_sys_t`, over a collaborator world
`W`.  A callback returns its C result and the next world.
`pf_get_input_list` yields its status and the list it fills in;
`pf_create_device` and `pf_create_video_service` yield their status and the
handle they leave in `d3ddev` and `d3ddec`; `pf_create_decoder_surfaces` reads
the session and yields its status together with the decoder handle and the
backing handles it leaves in the `decoder` and `hw_surface` fields;
`pf_alloc_surface_pic` yields the payload handle (`0` for `NULL`).
`LoadLibrary` is the platform loader, which yields the module handle. -/
structure callbacks (W : Type) where
  LoadLibrary : W → Nat × W
  pf_check_device : W → Int × W
  pf_create_device : W → (Int × Nat) × W
  pf_destroy_device : W → W
  pf_create_device_manager : W → Int × W
  pf_destroy_device_manager : W → W
  pf_create_video_service : W → (Int × Nat) × W
  pf_destroy_video_service : W → W
  pf_create_decoder_surfaces :
    W → directx_sys_t → AVCodecID → video_format_t → (Int × Nat × List Nat) × W
  pf_destroy_surfaces : W → W
  pf_setup_avcodec_ctx : W → W
  pf_get_input_list : W → (Int × List GUID) × W
  pf_setup_output : W → GUID → video_format_t → Int × W
  pf_alloc_surface_pic : W → video_format_t → Nat → Nat × W

/-- The whole state a call works on: the session, the collaborator world and
the log of the calls made so far. -/
structure State (W : Type) where
  dx : directx_sys_t
  world : W
  log : List Call

/-! ## Mode negotiation (source lines 536-589) -/

/-- The inner loop of lines 564-566: is the mode's GUID among the candidates. -/
def guid_loop (guid : GUID) : List GUID → Bool
  | [] => false
  | g :: gs => if IsEqualGUID guid g then true else guid_loop guid gs

/-- The loop of lines 557-585 from a given table position on. -/
def mode_loop {W : Type} (cb : callbacks W) (hp : nal_helpers) (fmt : es_format_t)
    (p_list : List GUID) : List directx_va_mode_t → State W → Int × State W
  | [], st => (VLC_EGENERIC, st)
  | mode :: rest, st =>
    if mode.codec = AVCodecID.NONE ∨ mode.codec ≠ st.dx.codec_id then
      mode_loop cb hp fmt p_list rest st
    else
      let is_supported := guid_loop mode.guid p_list
      let is_supported := if is_supported then profile_supported hp mode fmt else false
      if !is_supported then mode_loop cb hp fmt p_list rest st
      else
        let r := cb.pf_setup_output st.world mode.guid fmt.video
        let st1 : State W :=
          { st with world := r.2, log := st.log ++ [Call.setup_output mode.guid] }
        if r.1 = VLC_SUCCESS then
          (VLC_SUCCESS, { st1 with dx := { st1.dx with input := mode.guid } })
        else mode_loop cb hp fmt p_list rest st1

/-- The function `FindVideoServiceConversion`. -/
def FindVideoServiceConversion {W : Type} (cb : callbacks W) (hp : nal_helpers) (vp9 : Bool)
    (fmt : es_format_t) (st : State W) : Int × State W :=
  let r := cb.pf_get_input_list st.world
  let err := r.1.1
  let p_list := r.1.2
  let st1 : State W := { st with world := r.2, log := st.log ++ [Call.get_input_list] }
  if err ≠ VLC_SUCCESS then (err, st1)
  else if p_list.length = 0 then (VLC_EGENERIC, st1)
  else
    let res := mode_loop cb hp fmt p_list (DXVA_MODES vp9) st1
    (res.1, { res.2 with log := res.2.log ++ [Call.release_input_list] })

/-! ## Surface pool set-up and teardown (source lines 273-376) -/

/-- The macro `ALIGN(x, y)` of line 321 on `int` operands:
`(x + (y - 1)) & ~(y - 1)`, the sum taken in 32 bits. -/
def ALIGN (x y : Int) : Int := Int.land (wrap32 (x + (y - 1))) (Int.not (y - 1))

/-- Conversion of an `int` to the `unsigned` fields of `video_format_t`. -/
def to_unsigned (x : Int) : Int := x % 4294967296

/-- The function `DestroyVideoDecoder` (lines 360-376). -/
def DestroyVideoDecoder {W : Type} (cb : callbacks W) (st : State W) : State W :=
  let n := st.dx.surface_count.toNat
  let log1 := st.log ++ [Call.destroy_surfaces]
  let log2 := log1 ++ (st.dx.hw_surface.take n).map Call.Release_hw_surface
  let log3 := log2 ++
    ((st.dx.surface.take n).filter (fun s => decide (s.p_pic ≠ 0))).map
      (fun s => Call.picture_Release s.p_pic)
  let log4 := if st.dx.decoder ≠ 0 then log3 ++ [Call.Release_decoder st.dx.decoder] else log3
  { dx := { st.dx with decoder := 0, surface_count := 0 },
    world := cb.pf_destroy_surfaces st.world,
    log := log4 }

/-- The `switch` of lines 292-311: the pair `(surface_alignment, surface_count)`
after it, from the initial `16` and `4`. -/
def codec_switch (codec_id : AVCodecID) : Int × Int :=
  match codec_id with
  | AVCodecID.MPEG2VIDEO => (32, 4 + 2)
  | AVCodecID.HEVC => (128, 4 + 16)
  | AVCodecID.H264 => (16, 4 + 16)
  | _ => (16, 4 + 2)

/-- The allocation loop of lines 346-354, with `n` iterations left from index
`i` on; it returns `VLC_EGENERIC` at the first `NULL` payload. -/
def alloc_loop {W : Type} (cb : callbacks W) (fmt : video_format_t) :
    Nat → Nat → State W → Int × State W
  | 0, _, st => (VLC_SUCCESS, st)
  | n + 1, i, st =>
    let r := cb.pf_alloc_surface_pic st.world fmt i
    let surface : vlc_va_surface_t :=
      { refcount := 0, order := 0, p_lock := surface_lock, p_pic := r.1 }
    let st1 : State W :=
      { dx := { st.dx with surface := st.dx.surface.set i surface },
        world := r.2,
        log := st.log ++ [Call.alloc_surface_pic fmt i] }
    if r.1 = 0 then (VLC_EGENERIC, st1) else alloc_loop cb fmt n (i + 1) st1

/-- Is the fast path of lines 278-280 taken. -/
def setup_fast_path (dx : directx_sys_t) (avctx : AVCodecContext) : Bool :=
  decide (dx.width = avctx.coded_width) && decide (dx.height = avctx.coded_height)
    && decide (dx.decoder ≠ 0)

/-- The local `surface_count` of `directx_va_Setup` at line 316, after the
`switch` and the threading increment. -/
def computed_surface_count (dx : directx_sys_t) (avctx : AVCodecContext) : Int :=
  let surface_count := (codec_switch dx.codec_id).2
  if Int.land avctx.active_thread_type FF_THREAD_FRAME ≠ 0 then
    wrap32 (surface_count + dx.thread_count)
  else surface_count

/-- The function `directx_va_Setup` (lines 273-358); `MAX_SURFACE_COUNT` is the
constant of `directx_va.h`.  It returns the status, the codec context (whose
`hwaccel_context` it clears) and the state. -/
def directx_va_Setup {W : Type} (cb : callbacks W) (MAX_SURFACE_COUNT : Int)
    (avctx : AVCodecContext) (st : State W) : Int × AVCodecContext × State W :=
  if setup_fast_path st.dx avctx then (VLC_SUCCESS, avctx, st)
  else
    let st1 := DestroyVideoDecoder cb st
    let avctx1 := { avctx with hwaccel_context := 0 }
    if avctx1.coded_width ≤ 0 ∨ avctx1.coded_height ≤ 0 then (VLC_EGENERIC, avctx1, st1)
    else
      let surface_alignment := (codec_switch st1.dx.codec_id).1
      let surface_count := computed_surface_count st1.dx avctx1
      if surface_count > MAX_SURFACE_COUNT then (VLC_EGENERIC, avctx1, st1)
      else
        let dx2 : directx_sys_t :=
          { st1.dx with
            surface_count := surface_count,
            width := avctx1.coded_width,
            height := avctx1.coded_height,
            surface_width := ALIGN avctx1.coded_width surface_alignment,
            surface_height := ALIGN avctx1.coded_height surface_alignment }
        let fmt : video_format_t :=
          { i_width := to_unsigned dx2.width,
            i_height := to_unsigned dx2.height,
            i_frame_rate := to_unsigned avctx1.framerate_num,
            i_frame_rate_base := to_unsigned avctx1.framerate_den }
        let r := cb.pf_create_decoder_surfaces st1.world dx2 dx2.codec_id fmt
        let st3 : State W :=
          { dx := { dx2 with decoder := r.1.2.1, hw_surface := r.1.2.2 },
            world := r.2,
            log := st1.log ++ [Call.create_decoder_surfaces dx2.codec_id fmt] }
        if r.1.1 ≠ 0 then (VLC_EGENERIC, avctx1, st3)
        else
          let st4 : State W :=
            { st3 with world := cb.pf_setup_avcodec_ctx st3.world,
                       log := st3.log ++ [Call.setup_avcodec_ctx] }
          let res := alloc_loop cb fmt st4.dx.surface_count.toNat 0 st4
          (res.1, avctx1, res.2)

/-! ## Opening a session (source lines 444-491) -/

/-- The steps of `directx_va_Open` from line 463 on: device, device manager,
video service, mode negotiation, and the recording of the thread count. -/
def open_steps {W : Type} (cb : callbacks W) (hp : nal_helpers) (vp9 : Bool)
    (ctx : AVCodecContext) (fmt : es_format_t) (st1 : State W) : Int × State W :=
  let d := cb.pf_create_device st1.world
  let st2 : State W :=
    { dx := { st1.dx with d3ddev := d.1.2 }, world := d.2,
      log := st1.log ++ [Call.create_device] }
  if d.1.1 ≠ 0 then (VLC_EGENERIC, st2)
  else
    let m := cb.pf_create_device_manager st2.world
    let st3 : State W :=
      { st2 with world := m.2, log := st2.log ++ [Call.create_device_manager] }
    if m.1 ≠ 0 then (VLC_EGENERIC, st3)
    else
      let v := cb.pf_create_video_service st3.world
      let st4 : State W :=
        { dx := { st3.dx with d3ddec := v.1.2 }, world := v.2,
          log := st3.log ++ [Call.create_video_service] }
      if v.1.1 ≠ 0 then (VLC_EGENERIC, st4)
      else
        let f := FindVideoServiceConversion cb hp vp9 fmt st4
        if f.1 ≠ 0 then (VLC_EGENERIC, f.2)
        else
          (VLC_SUCCESS,
            { f.2 with dx := { f.2.dx with thread_count := ctx.thread_count } })

/-- The function `directx_va_Open`. -/
def directx_va_Open {W : Type} (cb : callbacks W) (hp : nal_helpers) (vp9 : Bool)
    (ctx : AVCodecContext) (fmt : es_format_t) (b_dll : Bool) (st : State W) : Int × State W :=
  let st0 : State W := { st with dx := { st.dx with codec_id := ctx.codec_id } }
  if b_dll then
    let l := cb.LoadLibrary st0.world
    let st1 : State W :=
      { dx := { st0.dx with hdecoder_dll := l.1 }, world := l.2,
        log := st0.log ++ [Call.LoadLibrary] }
    if st1.dx.hdecoder_dll = 0 then (VLC_EGENERIC, st1)
    else open_steps cb hp vp9 ctx fmt st1
  else open_steps cb hp vp9 ctx fmt st0

/-! ## Use of the surface pool (source lines 379-429) -/

/-- The fields of the caller's `picture_t` the helper touches: the picture
itself as a handle, and its `context`, `none` for `NULL` and otherwise the
index of the slot of `surface` it points to. -/
structure picture_t where
  handle : Nat
  context : Option Nat
  deriving DecidableEq, Repr

/-- The slot `dx_sys->surface[i]`. -/
def surface_at (dx : directx_sys_t) (i : Nat) : vlc_va_surface_t :=
  dx.surface.getD i ⟨0, 0, 0, 0⟩

/-- The test `cur == -1 || surface->order < dx_sys->surface[cur].order` of
lines 393 and 395, for the slot `i` and the loop variable `cur`. -/
def older (dx : directx_sys_t) (i : Nat) (cur : Int) : Bool :=
  decide (cur = -1) || decide ((surface_at dx i).order < (surface_at dx cur.toNat).order)

/-- The loop of lines 391-397 with `n` iterations left from index `i` on; it
returns the final `(old, old_used)`. -/
def get_loop (dx : directx_sys_t) : Nat → Nat → Int → Int → Int × Int
  | 0, _, old, old_used => (old, old_used)
  | n + 1, i, old, old_used =>
    let old1 : Int :=
      if older dx i old && decide ((surface_at dx i).refcount = 0) then (i : Int) else old
    let old_used1 : Int := if older dx i old_used then (i : Int) else old_used
    get_loop dx n (i + 1) old1 old_used1

/-- The index `i` of line 406: `old` when a free slot was found, else
`old_used` when the loop ran, else the value the loop counter is left with. -/
def get_index (dx : directx_sys_t) : Nat :=
  let r := get_loop dx dx.surface_count.toNat 0 (-1) (-1)
  if r.1 ≥ 0 then r.1.toNat
  else if r.2 ≥ 0 then r.2.toNat
  else dx.surface_count.toNat

/-- What `directx_va_Get` hands back: its status, the caller's picture, the
`*data` cell and the state. -/
structure get_result (W : Type) where
  status : Int
  pic : picture_t
  data : Nat
  st : State W

/-- The function `directx_va_Get` (lines 379-416); `data` is the content of
the `*data` cell before the call. -/
def directx_va_Get {W : Type} (cb : callbacks W) (pic : picture_t) (data : Nat)
    (st : State W) : get_result W :=
  let c := cb.pf_check_device st.world
  let st1 : State W := { st with world := c.2, log := st.log ++ [Call.check_device] }
  if c.1 ≠ VLC_SUCCESS then
    { status := VLC_EGENERIC, pic := pic, data := data, st := st1 }
  else
    let r := get_loop st1.dx st1.dx.surface_count.toNat 0 (-1) (-1)
    let i := get_index st1.dx
    let log2 :=
      if r.1 ≥ 0 then st1.log
      else if r.2 ≥ 0 then st1.log ++ [Call.msg_Warn_no_free_buffer r.2.toNat]
      else st1.log
    let surface := surface_at st1.dx i
    let order := wrap32 (st1.dx.surface_order + 1)
    let dx2 : directx_sys_t :=
      { st1.dx with
        surface_order := order,
        surface := st1.dx.surface.set i { surface with refcount := 1, order := order } }
    { status := VLC_SUCCESS,
      pic := { pic with context := some i },
      data := st1.dx.hw_surface.getD i 0,
      st := { dx := dx2, world := st1.world, log := log2 } }

/-- The function `directx_va_Release` (lines 418-429) on the picture `opaque`;
`none` when the picture's `context` is `NULL`, which the function
dereferences, and when the `p_lock` of the slot is `NULL`, which
`vlc_mutex_lock` dereferences (line 422). -/
def directx_va_Release {W : Type} (pic : picture_t) (st : State W) :
    Option (picture_t × State W) :=
  match pic.context with
  | none => none
  | some i =>
    let surface := surface_at st.dx i
    if surface.p_lock = 0 then none
    else
      some
        ({ pic with context := none },
         { st with
           dx := { st.dx with
                   surface := st.dx.surface.set i
                     { surface with refcount := wrap32 (surface.refcount - 1) } },
           log := st.log ++ [Call.picture_Release pic.handle] })

/-! ## Closing a session (source lines 431-442, 526-531, 591-601) -/

/-- The function `DestroyVideoService`. -/
def DestroyVideoService {W : Type} (cb : callbacks W) (st : State W) : State W :=
  { st with
    world := cb.pf_destroy_video_service st.world,
    log := st.log ++ [Call.destroy_video_service] ++
      (if st.dx.d3ddec ≠ 0 then [Call.Release_d3ddec st.dx.d3ddec] else []) }

/-- The function `DestroyDeviceManager`. -/
def DestroyDeviceManager {W : Type} (cb : callbacks W) (st : State W) : State W :=
  { st with
    world := cb.pf_destroy_device_manager st.world,
    log := st.log ++ [Call.destroy_device_manager] }

/-- The function `DestroyDevice`. -/
def DestroyDevice {W : Type} (cb : callbacks W) (st : State W) : State W :=
  { st with
    world := cb.pf_destroy_device st.world,
    log := st.log ++ [Call.destroy_device] ++
      (if st.dx.d3ddev ≠ 0 then [Call.Release_d3ddev st.dx.d3ddev] else []) }

/-- The function `directx_va_Close`. -/
def directx_va_Close {W : Type} (cb : callbacks W) (st : State W) : State W :=
  let st1 := DestroyVideoDecoder cb st
  let st2 := DestroyVideoService cb st1
  let st3 := DestroyDeviceManager cb st2
  let st4 := DestroyDevice cb st3
  if st4.dx.hdecoder_dll ≠ 0 then
    { st4 with log := st4.log ++ [Call.FreeLibrary st4.dx.hdecoder_dll] }
  else st4

/-! ## Sequences of operations -/

/-- A session in use: the state and the bindings of the caller's pictures, a
pair `(picture, slot)` for every picture whose `context` points to a slot. -/
structure Session (W : Type) where
  st : State W
  bound : List (Nat × Nat)

/-- An operation of the caller: Setup with a codec context, Acquire for a
picture, Release of a picture, or the teardown of the pool. -/
inductive Op where
  | setup (avctx : AVCodecContext)
  | get (pic : Nat)
  | release (pic : Nat)
  | teardown
  deriving DecidableEq, Repr

/-- The bindings once the picture `p` has the context it has now. -/
def bind_picture (bound : List (Nat × Nat)) (p : picture_t) : List (Nat × Nat) :=
  match p.context with
  | some i => (p.handle, i) :: bound.filter (fun b => decide (b.1 ≠ p.handle))
  | none => bound.filter (fun b => decide (b.1 ≠ p.handle))

/-- One operation on a session; `none` when `directx_va_Release` cannot be
made: the picture has no context, or the slot it is bound to has no lock
pointer. -/
def step {W : Type} (cb : callbacks W) (MAX_SURFACE_COUNT : Int) :
    Op → Session W → Option (Session W)
  | Op.setup avctx, s =>
    some { s with st := (directx_va_Setup cb MAX_SURFACE_COUNT avctx s.st).2.2 }
  | Op.get pic, s =>
    let r := directx_va_Get cb ⟨pic, s.bound.lookup pic⟩ 0 s.st
    some { st := r.st, bound := bind_picture s.bound r.pic }
  | Op.release pic, s =>
    match directx_va_Release ⟨pic, s.bound.lookup pic⟩ s.st with
    | none => none
    | some r => some { st := r.2, bound := bind_picture s.bound r.1 }
  | Op.teardown, s => some { s with st := DestroyVideoDecoder cb s.st }

/-- A sequence of operations, each of them admitted by `adm` in the session it
is applied to; `none` when one is not, or cannot be made. -/
def run_where {W : Type} (cb : callbacks W) (MAX_SURFACE_COUNT : Int)
    (adm : Op → Session W → Bool) : List Op → Session W → Option (Session W)
  | [], s => some s
  | op :: ops, s =>
    if adm op s then
      match step cb MAX_SURFACE_COUNT op s with
      | some s1 => run_where cb MAX_SURFACE_COUNT adm ops s1
      | none => none
    else none

/-- A sequence of operations without any condition on them. -/
def run {W : Type} (cb : callbacks W) (MAX_SURFACE_COUNT : Int) :
    List Op → Session W → Option (Session W) :=
  run_where cb MAX_SURFACE_COUNT (fun _ _ => true)

/-! ## Notions of the specification -/

/-- The allowed-profile list of an entry: the elements of its zero-terminated
array before the terminator (empty for `NULL`). -/
def allowed_profiles (mode : directx_va_mode_t) : List Int :=
  (mode.p_profiles.getD []).takeWhile (fun p => decide (p ≠ 0))

/-- The acceptance condition of the negotiation for a table entry: a non-zero
codec equal to the requested one, a GUID among the candidates, a supported
profile, and the confirmation of the callback. -/
def mode_accepted (hp : nal_helpers) (fmt : es_format_t) (codec_id : AVCodecID)
    (p_list : List GUID) (confirm : GUID → Int) (mode : directx_va_mode_t) : Bool :=
  decide (mode.codec ≠ AVCodecID.NONE) && decide (mode.codec = codec_id)
    && decide (mode.guid ∈ p_list) && profile_supported hp mode fmt
    && decide (confirm mode.guid = VLC_SUCCESS)

/-- Is a call a confirmation callback (`pf_setup_output`). -/
def Call.is_setup_output : Call → Bool
  | Call.setup_output _ => true
  | _ => false

/-- Is a call an allocation: `pf_create_decoder_surfaces` or
`pf_alloc_surface_pic`. -/
def Call.is_allocation : Call → Bool
  | Call.create_decoder_surfaces _ _ => true
  | Call.alloc_surface_pic _ _ => true
  | _ => false

/-! ## Sample inputs -/

/-- The packetizer helpers as they answer on a stream whose parameter sets
carry H.264 `profile_idc` 110 (High 10) and HEVC `general_profile_idc` 2
(Main 10). -/
def helpers_high10 : nal_helpers :=
  { h264_get_profile_level := fun _ => some 110,
    hevc_get_profile_level := fun _ => some 2 }

/-- Packetizer helpers that find no parameter set. -/
def helpers_none : nal_helpers :=
  { h264_get_profile_level := fun _ => none,
    hevc_get_profile_level := fun _ => none }

/-- A stream format with the generic profile left unknown (`-1`). -/
def fmt_unknown_profile : es_format_t :=
  { i_profile := -1, video := ⟨1920, 1080, 25, 1⟩, p_extra := [] }

/-- The table entry of source line 176. -/
def mode_h264_e : directx_va_mode_t :=
  ⟨"H.264 variable-length decoder, no film grain technology",
    DXVA2_ModeH264_E, AVCodecID.H264, some PROF_H264_HIGH⟩

/-- The table entry of source line 227. -/
def mode_hevc_main : directx_va_mode_t :=
  ⟨"HEVC Main profile",
    DXVA_ModeHEVC_VLD_Main, AVCodecID.HEVC, some PROF_HEVC_MAIN⟩

/-- A zero-initialised session for an HEVC stream, with 64 pool slots. -/
def sample_dx : directx_sys_t :=
  { codec_id := AVCodecID.HEVC, width := 0, height := 0, hdecoder_dll := 0, d3ddev := 0,
    input := DEFINE_GUID 0 0 0 0 0 0 0 0 0 0 0, d3ddec := 0, decoder := 0,
    surface_count := 0, surface_order := 0, surface_width := 0, surface_height := 0,
    thread_count := 0,
    surface := List.replicate 64 ⟨0, 0, 0, 0⟩,
    hw_surface := List.replicate 64 0 }

/-- The candidate list of the sample platform. -/
def sample_candidates : List GUID :=
  [DXVA_ModeHEVC_VLD_Main10, DXVA2_ModeH264_E, DXVA_ModeHEVC_VLD_Main]

/-- The confirmation of the sample platform: every mode but HEVC Main. -/
def sample_confirm (g : GUID) : Int :=
  if g = DXVA_ModeHEVC_VLD_Main then VLC_EGENERIC else VLC_SUCCESS

/-- A sample platform without collaborator state: every step succeeds, the
confirmation callback refuses HEVC Main only, payload `i` is the handle
`200 + i` and backing handle `i` is `100 + i`. -/
def sample_callbacks : callbacks Unit :=
  { LoadLibrary := fun w => (1, w),
    pf_check_device := fun w => (VLC_SUCCESS, w),
    pf_create_device := fun w => ((VLC_SUCCESS, 2), w),
    pf_destroy_device := fun w => w,
    pf_create_device_manager := fun w => (VLC_SUCCESS, w),
    pf_destroy_device_manager := fun w => w,
    pf_create_video_service := fun w => ((VLC_SUCCESS, 3), w),
    pf_destroy_video_service := fun w => w,
    pf_create_decoder_surfaces := fun w _ _ _ =>
      ((VLC_SUCCESS, 7, (List.range 64).map (fun i => 100 + i)), w),
    pf_destroy_surfaces := fun w => w,
    pf_setup_avcodec_ctx := fun w => w,
    pf_get_input_list := fun w => ((VLC_SUCCESS, sample_candidates), w),
    pf_setup_output := fun w g _ => (sample_confirm g, w),
    pf_alloc_surface_pic := fun w _ i => (200 + i, w) }

/-- The sample platform with the candidate list replaced. -/
def sample_callbacks_with_list (l : List GUID) : callbacks Unit :=
  { sample_callbacks with pf_get_input_list := fun w => ((VLC_SUCCESS, l), w) }

/-- The zero-initialised sample session before any call. -/
def sample_state : State Unit := { dx := sample_dx, world := (), log := [] }

/-- The sample codec context of the specification: HEVC, coded size 1920x1082,
no frame threading. -/
def sample_avctx : AVCodecContext :=
  { codec_id := AVCodecID.HEVC, coded_width := 1920, coded_height := 1082,
    active_thread_type := 0, thread_count := 1, framerate_num := 25, framerate_den := 1,
    hwaccel_context := 5 }

/-- The sample platform with a payload allocator that returns `NULL` at index
`2`. -/
def sample_callbacks_alloc_fail : callbacks Unit :=
  { sample_callbacks with
    pf_alloc_surface_pic := fun w _ i => (if i = 2 then 0 else 200 + i, w) }

/-- The extra surfaces the specification gives per codec. -/
def spec_extra_surfaces (codec_id : AVCodecID) : Int :=
  if codec_id = AVCodecID.MPEG2VIDEO then 2
  else if codec_id = AVCodecID.HEVC then 16
  else if codec_id = AVCodecID.H264 then 16
  else 2

/-- The surface alignment the specification gives per codec. -/
def spec_alignment (codec_id : AVCodecID) : Int :=
  if codec_id = AVCodecID.MPEG2VIDEO then 32
  else if codec_id = AVCodecID.HEVC then 128
  else 16

/-- The threading headroom of the specification: `thread_count` when the
`FF_THREAD_FRAME` bit of `active_thread_type` is set, `0` otherwise. -/
def spec_threading_extra (active_thread_type thread_count : Int) : Int :=
  if Int.land active_thread_type FF_THREAD_FRAME ≠ 0 then thread_count else 0

/-- The sample codec context with frame threading switched on. -/
def sample_avctx_threaded : AVCodecContext :=
  { sample_avctx with active_thread_type := 1 }

/-- The sample codec context with the largest 32-bit coded width. -/
def sample_avctx_huge : AVCodecContext :=
  { sample_avctx with coded_width := 2147483647 }

/-- The sample session with a recorded thread count. -/
def sample_state_threads (thread_count : Int) : State Unit :=
  { dx := { sample_dx with thread_count := thread_count }, world := (), log := [] }

/-- The value `r` is the smallest multiple of `a` that is at least `x`. -/
def is_least_multiple (a x r : Int) : Prop :=
  a ∣ r ∧ x ≤ r ∧ ∀ m : Int, a ∣ m → x ≤ m → r ≤ m

/-- A pool of three surfaces with the given reference counts and generations,
the lock pointer set, payloads 201 to 203 and backing handles 101 to 103, on a
live decoder. -/
def sample_pool (refcounts orders : List Int) : State Unit :=
  { dx :=
      { sample_dx with
        decoder := 7, surface_count := 3, surface_order := 8,
        width := 1920, height := 1082, surface_width := 1920, surface_height := 1152,
        surface :=
          [⟨refcounts.getD 0 0, orders.getD 0 0, surface_lock, 201⟩,
           ⟨refcounts.getD 1 0, orders.getD 1 0, surface_lock, 202⟩,
           ⟨refcounts.getD 2 0, orders.getD 2 0, surface_lock, 203⟩]
            ++ List.replicate 61 ⟨0, 0, 0, 0⟩,
        hw_surface := [101, 102, 103] ++ List.replicate 61 0 },
    world := (), log := [] }

/-- A picture of the caller without context. -/
def sample_pic : picture_t := { handle := 900, context := none }

/-- The sample platform with a failing device check. -/
def sample_callbacks_device_lost : callbacks Unit :=
  { sample_callbacks with pf_check_device := fun w => (VLC_EGENERIC, w) }

/-- The sample session before any call, no picture bound. -/
def sample_session : Session Unit := { st := sample_state, bound := [] }

/-- The sample session for an MPEG-2 stream (a pool of six surfaces). -/
def sample_session_mpeg2 : Session Unit :=
  { st := { dx := { sample_dx with codec_id := AVCodecID.MPEG2VIDEO }, world := (), log := [] },
    bound := [] }

/-- The slot `i` is the oldest of the slots below `n` that satisfy `p`: it
satisfies `p`, no such slot has a lower generation, and it is the first of those
with its generation. -/
def first_oldest (dx : directx_sys_t) (p : vlc_va_surface_t → Bool) (n i : Nat) : Prop :=
  i < n ∧ p (surface_at dx i) = true ∧
    ∀ j, j < n → p (surface_at dx j) = true →
      (surface_at dx i).order ≤ (surface_at dx j).order ∧
      ((surface_at dx j).order = (surface_at dx i).order → i ≤ j)

/-- Is a slot free: a reference count of zero. -/
def is_free (s : vlc_va_surface_t) : Bool := decide (s.refcount = 0)

/-- The value `r` of a loop variable of `get_loop` after the slots below `n`:
`-1` when none of them satisfies `p`, else the oldest of those that do. -/
def loop_value (dx : directx_sys_t) (p : vlc_va_surface_t → Bool) (n : Nat) (r : Int) : Prop :=
  (r = -1 ∧ ∀ j, j < n → p (surface_at dx j) = false) ∨
  (0 ≤ r ∧ first_oldest dx p n r.toNat)

/-- The sample codec context with the coded size 1280x720. -/
def sample_avctx_720 : AVCodecContext :=
  { sample_avctx with coded_width := 1280, coded_height := 720 }

/-- The sample platform with a payload allocator that depends on the size:
payload `i` is `300 + i` for a width of 1920 and `400 + i` otherwise, and the
allocation of index `2` fails for a width of 1280. -/
def sample_callbacks_rebuild_fail : callbacks Unit :=
  { sample_callbacks with
    pf_alloc_surface_pic := fun w fmt i =>
      (if fmt.i_width = 1280 ∧ i = 2 then 0
       else if fmt.i_width = 1920 then 300 + i else 400 + i, w) }

/-- The sample session after a successful Setup at 1920x1082 and a Setup at
1280x720 whose allocation fails at index 2. -/
def sample_rebuild_failed : State Unit :=
  (directx_va_Setup sample_callbacks_rebuild_fail 64 sample_avctx_720
    (directx_va_Setup sample_callbacks_rebuild_fail 64 sample_avctx sample_state).2.2).2.2

/-- The releases of platform handles inside the service and device steps of
the close: `d3ddec`, `d3ddev` and the library. -/
def Call.is_handle_release : Call → Bool
  | Call.Release_d3ddec _ => true
  | Call.Release_d3ddev _ => true
  | Call.FreeLibrary _ => true
  | _ => false

/-- The calls of `DestroyVideoDecoder` on a session: the collaborator hook, the
release of the backing handles and of the payloads of the pool, and the
release of the decoder when there is one. -/
def teardown_trace (dx : directx_sys_t) : List Call :=
  [Call.destroy_surfaces]
    ++ (dx.hw_surface.take dx.surface_count.toNat).map Call.Release_hw_surface
    ++ ((dx.surface.take dx.surface_count.toNat).filter
          (fun s => decide (s.p_pic ≠ 0))).map (fun s => Call.picture_Release s.p_pic)
    ++ (if dx.decoder ≠ 0 then [Call.Release_decoder dx.decoder] else [])

/-- The number of pictures bound to the slot `i`. -/
def bindings_to (bound : List (Nat × Nat)) (i : Nat) : Nat :=
  (bound.filter (fun b => decide (b.2 = i))).length

/-- A session as it is before its first use: no picture bound, an empty pool,
a generation counter of 0 and every slot with reference count and generation
0 (the zero-initialised structure). -/
def fresh_session {W : Type} (s : Session W) : Prop :=
  s.bound = [] ∧ s.st.dx.surface_count = 0 ∧ s.st.dx.surface_order = 0 ∧
    ∀ x ∈ s.st.dx.surface, x.refcount = 0 ∧ x.order = 0

/-- Does the pool hold a surface with reference count 0. -/
def has_free_surface (dx : directx_sys_t) : Bool :=
  (List.range dx.surface_count.toNat).any (fun j => is_free (surface_at dx j))

/-- The operations of an exclusive use of the pool: an Acquire is made only
when the pool holds a free surface, and a Setup that is not on the fast path
only while no picture is bound. -/
def adm_exclusive {W : Type} : Op → Session W → Bool
  | Op.get _, s => has_free_surface s.st.dx
  | Op.setup avctx, s => setup_fast_path s.st.dx avctx || s.bound.isEmpty
  | _, _ => true

/-- The operations while the generation counter has room: an Acquire is made
only below the largest `int`. -/
def adm_counter {W : Type} : Op → Session W → Bool
  | Op.get _, s => decide (s.st.dx.surface_order < 2147483647)
  | _, _ => true

/-- The reference counts of a session agree with its bindings: the pool lies in
the array, and every slot has a reference count of 0 or 1 that is at least the
number of pictures bound to it. -/
def exclusive_inv {W : Type} (MAX_SURFACE_COUNT : Int) (s : Session W) : Prop :=
  MAX_SURFACE_COUNT ≤ s.st.dx.surface.length ∧
  s.st.dx.surface_count ≤ MAX_SURFACE_COUNT ∧
  ∀ i, (bindings_to s.bound i : Int) ≤ (surface_at s.st.dx i).refcount ∧
    (surface_at s.st.dx i).refcount ≤ 1

/-- The generations of a session are in order: the counter is not negative,
every generation lies between 0 and the counter, and two different slots do not
share a generation other than 0. -/
def generation_inv (dx : directx_sys_t) : Prop :=
  0 ≤ dx.surface_order ∧
  (∀ i, 0 ≤ (surface_at dx i).order ∧ (surface_at dx i).order ≤ dx.surface_order) ∧
  ∀ i j, i ≠ j → (surface_at dx i).order ≠ 0 → (surface_at dx i).order ≠ (surface_at dx j).order

/-- A short exclusive use of the six-surface pool: Setup, two Acquires, a
Release and a third Acquire. -/
def sample_ops : List Op :=
  [Op.setup sample_avctx, Op.get 1, Op.get 2, Op.release 1, Op.get 3]

/-- The session the short exclusive use ends in. -/
def sample_ops_result : Session Unit :=
  (run_where sample_callbacks 64 adm_exclusive sample_ops sample_session_mpeg2).getD
    sample_session_mpeg2

/-- Seven Acquires on the six-surface pool without any Release. -/
def sample_ops_exhaust : List Op :=
  [Op.setup sample_avctx, Op.get 1, Op.get 2, Op.get 3, Op.get 4, Op.get 5, Op.get 6,
   Op.get 7]

/-- The session the short use ends in when only the counter is watched. -/
def sample_ops_counter_result : Session Unit :=
  (run_where sample_callbacks 64 adm_counter sample_ops sample_session_mpeg2).getD
    sample_session_mpeg2

/-- The sample codec context with a coded width of 0. -/
def sample_avctx_no_width : AVCodecContext :=
  { sample_avctx with coded_width := 0 }

/-- Is a call one of the negotiation: the query of the candidate list, a
confirmation, or the release of the list. -/
def Call.is_negotiation : Call → Bool
  | Call.get_input_list => true
  | Call.setup_output _ => true
  | Call.release_input_list => true
  | _ => false

/-- Is a call the destruction of something an Open creates: the destroy hooks
of the video service, device manager and device, the release of the `d3ddec`
and `d3ddev` handles, and the freeing of the library. -/
def Call.is_destroy : Call → Bool
  | Call.destroy_video_service => true
  | Call.Release_d3ddec _ => true
  | Call.destroy_device_manager => true
  | Call.destroy_device => true
  | Call.Release_d3ddev _ => true
  | Call.FreeLibrary _ => true
  | _ => false

/-- The world in which an Open creates the device: the one the loader leaves
when a library is asked for. -/
def open_world_device {W : Type} (cb : callbacks W) (b_dll : Bool) (w : W) : W :=
  if b_dll then (cb.LoadLibrary w).2 else w

/-- The world in which an Open creates the device manager. -/
def open_world_manager {W : Type} (cb : callbacks W) (b_dll : Bool) (w : W) : W :=
  (cb.pf_create_device (open_world_device cb b_dll w)).2

/-- The world in which an Open creates the video service. -/
def open_world_service {W : Type} (cb : callbacks W) (b_dll : Bool) (w : W) : W :=
  (cb.pf_create_device_manager (open_world_manager cb b_dll w)).2

/-- The state in which an Open enters the negotiation, after the library and
the three creation steps. -/
def open_state_negotiation {W : Type} (cb : callbacks W) (ctx : AVCodecContext)
    (b_dll : Bool) (st : State W) : State W :=
  { dx :=
      { st.dx with
        codec_id := ctx.codec_id,
        hdecoder_dll := if b_dll then (cb.LoadLibrary st.world).1 else st.dx.hdecoder_dll,
        d3ddev := (cb.pf_create_device (open_world_device cb b_dll st.world)).1.2,
        d3ddec := (cb.pf_create_video_service (open_world_service cb b_dll st.world)).1.2 },
    world := (cb.pf_create_video_service (open_world_service cb b_dll st.world)).2,
    log := st.log ++ (if b_dll then [Call.LoadLibrary] else []) ++
      [Call.create_device, Call.create_device_manager, Call.create_video_service] }

/-- Does the library step of an Open pass: no library is asked for, or the
loader yields a handle. -/
def library_loaded {W : Type} (cb : callbacks W) (b_dll : Bool) (w : W) : Bool :=
  !b_dll || decide ((cb.LoadLibrary w).1 ≠ 0)

/-- Does the device creation of an Open report success, in the world it is
made in. -/
def device_created {W : Type} (cb : callbacks W) (b_dll : Bool) (w : W) : Bool :=
  decide ((cb.pf_create_device (open_world_device cb b_dll w)).1.1 = 0)

/-- Does the device-manager creation of an Open report success. -/
def device_manager_created {W : Type} (cb : callbacks W) (b_dll : Bool) (w : W) : Bool :=
  decide ((cb.pf_create_device_manager (open_world_manager cb b_dll w)).1 = 0)

/-- Does the video-service creation of an Open report success. -/
def video_service_created {W : Type} (cb : callbacks W) (b_dll : Bool) (w : W) : Bool :=
  decide ((cb.pf_create_video_service (open_world_service cb b_dll w)).1.1 = 0)

/-- Does the negotiation of an Open report success, in the state it is
entered in. -/
def mode_negotiated {W : Type} (cb : callbacks W) (hp : nal_helpers) (vp9 : Bool)
    (ctx : AVCodecContext) (fmt : es_format_t) (b_dll : Bool) (st : State W) : Bool :=
  decide ((FindVideoServiceConversion cb hp vp9 fmt
    (open_state_negotiation cb ctx b_dll st)).1 = 0)

/-- The calls the negotiation of an Open makes. -/
def negotiation_calls {W : Type} (cb : callbacks W) (hp : nal_helpers) (vp9 : Bool)
    (ctx : AVCodecContext) (fmt : es_format_t) (b_dll : Bool) (st : State W) : List Call :=
  (FindVideoServiceConversion cb hp vp9 fmt (open_state_negotiation cb ctx b_dll st)).2.log.drop
    (open_state_negotiation cb ctx b_dll st).log.length

/-- The calls of an Open as the specification orders them: the loader when a
library is asked for, then device, device manager, video service and the
negotiation, each made only when every step before it passed. -/
def spec_open_calls {W : Type} (cb : callbacks W) (hp : nal_helpers) (vp9 : Bool)
    (ctx : AVCodecContext) (fmt : es_format_t) (b_dll : Bool) (st : State W) : List Call :=
  (if b_dll then [Call.LoadLibrary] else []) ++
  (if library_loaded cb b_dll st.world then
    Call.create_device ::
    (if device_created cb b_dll st.world then
      Call.create_device_manager ::
      (if device_manager_created cb b_dll st.world then
        Call.create_video_service ::
        (if video_service_created cb b_dll st.world then
          negotiation_calls cb hp vp9 ctx fmt b_dll st
        else [])
      else [])
    else [])
  else [])

/-- The sample platform with a loader that finds no library. -/
def sample_callbacks_no_library : callbacks Unit :=
  { sample_callbacks with LoadLibrary := fun w => (0, w) }

/-- The sample platform with a failing device-manager creation. -/
def sample_callbacks_no_manager : callbacks Unit :=
  { sample_callbacks with pf_create_device_manager := fun w => (VLC_EGENERIC, w) }

/-- The three-surface sample pool with the generation counter at the largest
`int`: surfaces 0 and 2 are referenced, surface 1 is free. -/
def sample_pool_counter_max : State Unit :=
  { sample_pool [1, 0, 1] [2147483647, 2147483645, 2147483646] with
    dx := { (sample_pool [1, 0, 1] [2147483647, 2147483645, 2147483646]).dx with
            surface_order := 2147483647 } }

/-- A long use of a session before its first Setup: 2147483648 Acquires for
the picture 1, then a Setup. -/
def sample_ops_wrap : List Op :=
  List.replicate 2147483648 (Op.get 1) ++ [Op.setup sample_avctx]

/-- The index a successful Acquire returns: the slot the picture's `context` is
left pointing to when `directx_va_Get` returns `VLC_SUCCESS`; nothing for a
failed Acquire and for the other operations. -/
def acquired_by {W : Type} (cb : callbacks W) : Op → Session W → List Nat
  | Op.get pic, s =>
    if (directx_va_Get cb ⟨pic, s.bound.lookup pic⟩ 0 s.st).status = VLC_SUCCESS then
      (directx_va_Get cb ⟨pic, s.bound.lookup pic⟩ 0 s.st).pic.context.toList
    else []
  | _, _ => []

/-- The indices the successful Acquires of a sequence of operations return, in
the order of the calls.  The sequence ends at an operation that cannot be
made. -/
def acquired {W : Type} (cb : callbacks W) (MAX_SURFACE_COUNT : Int) :
    List Op → Session W → List Nat
  | [], _ => []
  | op :: ops, s =>
    match step cb MAX_SURFACE_COUNT op s with
    | none => []
    | some s1 => acquired_by cb op s ++ acquired cb MAX_SURFACE_COUNT ops s1

/-- Is an operation an Acquire or a Release. -/
def Op.is_get_or_release : Op → Bool
  | Op.get _ => true
  | Op.release _ => true
  | _ => false

/-- The six-surface sample session after a Setup and four Acquires, for the
pictures 1 to 4, none of them released. -/
def sample_session_held : Session Unit :=
  (run sample_callbacks 64
    [Op.setup sample_avctx, Op.get 1, Op.get 2, Op.get 3, Op.get 4] sample_session_mpeg2).getD
    sample_session_mpeg2

/-- The session after a second Setup, at 1280x720, while the four pictures are
still held. -/
def sample_session_rebuilt : Session Unit :=
  (run sample_callbacks 64 [Op.setup sample_avctx_720] sample_session_held).getD
    sample_session_held

/-- The release of the picture 4, held since before the second Setup, and four
Acquires. -/
def sample_ops_stale : List Op :=
  [Op.release 4, Op.get 5, Op.get 6, Op.get 7, Op.get 8]

/-- The six-surface sample session right after its first Setup. -/
def sample_session_built : Session Unit :=
  { st := (directx_va_Setup sample_callbacks 64 sample_avctx sample_session_mpeg2.st).2.2,
    bound := [] }

/-- Acquires and Releases on the fresh pool: the first picture is released and
acquired again between the others. -/
def sample_ops_recycle : List Op :=
  [Op.get 1, Op.release 1, Op.get 1, Op.get 2, Op.release 1, Op.get 3, Op.get 4,
   Op.release 3, Op.get 5, Op.get 6]

/-- A Setup and four Acquires, for the pictures 1 to 4. -/
def sample_ops_half_built : List Op :=
  [Op.setup sample_avctx, Op.get 1, Op.get 2, Op.get 3, Op.get 4]

/-! ## Theorems: profile acceptance -/

theorem profile_loop_eq_mem (profile : Int) (hpos : profile ≠ 0) (ps : List Int) :
    profile_loop profile ps = true ↔
      profile ∈ ps.takeWhile (fun p => decide (p ≠ 0)) := by
  induction ps with
  | nil => simp [profile_loop]
  | cons p ps ih =>
    by_cases hp0 : p = 0
    · simp [profile_loop, hp0, List.takeWhile]
    · by_cases hpp : p = profile
      · simp [profile_loop, hp0, hpp, List.takeWhile, hpos]
      · have hne : ¬ profile = p := fun h => hpp h.symm
        simp [profile_loop, hp0, hpp, List.takeWhile, ih, hne]

theorem allowed_profiles_eq_nil_iff (mode : directx_va_mode_t) :
    allowed_profiles mode = [] ↔ no_profile_restriction mode = true := by
  unfold allowed_profiles no_profile_restriction
  cases hm : mode.p_profiles with
  | none => simp
  | some ps =>
    cases ps with
    | nil => simp
    | cons p ps =>
      by_cases hp0 : p = 0 <;> simp [List.takeWhile, hp0]

theorem profile_supported_char (hp : nal_helpers) (mode : directx_va_mode_t)
    (fmt : es_format_t) :
    profile_supported hp mode fmt = true ↔
      (allowed_profiles mode = [] ∨ effective_profile hp mode fmt ≤ 0 ∨
        effective_profile hp mode fmt ∈ allowed_profiles mode) := by
  rw [allowed_profiles_eq_nil_iff]
  unfold profile_supported
  by_cases h1 : no_profile_restriction mode = true
  · simp [h1]
  · by_cases h2 : effective_profile hp mode fmt ≤ 0
    · simp [h1, h2]
    · have hne : effective_profile hp mode fmt ≠ 0 := by omega
      have hl := profile_loop_eq_mem _ hne (mode.p_profiles.getD [])
      simp [h1, h2, hl, allowed_profiles]

/-- C3 (amended): `profile_supported` returns true exactly when the entry has
no profile restriction (`NULL` or an empty list), or the effective profile (the
generic `i_profile`, replaced by the codec helper's result for an H.264 or HEVC
entry when the helper succeeds) is `<= 0`, or the effective profile is an
element of the entry's zero-terminated allowed-profile list. -/
theorem profile_supported_iff_effective (hp : nal_helpers) (mode : directx_va_mode_t)
    (fmt : es_format_t) :
    profile_supported hp mode fmt = true ↔
      (allowed_profiles mode = [] ∨ effective_profile hp mode fmt ≤ 0 ∨
        effective_profile hp mode fmt ∈ allowed_profiles mode) :=
  profile_supported_char hp mode fmt

/-- C3 (counterexample): for the HEVC Main entry and a stream whose generic
profile is unknown (`-1`) while the HEVC helper extracts Main 10, the claimed
equivalence fails: the generic profile is `<= 0` but the entry is rejected. -/
theorem profile_supported_not_iff_generic :
    mode_hevc_main ∈ DXVA_MODES true ∧
    ¬ (profile_supported helpers_high10 mode_hevc_main fmt_unknown_profile = true ↔
        (allowed_profiles mode_hevc_main = [] ∨ fmt_unknown_profile.i_profile ≤ 0 ∨
          fmt_unknown_profile.i_profile ∈ allowed_profiles mode_hevc_main)) := by
  refine ⟨by simp [DXVA_MODES, mode_hevc_main], ?_⟩
  intro h
  have hr : fmt_unknown_profile.i_profile ≤ 0 := by decide
  have ht := h.mpr (Or.inr (Or.inl hr))
  revert ht
  decide

/-- C2 (counterexample): for the H.264 entry of line 176 and a stream whose
generic profile is `-1` while the H.264 helper extracts High 10 (110),
`profile_supported` returns false. -/
theorem profile_supported_rejects_nonpositive_generic :
    mode_h264_e ∈ DXVA_MODES true ∧ fmt_unknown_profile.i_profile ≤ 0 ∧
    profile_supported helpers_high10 mode_h264_e fmt_unknown_profile = false := by
  refine ⟨by simp [DXVA_MODES, mode_h264_e], by decide, by decide⟩

/-- C2 (amended): if the effective profile (the generic `i_profile`, replaced
by the codec helper's result for an H.264 or HEVC entry when the helper
succeeds) is `<= 0`, then `profile_supported` returns true for every entry,
whatever its profile restriction. -/
theorem profile_supported_of_effective_nonpos (hp : nal_helpers) (mode : directx_va_mode_t)
    (fmt : es_format_t) (h : effective_profile hp mode fmt ≤ 0) :
    profile_supported hp mode fmt = true :=
  (profile_supported_char hp mode fmt).mpr (Or.inr (Or.inl h))

theorem profile_supported_of_effective_nonpos_witness :
    effective_profile helpers_none mode_h264_e fmt_unknown_profile ≤ 0 ∧
    profile_supported helpers_none mode_h264_e fmt_unknown_profile = true :=
  ⟨by decide,
   profile_supported_of_effective_nonpos helpers_none mode_h264_e fmt_unknown_profile
     (by decide)⟩

/-! ## Theorems: mode negotiation -/

theorem guid_loop_eq_mem (guid : GUID) (l : List GUID) :
    guid_loop guid l = decide (guid ∈ l) := by
  induction l with
  | nil => simp [guid_loop]
  | cons g gs ih =>
    by_cases hg : guid = g
    · simp [guid_loop, IsEqualGUID, hg]
    · simp [guid_loop, IsEqualGUID, hg, ih]

theorem guid_loop_congr (guid : GUID) (l1 l2 : List GUID) (h : ∀ g, g ∈ l1 ↔ g ∈ l2) :
    guid_loop guid l1 = guid_loop guid l2 := by
  rw [guid_loop_eq_mem, guid_loop_eq_mem]
  simp [h guid]

theorem mode_loop_congr {W : Type} (cb : callbacks W) (hp : nal_helpers) (fmt : es_format_t)
    (l1 l2 : List GUID) (h : ∀ g, g ∈ l1 ↔ g ∈ l2) (table : List directx_va_mode_t) :
    ∀ st : State W, mode_loop cb hp fmt l1 table st = mode_loop cb hp fmt l2 table st := by
  induction table with
  | nil => intro st; rfl
  | cons mode rest ih =>
    intro st
    simp only [mode_loop, guid_loop_congr mode.guid l1 l2 h, ih]

theorem mode_loop_same_callback {W : Type} (cb1 cb2 : callbacks W) (hp : nal_helpers)
    (fmt : es_format_t) (l : List GUID) (h : cb2.pf_setup_output = cb1.pf_setup_output)
    (table : List directx_va_mode_t) :
    ∀ st : State W, mode_loop cb1 hp fmt l table st = mode_loop cb2 hp fmt l table st := by
  induction table with
  | nil => intro st; rfl
  | cons mode rest ih =>
    intro st
    simp only [mode_loop, h, ih]

/-- Does the mode loop offer the entry to the confirmation callback. -/
theorem mode_loop_cons {W : Type} (cb : callbacks W) (hp : nal_helpers) (fmt : es_format_t)
    (l : List GUID) (mode : directx_va_mode_t) (rest : List directx_va_mode_t) (st : State W) :
    mode_loop cb hp fmt l (mode :: rest) st =
      if (decide (mode.codec ≠ AVCodecID.NONE) && decide (mode.codec = st.dx.codec_id)
          && decide (mode.guid ∈ l) && profile_supported hp mode fmt) = true then
        if (cb.pf_setup_output st.world mode.guid fmt.video).1 = VLC_SUCCESS then
          (VLC_SUCCESS,
            { dx := { st.dx with input := mode.guid },
              world := (cb.pf_setup_output st.world mode.guid fmt.video).2,
              log := st.log ++ [Call.setup_output mode.guid] })
        else
          mode_loop cb hp fmt l rest
            { dx := st.dx,
              world := (cb.pf_setup_output st.world mode.guid fmt.video).2,
              log := st.log ++ [Call.setup_output mode.guid] }
      else mode_loop cb hp fmt l rest st := by
  rw [mode_loop, guid_loop_eq_mem]
  by_cases h1 : mode.codec = AVCodecID.NONE
  · simp [h1]
  · by_cases h2 : mode.codec = st.dx.codec_id
    · by_cases h3 : mode.guid ∈ l
      · by_cases h4 : profile_supported hp mode fmt = true
        · simp [h1, h2, h3, h4]
        · simp [h1, h2, h3, h4]
      · simp [h1, h2, h3]
    · simp [h1, h2]

/-- The calls a run of the mode loop adds to the log are confirmation
callbacks; when it adds none it leaves the state as it is and fails. -/
theorem mode_loop_frame {W : Type} (cb : callbacks W) (hp : nal_helpers) (fmt : es_format_t)
    (l : List GUID) (table : List directx_va_mode_t) :
    ∀ st : State W, ∃ extra : List Call,
      (mode_loop cb hp fmt l table st).2.log = st.log ++ extra ∧
      (∀ c ∈ extra, c.is_setup_output = true) ∧
      (extra = [] → (mode_loop cb hp fmt l table st).2 = st ∧
        (mode_loop cb hp fmt l table st).1 = VLC_EGENERIC) := by
  induction table with
  | nil => intro st; exact ⟨[], by simp [mode_loop]⟩
  | cons mode rest ih =>
    intro st
    rw [mode_loop_cons]
    split
    · split
      · refine ⟨[Call.setup_output mode.guid], by simp, ?_, by simp⟩
        intro c hc
        simp at hc
        subst hc
        rfl
      · obtain ⟨extra, h1, h2, _⟩ := ih
          { dx := st.dx, world := (cb.pf_setup_output st.world mode.guid fmt.video).2,
            log := st.log ++ [Call.setup_output mode.guid] }
        refine ⟨Call.setup_output mode.guid :: extra, ?_, ?_, by simp⟩
        · rw [h1]; simp
        · intro c hc
          rcases List.mem_cons.mp hc with rfl | hc
          · rfl
          · exact h2 c hc
    · exact ih st

/-- When no entry is accepted the mode loop fails and leaves the session as it
is. -/
theorem mode_loop_none {W : Type} (cb : callbacks W) (hp : nal_helpers) (fmt : es_format_t)
    (l : List GUID) (confirm : GUID → Int)
    (hcb : ∀ w g v, (cb.pf_setup_output w g v).1 = confirm g)
    (table : List directx_va_mode_t) :
    ∀ st : State W,
      (∀ m ∈ table, mode_accepted hp fmt st.dx.codec_id l confirm m = false) →
      (mode_loop cb hp fmt l table st).1 = VLC_EGENERIC ∧
      (mode_loop cb hp fmt l table st).2.dx = st.dx := by
  induction table with
  | nil => intro st _; simp [mode_loop]
  | cons mode rest ih =>
    intro st hall
    have hm := hall mode (List.mem_cons_self _ _)
    have hrest : ∀ m ∈ rest, mode_accepted hp fmt st.dx.codec_id l confirm m = false :=
      fun m hmem => hall m (List.mem_cons_of_mem _ hmem)
    rw [mode_loop_cons]
    split
    · rename_i hoff
      have hconf : ¬ confirm mode.guid = VLC_SUCCESS := by
        intro hc
        simp only [mode_accepted, hoff, hc, decide_True, Bool.and_self] at hm
        exact Bool.noConfusion hm
      rw [hcb]
      simp only [hconf, if_false]
      exact ih _ hrest
    · exact ih st hrest

/-- The mode loop stops at the first accepted entry and stores its GUID. -/
theorem mode_loop_first {W : Type} (cb : callbacks W) (hp : nal_helpers) (fmt : es_format_t)
    (l : List GUID) (confirm : GUID → Int)
    (hcb : ∀ w g v, (cb.pf_setup_output w g v).1 = confirm g)
    (pre : List directx_va_mode_t) (m : directx_va_mode_t) (post : List directx_va_mode_t) :
    ∀ st : State W,
      (∀ m' ∈ pre, mode_accepted hp fmt st.dx.codec_id l confirm m' = false) →
      mode_accepted hp fmt st.dx.codec_id l confirm m = true →
      (mode_loop cb hp fmt l (pre ++ m :: post) st).1 = VLC_SUCCESS ∧
      (mode_loop cb hp fmt l (pre ++ m :: post) st).2.dx = { st.dx with input := m.guid } := by
  induction pre with
  | nil =>
    intro st _ hm
    simp only [mode_accepted, Bool.and_eq_true] at hm
    obtain ⟨hoff, hconf⟩ := hm
    have hconf2 : confirm m.guid = VLC_SUCCESS := by simpa using hconf
    have hoff2 : (decide (m.codec ≠ AVCodecID.NONE) && decide (m.codec = st.dx.codec_id)
          && decide (m.guid ∈ l) && profile_supported hp m fmt) = true := by
      simp only [Bool.and_eq_true]; exact hoff
    rw [List.nil_append, mode_loop_cons, if_pos hoff2, hcb, if_pos hconf2]
    exact ⟨rfl, rfl⟩
  | cons mode rest ih =>
    intro st hall hm
    have hmode := hall mode (List.mem_cons_self _ _)
    have hrest : ∀ m' ∈ rest, mode_accepted hp fmt st.dx.codec_id l confirm m' = false :=
      fun m' hmem => hall m' (List.mem_cons_of_mem _ hmem)
    rw [List.cons_append, mode_loop_cons]
    split
    · rename_i hoff
      have hconf : ¬ confirm mode.guid = VLC_SUCCESS := by
        intro hc
        simp only [mode_accepted, hoff, hc, decide_True, Bool.and_self] at hmode
        exact Bool.noConfusion hmode
      rw [hcb]
      simp only [hconf, if_false]
      exact ih _ hrest hm
    · exact ih st hrest hm

/-- A list with an element satisfying `p` splits at the first such element. -/
theorem exists_first_split {α : Type} (p : α → Bool) :
    ∀ l : List α, (∃ x ∈ l, p x = true) →
      ∃ pre x post, l = pre ++ x :: post ∧ p x = true ∧ ∀ y ∈ pre, p y = false := by
  intro l
  induction l with
  | nil => intro h; obtain ⟨x, hx, _⟩ := h; cases hx
  | cons a t ih =>
    intro h
    by_cases ha : p a = true
    · exact ⟨[], a, t, rfl, ha, by simp⟩
    · obtain ⟨x, hx, hpx⟩ := h
      have hxt : x ∈ t := by
        rcases List.mem_cons.mp hx with rfl | hxt
        · exact absurd hpx ha
        · exact hxt
      obtain ⟨pre, y, post, hl, hy, hpre⟩ := ih ⟨x, hxt, hpx⟩
      refine ⟨a :: pre, y, post, by rw [hl]; rfl, hy, ?_⟩
      intro z hz
      rcases List.mem_cons.mp hz with rfl | hz
      · simpa using ha
      · exact hpre z hz

theorem FindVideoServiceConversion_run {W : Type} (cb : callbacks W) (hp : nal_helpers)
    (vp9 : Bool) (fmt : es_format_t) (st : State W) (p_list : List GUID) (w1 : W)
    (hget : cb.pf_get_input_list st.world = ((VLC_SUCCESS, p_list), w1))
    (hne : p_list ≠ []) :
    FindVideoServiceConversion cb hp vp9 fmt st =
      ((mode_loop cb hp fmt p_list (DXVA_MODES vp9)
          { dx := st.dx, world := w1, log := st.log ++ [Call.get_input_list] }).1,
       { (mode_loop cb hp fmt p_list (DXVA_MODES vp9)
          { dx := st.dx, world := w1, log := st.log ++ [Call.get_input_list] }).2 with
         log := (mode_loop cb hp fmt p_list (DXVA_MODES vp9)
          { dx := st.dx, world := w1, log := st.log ++ [Call.get_input_list] }).2.log
            ++ [Call.release_input_list] }) := by
  have hlen : ¬ p_list.length = 0 := by
    intro h; exact hne (List.length_eq_zero.mp h)
  simp [FindVideoServiceConversion, hget, hlen]

theorem FindVideoServiceConversion_empty {W : Type} (cb : callbacks W) (hp : nal_helpers)
    (vp9 : Bool) (fmt : es_format_t) (st : State W)
    (hget : (cb.pf_get_input_list st.world).1.2 = []) :
    FindVideoServiceConversion cb hp vp9 fmt st =
      (if (cb.pf_get_input_list st.world).1.1 ≠ VLC_SUCCESS then
          (cb.pf_get_input_list st.world).1.1
        else VLC_EGENERIC,
       { dx := st.dx, world := (cb.pf_get_input_list st.world).2,
         log := st.log ++ [Call.get_input_list] }) := by
  unfold FindVideoServiceConversion
  by_cases he : (cb.pf_get_input_list st.world).1.1 = VLC_SUCCESS
  · simp [he, hget]
  · simp [he]

/-- C1: with a successful, non-empty candidate list and a confirmation callback
whose result is a fixed function `confirm` of the mode GUID,
`FindVideoServiceConversion` succeeds exactly when some entry of `DXVA_MODES`
is accepted (non-zero codec equal to the requested one, GUID among the
candidates, `profile_supported`, confirmed); on success the table splits at an
accepted entry before which no entry is accepted, and the stored input GUID is
that entry's; otherwise the result is `VLC_EGENERIC` and the session is
unchanged. -/
theorem FindVideoServiceConversion_first_accepted {W : Type} (cb : callbacks W)
    (hp : nal_helpers) (vp9 : Bool) (fmt : es_format_t) (st : State W) (p_list : List GUID)
    (w1 : W) (confirm : GUID → Int)
    (hget : cb.pf_get_input_list st.world = ((VLC_SUCCESS, p_list), w1))
    (hne : p_list ≠ [])
    (hcb : ∀ w g v, (cb.pf_setup_output w g v).1 = confirm g) :
    ((FindVideoServiceConversion cb hp vp9 fmt st).1 = VLC_SUCCESS ↔
      ∃ m ∈ DXVA_MODES vp9, mode_accepted hp fmt st.dx.codec_id p_list confirm m = true) ∧
    ((FindVideoServiceConversion cb hp vp9 fmt st).1 = VLC_SUCCESS →
      ∃ pre m post, DXVA_MODES vp9 = pre ++ m :: post ∧
        mode_accepted hp fmt st.dx.codec_id p_list confirm m = true ∧
        (∀ m' ∈ pre, mode_accepted hp fmt st.dx.codec_id p_list confirm m' = false) ∧
        (FindVideoServiceConversion cb hp vp9 fmt st).2.dx = { st.dx with input := m.guid }) ∧
    ((FindVideoServiceConversion cb hp vp9 fmt st).1 ≠ VLC_SUCCESS →
      (FindVideoServiceConversion cb hp vp9 fmt st).1 = VLC_EGENERIC ∧
      (FindVideoServiceConversion cb hp vp9 fmt st).2.dx = st.dx) := by
  rw [FindVideoServiceConversion_run cb hp vp9 fmt st p_list w1 hget hne]
  by_cases hex : ∃ m ∈ DXVA_MODES vp9,
      mode_accepted hp fmt st.dx.codec_id p_list confirm m = true
  · obtain ⟨pre, m, post, hsplit, hm, hpre⟩ := exists_first_split _ _ hex
    have hfirst := mode_loop_first cb hp fmt p_list confirm hcb pre m post
      { dx := st.dx, world := w1, log := st.log ++ [Call.get_input_list] } hpre hm
    rw [← hsplit] at hfirst
    refine ⟨⟨fun _ => hex, fun _ => hfirst.1⟩, ?_, ?_⟩
    · intro _
      exact ⟨pre, m, post, hsplit, hm, hpre, hfirst.2⟩
    · intro hcontra
      exact absurd hfirst.1 hcontra
  · have hall : ∀ m ∈ DXVA_MODES vp9,
        mode_accepted hp fmt st.dx.codec_id p_list confirm m = false := by
      intro m hm
      cases hacc : mode_accepted hp fmt st.dx.codec_id p_list confirm m with
      | false => rfl
      | true => exact absurd ⟨m, hm, hacc⟩ hex
    have hnone := mode_loop_none cb hp fmt p_list confirm hcb (DXVA_MODES vp9)
      { dx := st.dx, world := w1, log := st.log ++ [Call.get_input_list] } hall
    have hfail : ¬ (mode_loop cb hp fmt p_list (DXVA_MODES vp9)
        { dx := st.dx, world := w1, log := st.log ++ [Call.get_input_list] }).1 = VLC_SUCCESS := by
      rw [hnone.1]; decide
    refine ⟨⟨fun h => absurd h hfail, fun h => absurd h hex⟩, fun h => absurd h hfail, ?_⟩
    intro _
    exact ⟨hnone.1, hnone.2⟩

theorem FindVideoServiceConversion_first_accepted_witness :
    sample_callbacks.pf_get_input_list sample_state.world =
      ((VLC_SUCCESS, sample_candidates), ()) ∧
    sample_candidates ≠ [] ∧
    ((FindVideoServiceConversion sample_callbacks helpers_none true fmt_unknown_profile
        sample_state).1 = VLC_SUCCESS ↔
      ∃ m ∈ DXVA_MODES true,
        mode_accepted helpers_none fmt_unknown_profile sample_state.dx.codec_id
          sample_candidates sample_confirm m = true) :=
  ⟨rfl, by decide,
   (FindVideoServiceConversion_first_accepted sample_callbacks helpers_none true
      fmt_unknown_profile sample_state sample_candidates () sample_confirm rfl (by decide)
      (fun _ _ _ => rfl)).1⟩

/-- On the sample platform the HEVC Main entry is refused by the callback and
the search goes on to HEVC Main 10, whose GUID is stored. -/
theorem FindVideoServiceConversion_sample :
    (FindVideoServiceConversion sample_callbacks helpers_none true fmt_unknown_profile
        sample_state).1 = VLC_SUCCESS ∧
    (FindVideoServiceConversion sample_callbacks helpers_none true fmt_unknown_profile
        sample_state).2.dx.input = DXVA_ModeHEVC_VLD_Main10 ∧
    (FindVideoServiceConversion sample_callbacks helpers_none true fmt_unknown_profile
        sample_state).2.log =
      [Call.get_input_list, Call.setup_output DXVA_ModeHEVC_VLD_Main,
        Call.setup_output DXVA_ModeHEVC_VLD_Main10, Call.release_input_list] := by
  refine ⟨by decide, by decide, by decide⟩

/-- C4: the result of `FindVideoServiceConversion` depends only on the set of
candidate GUIDs: when the candidate list `l1` is replaced by a list `l2` with
the same elements (a permutation of it, or one with duplicates added or
removed), the returned status and the whole resulting state, the selected mode
included, are the same. -/
theorem FindVideoServiceConversion_candidate_set {W : Type} (cb : callbacks W)
    (get2 : W → (Int × List GUID) × W) (hp : nal_helpers) (vp9 : Bool) (fmt : es_format_t)
    (st : State W) (e : Int) (l1 l2 : List GUID) (w1 : W)
    (h1 : cb.pf_get_input_list st.world = ((e, l1), w1))
    (h2 : get2 st.world = ((e, l2), w1))
    (hset : ∀ g, g ∈ l1 ↔ g ∈ l2) :
    FindVideoServiceConversion { cb with pf_get_input_list := get2 } hp vp9 fmt st =
      FindVideoServiceConversion cb hp vp9 fmt st := by
  have hlen : l2.length = 0 ↔ l1.length = 0 := by
    rw [List.length_eq_zero, List.length_eq_zero]
    constructor
    · intro h
      apply List.eq_nil_iff_forall_not_mem.mpr
      intro g hg
      have := (hset g).mp hg
      rw [h] at this
      cases this
    · intro h
      apply List.eq_nil_iff_forall_not_mem.mpr
      intro g hg
      have := (hset g).mpr hg
      rw [h] at this
      cases this
  have hloop : ∀ st' : State W,
      mode_loop { cb with pf_get_input_list := get2 } hp fmt l2 (DXVA_MODES vp9) st' =
        mode_loop cb hp fmt l1 (DXVA_MODES vp9) st' := by
    intro st'
    rw [← mode_loop_same_callback cb { cb with pf_get_input_list := get2 } hp fmt l2 rfl,
      mode_loop_congr cb hp fmt l1 l2 hset]
  unfold FindVideoServiceConversion
  simp only [h1, h2, hlen, hloop]

theorem FindVideoServiceConversion_candidate_set_witness :
    (∀ g, g ∈ sample_candidates ↔
      g ∈ [DXVA_ModeHEVC_VLD_Main, DXVA2_ModeH264_E, DXVA_ModeHEVC_VLD_Main10,
            DXVA_ModeHEVC_VLD_Main]) ∧
    FindVideoServiceConversion
        { sample_callbacks with
          pf_get_input_list := fun w =>
            ((VLC_SUCCESS, [DXVA_ModeHEVC_VLD_Main, DXVA2_ModeH264_E,
              DXVA_ModeHEVC_VLD_Main10, DXVA_ModeHEVC_VLD_Main]), w) }
        helpers_none true fmt_unknown_profile sample_state =
      FindVideoServiceConversion sample_callbacks helpers_none true fmt_unknown_profile
        sample_state :=
  have hset : ∀ g, g ∈ sample_candidates ↔
      g ∈ [DXVA_ModeHEVC_VLD_Main, DXVA2_ModeH264_E, DXVA_ModeHEVC_VLD_Main10,
            DXVA_ModeHEVC_VLD_Main] := by
    intro g
    simp only [sample_candidates, List.mem_cons, List.mem_singleton, List.mem_nil_iff]
    tauto
  ⟨hset,
   FindVideoServiceConversion_candidate_set sample_callbacks
     (fun w => ((VLC_SUCCESS, [DXVA_ModeHEVC_VLD_Main, DXVA2_ModeH264_E,
        DXVA_ModeHEVC_VLD_Main10, DXVA_ModeHEVC_VLD_Main]), w))
     helpers_none true fmt_unknown_profile sample_state VLC_SUCCESS sample_candidates
     [DXVA_ModeHEVC_VLD_Main, DXVA2_ModeH264_E, DXVA_ModeHEVC_VLD_Main10,
        DXVA_ModeHEVC_VLD_Main] () rfl rfl hset⟩

theorem FindVideoServiceConversion_empty_fails {W : Type} (cb : callbacks W)
    (hp : nal_helpers) (vp9 : Bool) (fmt : es_format_t)
    (hempty : ∀ w, (cb.pf_get_input_list w).1.2 = []) (st : State W) :
    (FindVideoServiceConversion cb hp vp9 fmt st).1 ≠ VLC_SUCCESS ∧
    (FindVideoServiceConversion cb hp vp9 fmt st).2.dx = st.dx ∧
    (FindVideoServiceConversion cb hp vp9 fmt st).2.log = st.log ++ [Call.get_input_list] := by
  rw [FindVideoServiceConversion_empty cb hp vp9 fmt st (hempty st.world)]
  refine ⟨?_, rfl, rfl⟩
  by_cases he : (cb.pf_get_input_list st.world).1.1 = VLC_SUCCESS
  · simp [he, VLC_EGENERIC, VLC_SUCCESS]
  · simp [he]

theorem open_steps_empty {W : Type} (cb : callbacks W) (hp : nal_helpers) (vp9 : Bool)
    (ctx : AVCodecContext) (fmt : es_format_t)
    (hempty : ∀ w, (cb.pf_get_input_list w).1.2 = []) (st1 : State W) :
    (open_steps cb hp vp9 ctx fmt st1).1 = VLC_EGENERIC ∧
    (open_steps cb hp vp9 ctx fmt st1).2.dx.input = st1.dx.input ∧
    ∃ extra : List Call,
      (open_steps cb hp vp9 ctx fmt st1).2.log = st1.log ++ extra ∧
      ∀ c ∈ extra, c.is_setup_output = false := by
  unfold open_steps
  by_cases hd : (cb.pf_create_device st1.world).1.1 = 0
  · by_cases hm : (cb.pf_create_device_manager (cb.pf_create_device st1.world).2).1 = 0
    · by_cases hv : (cb.pf_create_video_service
          (cb.pf_create_device_manager (cb.pf_create_device st1.world).2).2).1.1 = 0
      · simp only [hd, hm, hv, ne_eq, not_true_eq_false, if_false]
        obtain ⟨k1, k2, k3⟩ := FindVideoServiceConversion_empty_fails cb hp vp9 fmt hempty
          { dx := { st1.dx with d3ddev := (cb.pf_create_device st1.world).1.2,
                                d3ddec := (cb.pf_create_video_service
                                  (cb.pf_create_device_manager
                                    (cb.pf_create_device st1.world).2).2).1.2 },
            world := (cb.pf_create_video_service
              (cb.pf_create_device_manager (cb.pf_create_device st1.world).2).2).2,
            log := st1.log ++ [Call.create_device] ++ [Call.create_device_manager]
              ++ [Call.create_video_service] }
        have k1' : ¬ (FindVideoServiceConversion cb hp vp9 fmt
          { dx := { st1.dx with d3ddev := (cb.pf_create_device st1.world).1.2,
                                d3ddec := (cb.pf_create_video_service
                                  (cb.pf_create_device_manager
                                    (cb.pf_create_device st1.world).2).2).1.2 },
            world := (cb.pf_create_video_service
              (cb.pf_create_device_manager (cb.pf_create_device st1.world).2).2).2,
            log := st1.log ++ [Call.create_device] ++ [Call.create_device_manager]
              ++ [Call.create_video_service] }).1 = 0 := k1
        simp only [k1', not_false_eq_true, if_true]
        refine ⟨trivial, ?_, [Call.create_device, Call.create_device_manager,
          Call.create_video_service, Call.get_input_list], ?_, ?_⟩
        · rw [k2]
        · rw [k3]; simp
        · intro c hc
          simp only [List.mem_cons, List.mem_singleton, List.mem_nil_iff, or_false] at hc
          rcases hc with rfl | rfl | rfl | rfl <;> rfl
      · simp only [hd, hm, hv, ne_eq, not_true_eq_false, not_false_eq_true, if_false, if_true]
        refine ⟨trivial, trivial, [Call.create_device, Call.create_device_manager,
          Call.create_video_service], (by simp), ?_⟩
        intro c hc
        simp only [List.mem_cons, List.mem_singleton, List.mem_nil_iff, or_false] at hc
        rcases hc with rfl | rfl | rfl <;> rfl
    · simp only [hd, hm, ne_eq, not_true_eq_false, not_false_eq_true, if_false, if_true]
      refine ⟨trivial, trivial,
        [Call.create_device, Call.create_device_manager], (by simp), ?_⟩
      intro c hc
      simp only [List.mem_cons, List.mem_singleton, List.mem_nil_iff, or_false] at hc
      rcases hc with rfl | rfl <;> rfl
  · simp only [hd, ne_eq, not_false_eq_true, if_true]
    refine ⟨trivial, trivial, [Call.create_device], (by simp), ?_⟩
    intro c hc
    rw [List.mem_singleton] at hc
    subst hc
    rfl

/-- C5: when the platform reports an empty candidate list,
`FindVideoServiceConversion` fails, leaves the session (its selected mode id
included) unchanged and logs only the list query; and `directx_va_Open` returns
`VLC_EGENERIC`, leaves the selected mode id unchanged and makes no call of the
confirmation callback `pf_setup_output`. -/
theorem empty_candidate_list_fails {W : Type} (cb : callbacks W) (hp : nal_helpers)
    (vp9 : Bool) (ctx : AVCodecContext) (fmt : es_format_t) (b_dll : Bool) (st : State W)
    (hempty : ∀ w, (cb.pf_get_input_list w).1.2 = []) :
    ((FindVideoServiceConversion cb hp vp9 fmt st).1 ≠ VLC_SUCCESS ∧
      (FindVideoServiceConversion cb hp vp9 fmt st).2.dx = st.dx ∧
      (FindVideoServiceConversion cb hp vp9 fmt st).2.log = st.log ++ [Call.get_input_list]) ∧
    ((directx_va_Open cb hp vp9 ctx fmt b_dll st).1 = VLC_EGENERIC ∧
      (directx_va_Open cb hp vp9 ctx fmt b_dll st).2.dx.input = st.dx.input ∧
      ∃ extra : List Call,
        (directx_va_Open cb hp vp9 ctx fmt b_dll st).2.log = st.log ++ extra ∧
        ∀ c ∈ extra, c.is_setup_output = false) := by
  refine ⟨FindVideoServiceConversion_empty_fails cb hp vp9 fmt hempty st, ?_⟩
  have hsteps := open_steps_empty cb hp vp9 ctx fmt hempty
  unfold directx_va_Open
  cases b_dll with
  | false =>
    simp only [Bool.false_eq_true, if_false]
    exact hsteps _
  | true =>
    simp only [if_true]
    by_cases hl : (cb.LoadLibrary st.world).1 = 0
    · simp only [hl, if_true]
      refine ⟨trivial, trivial, [Call.LoadLibrary], (by simp), ?_⟩
      intro c hc
      rw [List.mem_singleton] at hc
      subst hc
      rfl
    · simp only [hl, if_false]
      obtain ⟨h1, h2, extra, h3, h4⟩ := hsteps
        { dx := { st.dx with codec_id := ctx.codec_id, hdecoder_dll := (cb.LoadLibrary st.world).1 },
          world := (cb.LoadLibrary st.world).2,
          log := st.log ++ [Call.LoadLibrary] }
      refine ⟨h1, h2, Call.LoadLibrary :: extra, ?_, ?_⟩
      · rw [h3]; simp
      · intro c hc
        rcases List.mem_cons.mp hc with rfl | hc
        · rfl
        · exact h4 c hc

theorem empty_candidate_list_fails_witness :
    (∀ w, ((sample_callbacks_with_list []).pf_get_input_list w).1.2 = []) ∧
    (directx_va_Open (sample_callbacks_with_list []) helpers_none true sample_avctx
      fmt_unknown_profile true sample_state).1 = VLC_EGENERIC ∧
    (directx_va_Open (sample_callbacks_with_list []) helpers_none true sample_avctx
      fmt_unknown_profile true sample_state).2.dx.input = sample_state.dx.input :=
  have h := empty_candidate_list_fails (sample_callbacks_with_list []) helpers_none true
    sample_avctx fmt_unknown_profile true sample_state (fun _ => rfl)
  ⟨fun _ => rfl, h.2.1, h.2.2.1⟩

/-! ## Theorems: surface pool set-up -/

theorem ldiff_two_pow_sub_one (v k : Nat) : Nat.ldiff v (2 ^ k - 1) = v / 2 ^ k * 2 ^ k := by
  apply Nat.eq_of_testBit_eq
  intro i
  rw [Nat.testBit_ldiff, Nat.testBit_two_pow_sub_one, Nat.mul_comm, Nat.testBit_mul_pow_two]
  by_cases h : i < k
  · have h2 : ¬ k ≤ i := by omega
    simp [h, h2]
  · have h2 : k ≤ i := by omega
    have h3 : k + (i - k) = i := by omega
    simp [h, h2, ← Nat.shiftRight_eq_div_pow, Nat.testBit_shiftRight, h3]

theorem land_not_two_pow (v k : Nat) :
    Int.land (v : Int) (Int.not (((2 ^ k - 1 : Nat)) : Int)) = ((v / 2 ^ k * 2 ^ k : Nat) : Int) := by
  show Int.land (Int.ofNat v) (Int.negSucc (2 ^ k - 1)) = _
  simp only [Int.land, ldiff_two_pow_sub_one]

theorem wrap32_of_range (x : Int) (h0 : -2147483648 ≤ x) (h1 : x ≤ 2147483647) :
    wrap32 x = x := by
  unfold wrap32
  omega

/-- Without overflow `ALIGN` rounds up to a multiple of the alignment. -/
theorem ALIGN_eq (x a : Int) (ha : a = 16 ∨ a = 32 ∨ a = 128) (hx0 : 0 ≤ x)
    (hx1 : x + (a - 1) ≤ 2147483647) : ALIGN x a = (x + (a - 1)) / a * a := by
  unfold ALIGN
  rw [wrap32_of_range _ (by rcases ha with h | h | h <;> omega) hx1]
  obtain ⟨n, rfl⟩ := Int.eq_ofNat_of_zero_le hx0
  rcases ha with rfl | rfl | rfl
  · have h := land_not_two_pow (n + 15) 4
    have e1 : ((n : Int) + (16 - 1)) = ((n + 15 : Nat) : Int) := by push_cast; ring
    have e2 : ((16 : Int) - 1) = (((2 ^ 4 - 1 : Nat)) : Int) := by norm_num
    rw [e1, e2, h]
    push_cast
    norm_num
  · have h := land_not_two_pow (n + 31) 5
    have e1 : ((n : Int) + (32 - 1)) = ((n + 31 : Nat) : Int) := by push_cast; ring
    have e2 : ((32 : Int) - 1) = (((2 ^ 5 - 1 : Nat)) : Int) := by norm_num
    rw [e1, e2, h]
    push_cast
    norm_num
  · have h := land_not_two_pow (n + 127) 7
    have e1 : ((n : Int) + (128 - 1)) = ((n + 127 : Nat) : Int) := by push_cast; ring
    have e2 : ((128 : Int) - 1) = (((2 ^ 7 - 1 : Nat)) : Int) := by norm_num
    rw [e1, e2, h]
    push_cast
    norm_num

theorem codec_switch_eq_spec (codec_id : AVCodecID) :
    codec_switch codec_id = (spec_alignment codec_id, 4 + spec_extra_surfaces codec_id) := by
  cases codec_id <;> rfl

theorem spec_alignment_cases (codec_id : AVCodecID) :
    spec_alignment codec_id = 16 ∨ spec_alignment codec_id = 32 ∨
      spec_alignment codec_id = 128 := by
  cases codec_id <;> simp [spec_alignment]

/-- The allocation loop changes no session field but the pool slots, and logs
only payload allocations. -/
theorem alloc_loop_frame {W : Type} (cb : callbacks W) (fmt : video_format_t) (n : Nat) :
    ∀ (i : Nat) (st : State W),
      (alloc_loop cb fmt n i st).2.dx =
        { st.dx with surface := (alloc_loop cb fmt n i st).2.dx.surface } ∧
      ∃ extra : List Call,
        (alloc_loop cb fmt n i st).2.log = st.log ++ extra ∧
        ∀ c ∈ extra, ∃ j, c = Call.alloc_surface_pic fmt j := by
  induction n with
  | zero =>
    intro i st
    exact ⟨rfl, [], by simp [alloc_loop], by simp⟩
  | succ n ih =>
    intro i st
    rw [alloc_loop]
    by_cases hp : (cb.pf_alloc_surface_pic st.world fmt i).1 = 0
    · simp only [hp, if_true]
      refine ⟨?_, [Call.alloc_surface_pic fmt i], ?_, ?_⟩
      · trivial
      · trivial
      · intro c hc
        rw [List.mem_singleton] at hc
        exact ⟨i, hc⟩
    · simp only [hp, if_false]
      obtain ⟨h1, extra, h2, h3⟩ := ih (i + 1)
        { dx := { st.dx with
                    surface := (st.dx.surface.set i
                      ⟨0, 0, surface_lock, (cb.pf_alloc_surface_pic st.world fmt i).1⟩) },
          world := (cb.pf_alloc_surface_pic st.world fmt i).2,
          log := st.log ++ [Call.alloc_surface_pic fmt i] }
      refine ⟨?_, Call.alloc_surface_pic fmt i :: extra, ?_, ?_⟩
      · rw [h1]
      · rw [h2]; simp
      · intro c hc
        rcases List.mem_cons.mp hc with rfl | hc
        · exact ⟨i, rfl⟩
        · exact h3 c hc

theorem computed_surface_count_destroy {W : Type} (cb : callbacks W) (st : State W)
    (avctx : AVCodecContext) :
    computed_surface_count (DestroyVideoDecoder cb st).dx { avctx with hwaccel_context := 0 } =
      computed_surface_count st.dx avctx := rfl

/-- The fast path of `directx_va_Setup`. -/
theorem directx_va_Setup_fast {W : Type} (cb : callbacks W) (MAX_SURFACE_COUNT : Int)
    (avctx : AVCodecContext) (st : State W) (hfast : setup_fast_path st.dx avctx = true) :
    directx_va_Setup cb MAX_SURFACE_COUNT avctx st = (VLC_SUCCESS, avctx, st) := by
  simp [directx_va_Setup, hfast]

/-- The early failures of `directx_va_Setup`: a non-positive dimension or too
many surfaces, after the teardown of the previous pool. -/
theorem directx_va_Setup_early {W : Type} (cb : callbacks W) (MAX_SURFACE_COUNT : Int)
    (avctx : AVCodecContext) (st : State W) (hfast : setup_fast_path st.dx avctx = false)
    (h : avctx.coded_width ≤ 0 ∨ avctx.coded_height ≤ 0 ∨
      computed_surface_count st.dx avctx > MAX_SURFACE_COUNT) :
    directx_va_Setup cb MAX_SURFACE_COUNT avctx st =
      (VLC_EGENERIC, { avctx with hwaccel_context := 0 }, DestroyVideoDecoder cb st) := by
  unfold directx_va_Setup
  simp only [hfast, Bool.false_eq_true, if_false, computed_surface_count_destroy]
  by_cases hd : avctx.coded_width ≤ 0 ∨ avctx.coded_height ≤ 0
  · simp only [hd, if_true]
  · simp only [hd, if_false]
    have hc : computed_surface_count st.dx avctx > MAX_SURFACE_COUNT := by
      rcases h with h | h | h
      · exact absurd (Or.inl h) hd
      · exact absurd (Or.inr h) hd
      · exact h
    simp only [hc, if_true]

/-- What `directx_va_Setup` stores once it is past the surface-count check,
whether or not a collaborator fails afterwards. -/
theorem directx_va_Setup_stored {W : Type} (cb : callbacks W) (MAX_SURFACE_COUNT : Int)
    (avctx : AVCodecContext) (st : State W) (hfast : setup_fast_path st.dx avctx = false)
    (hw : 0 < avctx.coded_width) (hh : 0 < avctx.coded_height)
    (hc : computed_surface_count st.dx avctx ≤ MAX_SURFACE_COUNT) :
    (directx_va_Setup cb MAX_SURFACE_COUNT avctx st).2.2.dx.surface_count =
        computed_surface_count st.dx avctx ∧
    (directx_va_Setup cb MAX_SURFACE_COUNT avctx st).2.2.dx.width = avctx.coded_width ∧
    (directx_va_Setup cb MAX_SURFACE_COUNT avctx st).2.2.dx.height = avctx.coded_height ∧
    (directx_va_Setup cb MAX_SURFACE_COUNT avctx st).2.2.dx.surface_width =
        ALIGN avctx.coded_width (codec_switch st.dx.codec_id).1 ∧
    (directx_va_Setup cb MAX_SURFACE_COUNT avctx st).2.2.dx.surface_height =
        ALIGN avctx.coded_height (codec_switch st.dx.codec_id).1 := by
  have hd : ¬ (avctx.coded_width ≤ 0 ∨ avctx.coded_height ≤ 0) := by omega
  have hc2 : ¬ computed_surface_count st.dx avctx > MAX_SURFACE_COUNT := by omega
  unfold directx_va_Setup
  simp only [hfast, Bool.false_eq_true, if_false, computed_surface_count_destroy, hd, hc2]
  split
  · exact ⟨rfl, rfl, rfl, rfl, rfl⟩
  · simp only []
    rw [(alloc_loop_frame cb _ _ 0 _).1]
    exact ⟨rfl, rfl, rfl, rfl, rfl⟩

theorem directx_va_Setup_success_reaches {W : Type} (cb : callbacks W)
    (MAX_SURFACE_COUNT : Int) (avctx : AVCodecContext) (st : State W)
    (hfast : setup_fast_path st.dx avctx = false)
    (hok : (directx_va_Setup cb MAX_SURFACE_COUNT avctx st).1 = VLC_SUCCESS) :
    0 < avctx.coded_width ∧ 0 < avctx.coded_height ∧
      computed_surface_count st.dx avctx ≤ MAX_SURFACE_COUNT := by
  by_contra hneg
  have h : avctx.coded_width ≤ 0 ∨ avctx.coded_height ≤ 0 ∨
      computed_surface_count st.dx avctx > MAX_SURFACE_COUNT := by omega
  rw [directx_va_Setup_early cb MAX_SURFACE_COUNT avctx st hfast h] at hok
  have hne : VLC_EGENERIC = VLC_SUCCESS := hok
  exact absurd hne (by decide)

theorem computed_surface_count_eq_spec (dx : directx_sys_t) (avctx : AVCodecContext)
    (hlo : -2147483648 ≤ 4 + spec_extra_surfaces dx.codec_id +
      spec_threading_extra avctx.active_thread_type dx.thread_count)
    (hhi : 4 + spec_extra_surfaces dx.codec_id +
      spec_threading_extra avctx.active_thread_type dx.thread_count ≤ 2147483647) :
    computed_surface_count dx avctx =
      4 + spec_extra_surfaces dx.codec_id +
        spec_threading_extra avctx.active_thread_type dx.thread_count := by
  unfold computed_surface_count
  rw [codec_switch_eq_spec]
  unfold spec_threading_extra at *
  by_cases ht : Int.land avctx.active_thread_type FF_THREAD_FRAME ≠ 0
  · rw [if_pos ht] at hlo hhi ⊢
    rw [if_pos ht]
    exact wrap32_of_range _ hlo hhi
  · rw [if_neg ht] at hlo hhi ⊢
    rw [if_neg ht]
    omega

/-- C6 (counterexample): with frame threading and a recorded thread count of
`2147483647` the HEVC sum `4 + 16 + t` leaves the 32-bit range; Setup does not
fail and stores `-2147483629`, not `4 + 16 + 2147483647`. -/
theorem directx_va_Setup_thread_count_overflow :
    setup_fast_path (sample_state_threads 2147483647).dx sample_avctx_threaded = false ∧
    (directx_va_Setup sample_callbacks 64 sample_avctx_threaded
      (sample_state_threads 2147483647)).1 = VLC_SUCCESS ∧
    (directx_va_Setup sample_callbacks 64 sample_avctx_threaded
      (sample_state_threads 2147483647)).2.2.dx.surface_count = -2147483629 ∧
    (directx_va_Setup sample_callbacks 64 sample_avctx_threaded
      (sample_state_threads 2147483647)).2.2.dx.surface_count ≠
        4 + spec_extra_surfaces AVCodecID.HEVC + spec_threading_extra 1 2147483647 := by
  refine ⟨by decide, by decide, by decide, by decide⟩

/-- C6 (amended): a Setup that does not take the fast path and does not fail
stores `surface_count = 4 + k + t`, with `k` the codec extra (2 for MPEG-2, 16
for HEVC, 16 for H.264, 2 otherwise) and `t` the thread count when the
`FF_THREAD_FRAME` bit is set and 0 otherwise, provided that sum fits a 32-bit
`int`; the stored surface dimensions are `ALIGN` of the coded ones with
alignment 32 for MPEG-2, 128 for HEVC and 16 otherwise. -/
theorem directx_va_Setup_surface_count {W : Type} (cb : callbacks W)
    (MAX_SURFACE_COUNT : Int) (avctx : AVCodecContext) (st : State W)
    (hfast : setup_fast_path st.dx avctx = false)
    (hok : (directx_va_Setup cb MAX_SURFACE_COUNT avctx st).1 = VLC_SUCCESS)
    (hlo : -2147483648 ≤ 4 + spec_extra_surfaces st.dx.codec_id +
      spec_threading_extra avctx.active_thread_type st.dx.thread_count)
    (hhi : 4 + spec_extra_surfaces st.dx.codec_id +
      spec_threading_extra avctx.active_thread_type st.dx.thread_count ≤ 2147483647) :
    (directx_va_Setup cb MAX_SURFACE_COUNT avctx st).2.2.dx.surface_count =
      4 + spec_extra_surfaces st.dx.codec_id +
        spec_threading_extra avctx.active_thread_type st.dx.thread_count ∧
    (directx_va_Setup cb MAX_SURFACE_COUNT avctx st).2.2.dx.surface_width =
      ALIGN avctx.coded_width (spec_alignment st.dx.codec_id) ∧
    (directx_va_Setup cb MAX_SURFACE_COUNT avctx st).2.2.dx.surface_height =
      ALIGN avctx.coded_height (spec_alignment st.dx.codec_id) := by
  obtain ⟨hw, hh, hc⟩ := directx_va_Setup_success_reaches cb MAX_SURFACE_COUNT avctx st hfast hok
  obtain ⟨h1, _, _, h4, h5⟩ :=
    directx_va_Setup_stored cb MAX_SURFACE_COUNT avctx st hfast hw hh hc
  rw [codec_switch_eq_spec] at h4 h5
  exact ⟨by rw [h1, computed_surface_count_eq_spec st.dx avctx hlo hhi], h4, h5⟩

theorem directx_va_Setup_surface_count_witness :
    (directx_va_Setup sample_callbacks 64 sample_avctx sample_state).2.2.dx.surface_count =
      4 + spec_extra_surfaces AVCodecID.HEVC + spec_threading_extra 0 0 ∧
    4 + spec_extra_surfaces AVCodecID.HEVC + spec_threading_extra 0 0 = 20 ∧
    (directx_va_Setup sample_callbacks 64 sample_avctx sample_state).2.2.dx.surface_width =
      ALIGN 1920 (spec_alignment AVCodecID.HEVC) ∧
    (directx_va_Setup sample_callbacks 64 sample_avctx sample_state).2.2.dx.surface_height =
      ALIGN 1082 (spec_alignment AVCodecID.HEVC) :=
  have h := directx_va_Setup_surface_count sample_callbacks 64 sample_avctx sample_state
    (by decide) (by decide) (by decide) (by decide)
  ⟨h.1, by decide, h.2.1, h.2.2⟩

/-- Without overflow `ALIGN x a` is the smallest multiple of `a` at least `x`. -/
theorem ALIGN_least_multiple (x a : Int) (ha : a = 16 ∨ a = 32 ∨ a = 128) (hx0 : 0 < x)
    (hx1 : x + (a - 1) ≤ 2147483647) : is_least_multiple a x (ALIGN x a) := by
  rw [ALIGN_eq x a ha (le_of_lt hx0) hx1]
  refine ⟨Dvd.intro_left _ rfl, ?_, ?_⟩
  · rcases ha with rfl | rfl | rfl <;> omega
  · intro m hm hxm
    obtain ⟨q, rfl⟩ := hm
    rcases ha with rfl | rfl | rfl <;> omega

/-- C7 (counterexample): for the positive 32-bit coded width `2147483647` and
the HEVC alignment 128 the sum inside `ALIGN` wraps, and Setup stores the
surface width `-2147483648`, which is below the coded width. -/
theorem directx_va_Setup_surface_width_overflow :
    0 < sample_avctx_huge.coded_width ∧ sample_avctx_huge.coded_width ≤ 2147483647 ∧
    (directx_va_Setup sample_callbacks 64 sample_avctx_huge sample_state).1 = VLC_SUCCESS ∧
    (directx_va_Setup sample_callbacks 64 sample_avctx_huge sample_state).2.2.dx.surface_width
      = -2147483648 ∧
    ¬ is_least_multiple 128 sample_avctx_huge.coded_width
      (directx_va_Setup sample_callbacks 64 sample_avctx_huge sample_state).2.2.dx.surface_width
    := by
  have hsw : (directx_va_Setup sample_callbacks 64 sample_avctx_huge
      sample_state).2.2.dx.surface_width = -2147483648 := by decide
  refine ⟨by decide, by decide, by decide, hsw, ?_⟩
  rw [hsw]
  intro h
  exact absurd h.2.1 (by decide)

/-- C7 (amended): for positive coded width and height that leave room for the
rounding in 32 bits (`x + (a - 1) <= 2147483647`, with `a` the alignment of the
codec, one of 16, 32 and 128), the `surface_width` and `surface_height` stored
by a Setup that passes the surface-count check are the smallest multiples of
`a` that are at least the coded width and height. -/
theorem directx_va_Setup_surface_size {W : Type} (cb : callbacks W)
    (MAX_SURFACE_COUNT : Int) (avctx : AVCodecContext) (st : State W)
    (hfast : setup_fast_path st.dx avctx = false)
    (hc : computed_surface_count st.dx avctx ≤ MAX_SURFACE_COUNT)
    (hw : 0 < avctx.coded_width) (hh : 0 < avctx.coded_height)
    (hwr : avctx.coded_width + (spec_alignment st.dx.codec_id - 1) ≤ 2147483647)
    (hhr : avctx.coded_height + (spec_alignment st.dx.codec_id - 1) ≤ 2147483647) :
    (spec_alignment st.dx.codec_id = 16 ∨ spec_alignment st.dx.codec_id = 32 ∨
      spec_alignment st.dx.codec_id = 128) ∧
    is_least_multiple (spec_alignment st.dx.codec_id) avctx.coded_width
      (directx_va_Setup cb MAX_SURFACE_COUNT avctx st).2.2.dx.surface_width ∧
    is_least_multiple (spec_alignment st.dx.codec_id) avctx.coded_height
      (directx_va_Setup cb MAX_SURFACE_COUNT avctx st).2.2.dx.surface_height := by
  obtain ⟨_, _, _, h4, h5⟩ :=
    directx_va_Setup_stored cb MAX_SURFACE_COUNT avctx st hfast hw hh hc
  rw [codec_switch_eq_spec] at h4 h5
  have ha := spec_alignment_cases st.dx.codec_id
  rw [h4, h5]
  exact ⟨ha, ALIGN_least_multiple _ _ ha hw hwr, ALIGN_least_multiple _ _ ha hh hhr⟩

theorem directx_va_Setup_surface_size_witness :
    (directx_va_Setup sample_callbacks 64 sample_avctx sample_state).2.2.dx.surface_width
      = 1920 ∧
    (directx_va_Setup sample_callbacks 64 sample_avctx sample_state).2.2.dx.surface_height
      = 1152 ∧
    is_least_multiple 128 1920
      (directx_va_Setup sample_callbacks 64 sample_avctx sample_state).2.2.dx.surface_width ∧
    is_least_multiple 128 1082
      (directx_va_Setup sample_callbacks 64 sample_avctx sample_state).2.2.dx.surface_height :=
  have h := directx_va_Setup_surface_size sample_callbacks 64 sample_avctx sample_state
    (by decide) (by decide) (by decide) (by decide) (by decide) (by decide)
  have hw : (directx_va_Setup sample_callbacks 64 sample_avctx sample_state).2.2.dx.surface_width
      = 1920 := by
    have h4 := (directx_va_Setup_stored sample_callbacks 64 sample_avctx sample_state
      (by decide) (by decide) (by decide) (by decide)).2.2.2.1
    rw [h4]
    exact (ALIGN_eq 1920 128 (by decide) (by decide) (by decide)).trans (by decide)
  have hh : (directx_va_Setup sample_callbacks 64 sample_avctx sample_state).2.2.dx.surface_height
      = 1152 := by
    have h5 := (directx_va_Setup_stored sample_callbacks 64 sample_avctx sample_state
      (by decide) (by decide) (by decide) (by decide)).2.2.2.2
    rw [h5]
    exact (ALIGN_eq 1082 128 (by decide) (by decide) (by decide)).trans (by decide)
  ⟨hw, hh, h.2.1, h.2.2⟩

/-- The teardown logs no allocation, empties the pool count and clears the
decoder handle. -/
theorem DestroyVideoDecoder_frame {W : Type} (cb : callbacks W) (st : State W) :
    (DestroyVideoDecoder cb st).dx.surface_count = 0 ∧
    (DestroyVideoDecoder cb st).dx.decoder = 0 ∧
    ∃ extra : List Call,
      (DestroyVideoDecoder cb st).log = st.log ++ extra ∧
      ∀ c ∈ extra, c.is_allocation = false := by
  refine ⟨rfl, rfl, ?_⟩
  unfold DestroyVideoDecoder
  by_cases hd : st.dx.decoder ≠ 0
  · refine ⟨[Call.destroy_surfaces]
        ++ (st.dx.hw_surface.take st.dx.surface_count.toNat).map Call.Release_hw_surface
        ++ ((st.dx.surface.take st.dx.surface_count.toNat).filter
              (fun s => decide (s.p_pic ≠ 0))).map (fun s => Call.picture_Release s.p_pic)
        ++ [Call.Release_decoder st.dx.decoder], ?_, ?_⟩
    · simp only [List.append_assoc]
      rw [if_pos hd]
    · intro c hc
      simp only [List.mem_append, List.mem_singleton, List.mem_map] at hc
      rcases hc with ((rfl | ⟨h, _, rfl⟩) | ⟨x, _, rfl⟩) | rfl <;> rfl
  · refine ⟨[Call.destroy_surfaces]
        ++ (st.dx.hw_surface.take st.dx.surface_count.toNat).map Call.Release_hw_surface
        ++ ((st.dx.surface.take st.dx.surface_count.toNat).filter
              (fun s => decide (s.p_pic ≠ 0))).map (fun s => Call.picture_Release s.p_pic),
        ?_, ?_⟩
    · simp only [List.append_assoc]
      rw [if_neg hd]
    · intro c hc
      simp only [List.mem_append, List.mem_singleton, List.mem_map] at hc
      rcases hc with (rfl | ⟨h, _, rfl⟩) | ⟨x, _, rfl⟩ <;> rfl

/-- Every path of `directx_va_Setup` keeps the stored surface count within
`MAX_SURFACE_COUNT`. -/
theorem directx_va_Setup_surface_count_le {W : Type} (cb : callbacks W)
    (MAX_SURFACE_COUNT : Int) (avctx : AVCodecContext) (st : State W)
    (hMAX : 0 ≤ MAX_SURFACE_COUNT) (hst : st.dx.surface_count ≤ MAX_SURFACE_COUNT) :
    (directx_va_Setup cb MAX_SURFACE_COUNT avctx st).2.2.dx.surface_count ≤ MAX_SURFACE_COUNT := by
  cases hfast : setup_fast_path st.dx avctx with
  | true =>
    rw [directx_va_Setup_fast cb MAX_SURFACE_COUNT avctx st hfast]
    exact hst
  | false =>
    by_cases h : avctx.coded_width ≤ 0 ∨ avctx.coded_height ≤ 0 ∨
        computed_surface_count st.dx avctx > MAX_SURFACE_COUNT
    · rw [directx_va_Setup_early cb MAX_SURFACE_COUNT avctx st hfast h]
      exact hMAX
    · have hw : 0 < avctx.coded_width := by omega
      have hh : 0 < avctx.coded_height := by omega
      have hc : computed_surface_count st.dx avctx ≤ MAX_SURFACE_COUNT := by omega
      rw [(directx_va_Setup_stored cb MAX_SURFACE_COUNT avctx st hfast hw hh hc).1]
      exact hc

/-- C8 (counterexample): for an HEVC session with frame threading and a
recorded thread count of `2147483647`, the count `4 + 16 + 2147483647` exceeds
`MAX_SURFACE_COUNT = 64`, yet Setup returns `VLC_SUCCESS` and calls
`pf_create_decoder_surfaces`: the sum is taken in 32 bits, and the wrapped
value `-2147483629` passes the test against the cap. -/
theorem directx_va_Setup_overflow_passes_cap :
    setup_fast_path (sample_state_threads 2147483647).dx sample_avctx_threaded = false ∧
    4 + spec_extra_surfaces (sample_state_threads 2147483647).dx.codec_id +
      spec_threading_extra sample_avctx_threaded.active_thread_type
        (sample_state_threads 2147483647).dx.thread_count = 2147483667 ∧
    (directx_va_Setup sample_callbacks 64 sample_avctx_threaded
      (sample_state_threads 2147483647)).1 = VLC_SUCCESS ∧
    ((directx_va_Setup sample_callbacks 64 sample_avctx_threaded
      (sample_state_threads 2147483647)).2.2.log.filter Call.is_allocation).length = 1 ∧
    (directx_va_Setup sample_callbacks 64 sample_avctx_threaded
      (sample_state_threads 2147483647)).2.2.dx.surface_count = -2147483629 := by
  refine ⟨by decide, by decide, by decide, by decide, by decide⟩

/-- C8 (amended): when Setup is past its fast path and the surface count
`4 + k + t` (base, codec extra and threading extra) fits a 32-bit `int` and
exceeds `MAX_SURFACE_COUNT`, it returns `VLC_EGENERIC`, the calls it makes
include neither `pf_create_decoder_surfaces` nor `pf_alloc_surface_pic`, and the
stored `surface_count` is 0; and on every path of Setup a stored
`surface_count` within `MAX_SURFACE_COUNT` stays within it. -/
theorem directx_va_Setup_too_many_surfaces {W : Type} (cb : callbacks W)
    (MAX_SURFACE_COUNT : Int) (avctx : AVCodecContext) (st : State W)
    (hMAX : 0 ≤ MAX_SURFACE_COUNT)
    (hfast : setup_fast_path st.dx avctx = false)
    (hlo : -2147483648 ≤ 4 + spec_extra_surfaces st.dx.codec_id +
      spec_threading_extra avctx.active_thread_type st.dx.thread_count)
    (hhi : 4 + spec_extra_surfaces st.dx.codec_id +
      spec_threading_extra avctx.active_thread_type st.dx.thread_count ≤ 2147483647)
    (hover : 4 + spec_extra_surfaces st.dx.codec_id +
      spec_threading_extra avctx.active_thread_type st.dx.thread_count > MAX_SURFACE_COUNT) :
    (directx_va_Setup cb MAX_SURFACE_COUNT avctx st).1 = VLC_EGENERIC ∧
    (∃ extra : List Call,
      (directx_va_Setup cb MAX_SURFACE_COUNT avctx st).2.2.log = st.log ++ extra ∧
      ∀ c ∈ extra, c.is_allocation = false) ∧
    (directx_va_Setup cb MAX_SURFACE_COUNT avctx st).2.2.dx.surface_count = 0 ∧
    (∀ (avctx' : AVCodecContext) (st' : State W),
      st'.dx.surface_count ≤ MAX_SURFACE_COUNT →
      (directx_va_Setup cb MAX_SURFACE_COUNT avctx' st').2.2.dx.surface_count
        ≤ MAX_SURFACE_COUNT) := by
  have hover2 : computed_surface_count st.dx avctx > MAX_SURFACE_COUNT := by
    rw [computed_surface_count_eq_spec st.dx avctx hlo hhi]
    exact hover
  rw [directx_va_Setup_early cb MAX_SURFACE_COUNT avctx st hfast (Or.inr (Or.inr hover2))]
  obtain ⟨h1, _, h3⟩ := DestroyVideoDecoder_frame cb st
  exact ⟨rfl, h3, h1,
    fun avctx' st' hst' =>
      directx_va_Setup_surface_count_le cb MAX_SURFACE_COUNT avctx' st' hMAX hst'⟩

theorem directx_va_Setup_too_many_surfaces_witness :
    4 + spec_extra_surfaces (sample_state_threads 100).dx.codec_id +
      spec_threading_extra sample_avctx_threaded.active_thread_type
        (sample_state_threads 100).dx.thread_count = 120 ∧
    (directx_va_Setup sample_callbacks 64 sample_avctx_threaded
      (sample_state_threads 100)).1 = VLC_EGENERIC ∧
    (directx_va_Setup sample_callbacks 64 sample_avctx_threaded
      (sample_state_threads 100)).2.2.dx.surface_count = 0 :=
  have h := directx_va_Setup_too_many_surfaces sample_callbacks 64 sample_avctx_threaded
    (sample_state_threads 100) (by decide) (by decide) (by decide) (by decide) (by decide)
  ⟨by decide, h.1, h.2.2.1⟩

/-- The codec context Setup returns has the coded dimensions it was given. -/
theorem directx_va_Setup_avctx_dims {W : Type} (cb : callbacks W) (MAX_SURFACE_COUNT : Int)
    (avctx : AVCodecContext) (st : State W) :
    (directx_va_Setup cb MAX_SURFACE_COUNT avctx st).2.1.coded_width = avctx.coded_width ∧
    (directx_va_Setup cb MAX_SURFACE_COUNT avctx st).2.1.coded_height = avctx.coded_height := by
  unfold directx_va_Setup
  simp only []
  split_ifs <;> exact ⟨rfl, rfl⟩

/-- After a successful Setup the stored dimensions are the coded ones. -/
theorem directx_va_Setup_success_dims {W : Type} (cb : callbacks W) (MAX_SURFACE_COUNT : Int)
    (avctx : AVCodecContext) (st : State W)
    (hok : (directx_va_Setup cb MAX_SURFACE_COUNT avctx st).1 = VLC_SUCCESS) :
    (directx_va_Setup cb MAX_SURFACE_COUNT avctx st).2.2.dx.width = avctx.coded_width ∧
    (directx_va_Setup cb MAX_SURFACE_COUNT avctx st).2.2.dx.height = avctx.coded_height := by
  cases hfast : setup_fast_path st.dx avctx with
  | true =>
    rw [directx_va_Setup_fast cb MAX_SURFACE_COUNT avctx st hfast]
    simp only [setup_fast_path, Bool.and_eq_true, decide_eq_true_eq] at hfast
    exact ⟨hfast.1.1, hfast.1.2⟩
  | false =>
    obtain ⟨hw, hh, hc⟩ :=
      directx_va_Setup_success_reaches cb MAX_SURFACE_COUNT avctx st hfast hok
    obtain ⟨_, h2, h3, _, _⟩ :=
      directx_va_Setup_stored cb MAX_SURFACE_COUNT avctx st hfast hw hh hc
    exact ⟨h2, h3⟩

/-- C9: when the stored width and height equal the requested coded width and
height and the decoder handle is non-null, Setup returns `VLC_SUCCESS` with the
codec context and the whole state (session fields, pool slots, collaborator
world and call log) unchanged; hence after any successful Setup that leaves a
live decoder, a second Setup with the same codec context is such a no-op. -/
theorem directx_va_Setup_fast_path_noop {W : Type} (cb : callbacks W)
    (MAX_SURFACE_COUNT : Int) (avctx : AVCodecContext) (st : State W)
    (hw : st.dx.width = avctx.coded_width) (hh : st.dx.height = avctx.coded_height)
    (hd : st.dx.decoder ≠ 0) :
    directx_va_Setup cb MAX_SURFACE_COUNT avctx st = (VLC_SUCCESS, avctx, st) ∧
    (∀ (avctx0 : AVCodecContext) (st0 : State W),
      (directx_va_Setup cb MAX_SURFACE_COUNT avctx0 st0).1 = VLC_SUCCESS →
      (directx_va_Setup cb MAX_SURFACE_COUNT avctx0 st0).2.2.dx.decoder ≠ 0 →
      directx_va_Setup cb MAX_SURFACE_COUNT
          (directx_va_Setup cb MAX_SURFACE_COUNT avctx0 st0).2.1
          (directx_va_Setup cb MAX_SURFACE_COUNT avctx0 st0).2.2 =
        (VLC_SUCCESS, (directx_va_Setup cb MAX_SURFACE_COUNT avctx0 st0).2.1,
          (directx_va_Setup cb MAX_SURFACE_COUNT avctx0 st0).2.2)) := by
  constructor
  · apply directx_va_Setup_fast
    simp [setup_fast_path, hw, hh, hd]
  · intro avctx0 st0 hok hdec
    apply directx_va_Setup_fast
    obtain ⟨h1, h2⟩ := directx_va_Setup_success_dims cb MAX_SURFACE_COUNT avctx0 st0 hok
    obtain ⟨h3, h4⟩ := directx_va_Setup_avctx_dims cb MAX_SURFACE_COUNT avctx0 st0
    simp [setup_fast_path, h1, h2, h3, h4, hdec]

theorem directx_va_Setup_fast_path_noop_witness :
    (directx_va_Setup sample_callbacks 64 sample_avctx sample_state).2.2.dx.decoder ≠ 0 ∧
    directx_va_Setup sample_callbacks 64 sample_avctx
        (directx_va_Setup sample_callbacks 64 sample_avctx sample_state).2.2 =
      (VLC_SUCCESS, sample_avctx,
        (directx_va_Setup sample_callbacks 64 sample_avctx sample_state).2.2) :=
  ⟨by decide,
   (directx_va_Setup_fast_path_noop sample_callbacks 64 sample_avctx
      (directx_va_Setup sample_callbacks 64 sample_avctx sample_state).2.2
      (by decide) (by decide) (by decide)).1⟩

/-- C10 (the code at the failing input): when the payload allocator returns
`NULL` at index 2, Setup returns `VLC_EGENERIC` straight from the loop: the
stored surface count stays 20, the decoder handle stays set, the payloads of
slots 0 and 1 are kept and not released, and no teardown call follows the
allocations; a following Setup with the same dimensions takes the fast path and
returns `VLC_SUCCESS` on that half-built pool without any further call. -/
theorem directx_va_Setup_alloc_failure_keeps_partial_pool :
    (directx_va_Setup sample_callbacks_alloc_fail 64 sample_avctx sample_state).1
      = VLC_EGENERIC ∧
    (directx_va_Setup sample_callbacks_alloc_fail 64 sample_avctx sample_state).2.2.dx.surface_count
      = 20 ∧
    (directx_va_Setup sample_callbacks_alloc_fail 64 sample_avctx sample_state).2.2.dx.decoder
      = 7 ∧
    ((directx_va_Setup sample_callbacks_alloc_fail 64 sample_avctx
        sample_state).2.2.dx.surface.take 3).map (fun s => s.p_pic) = [200, 201, 0] ∧
    (directx_va_Setup sample_callbacks_alloc_fail 64 sample_avctx sample_state).2.2.log =
      [Call.destroy_surfaces,
       Call.create_decoder_surfaces AVCodecID.HEVC ⟨1920, 1082, 25, 1⟩,
       Call.setup_avcodec_ctx,
       Call.alloc_surface_pic ⟨1920, 1082, 25, 1⟩ 0,
       Call.alloc_surface_pic ⟨1920, 1082, 25, 1⟩ 1,
       Call.alloc_surface_pic ⟨1920, 1082, 25, 1⟩ 2] ∧
    (directx_va_Setup sample_callbacks_alloc_fail 64
        (directx_va_Setup sample_callbacks_alloc_fail 64 sample_avctx sample_state).2.1
        (directx_va_Setup sample_callbacks_alloc_fail 64 sample_avctx sample_state).2.2).1
      = VLC_SUCCESS ∧
    (directx_va_Setup sample_callbacks_alloc_fail 64
        (directx_va_Setup sample_callbacks_alloc_fail 64 sample_avctx sample_state).2.1
        (directx_va_Setup sample_callbacks_alloc_fail 64 sample_avctx sample_state).2.2).2.2.log
      = (directx_va_Setup sample_callbacks_alloc_fail 64 sample_avctx sample_state).2.2.log ∧
    (directx_va_Setup sample_callbacks_alloc_fail 64
        (directx_va_Setup sample_callbacks_alloc_fail 64 sample_avctx sample_state).2.1
        (directx_va_Setup sample_callbacks_alloc_fail 64 sample_avctx
          sample_state).2.2).2.2.dx.surface_count = 20 := by
  refine ⟨by decide, by decide, by decide, by decide, by decide, by decide, by decide,
    by decide⟩

/-! ## Theorems: surface selection -/

theorem loop_value_step (dx : directx_sys_t) (p : vlc_va_surface_t → Bool) (i : Nat) (r : Int)
    (h : loop_value dx p i r) :
    loop_value dx p (i + 1)
      (if older dx i r && p (surface_at dx i) then (i : Int) else r) := by
  rcases h with ⟨hr, hnone⟩ | ⟨hr, hlt, hp, hmin⟩
  · subst hr
    have hold : older dx i (-1) = true := by simp [older]
    cases hpi : p (surface_at dx i) with
    | true =>
      simp only [hold, Bool.and_self, if_true]
      right
      refine ⟨by omega, by simp, by simpa using hpi, ?_⟩
      intro j hj hpj
      have hji : j = i := by
        by_contra hne
        have hlt : j < i := by omega
        rw [hnone j hlt] at hpj
        exact Bool.noConfusion hpj
      subst hji
      simp
    | false =>
      simp only [hold, Bool.true_and, Bool.false_eq_true, if_false]
      left
      refine ⟨rfl, ?_⟩
      intro j hj
      by_cases hji : j = i
      · subst hji; exact hpi
      · exact hnone j (by omega)
  · have hne : r ≠ -1 := by omega
    by_cases hcond : (older dx i r && p (surface_at dx i)) = true
    · simp only [hcond, if_true]
      simp only [older, hne, decide_False, Bool.false_or, Bool.and_eq_true,
        decide_eq_true_eq] at hcond
      obtain ⟨hord, hpi⟩ := hcond
      right
      refine ⟨by omega, by simp, by simpa using hpi, ?_⟩
      intro j hj hpj
      simp only [Int.toNat_ofNat]
      by_cases hji : j = i
      · subst hji; simp
      · have hjlt : j < i := by omega
        obtain ⟨h1, _⟩ := hmin j hjlt hpj
        constructor
        · omega
        · intro heq; omega
    · simp only [hcond, Bool.false_eq_true, if_false]
      right
      refine ⟨hr, by omega, hp, ?_⟩
      intro j hj hpj
      by_cases hji : j = i
      · subst hji
        simp only [older, hne, decide_False, Bool.false_or, Bool.and_eq_true,
          decide_eq_true_eq, not_and] at hcond
        have hnot : ¬ (surface_at dx j).order < (surface_at dx r.toNat).order := by
          intro hlt2
          exact absurd hpj (hcond hlt2)
        constructor
        · omega
        · intro _; omega
      · exact hmin j (by omega) hpj

theorem get_loop_value (dx : directx_sys_t) (n : Nat) :
    ∀ (i : Nat) (old old_used : Int),
      loop_value dx is_free i old → loop_value dx (fun _ => true) i old_used →
      loop_value dx is_free (i + n) (get_loop dx n i old old_used).1 ∧
      loop_value dx (fun _ => true) (i + n) (get_loop dx n i old old_used).2 := by
  induction n with
  | zero => intro i old old_used h1 h2; exact ⟨h1, h2⟩
  | succ n ih =>
    intro i old old_used h1 h2
    rw [get_loop]
    have h1' := loop_value_step dx is_free i old h1
    have h2' := loop_value_step dx (fun _ => true) i old_used h2
    simp only [Bool.and_true] at h2'
    have := ih (i + 1) _ _ h1' h2'
    have e : i + 1 + n = i + (n + 1) := by omega
    rw [e] at this
    exact this

/-- The two loop variables of `directx_va_Get` after the whole pool. -/
theorem get_loop_pool (dx : directx_sys_t) :
    loop_value dx is_free dx.surface_count.toNat
      (get_loop dx dx.surface_count.toNat 0 (-1) (-1)).1 ∧
    loop_value dx (fun _ => true) dx.surface_count.toNat
      (get_loop dx dx.surface_count.toNat 0 (-1) (-1)).2 := by
  have h := get_loop_value dx dx.surface_count.toNat 0 (-1) (-1)
    (Or.inl ⟨rfl, fun j hj => absurd hj (by omega)⟩)
    (Or.inl ⟨rfl, fun j hj => absurd hj (by omega)⟩)
  simpa using h

theorem getD_set_self {α : Type} (l : List α) (i : Nat) (x d : α) (h : i < l.length) :
    (l.set i x).getD i d = x := by
  simp [List.getD_eq_getElem?_getD, List.getElem?_set, h]

theorem getD_set_other {α : Type} (l : List α) (i j : Nat) (x d : α) (h : i ≠ j) :
    (l.set i x).getD j d = l.getD j d := by
  simp [List.getD_eq_getElem?_getD, List.getElem?_set, h]

theorem getD_set_cases {α : Type} (l : List α) (i j : Nat) (x d : α) :
    (l.set i x).getD j d = x ∨ (l.set i x).getD j d = l.getD j d := by
  by_cases hij : i = j
  · subst hij
    by_cases hl : i < l.length
    · exact Or.inl (getD_set_self l i x d hl)
    · right
      rw [List.set_eq_of_length_le (by omega)]
  · exact Or.inr (getD_set_other l i j x d hij)

/-- With a free slot in the pool the claimed index is the oldest free slot. -/
theorem get_index_free (dx : directx_sys_t)
    (hfree : ∃ j : Nat, (j : Int) < dx.surface_count ∧ (surface_at dx j).refcount = 0) :
    0 ≤ (get_loop dx dx.surface_count.toNat 0 (-1) (-1)).1 ∧
    first_oldest dx is_free dx.surface_count.toNat (get_index dx) := by
  obtain ⟨j, hj, hjf⟩ := hfree
  rcases (get_loop_pool dx).1 with ⟨_, hnone⟩ | ⟨h0, hfo⟩
  · have := hnone j (by omega)
    simp [is_free, hjf] at this
  · refine ⟨h0, ?_⟩
    unfold get_index
    simp only [ge_iff_le, h0, if_true]
    exact hfo

/-- Without a free slot in a non-empty pool the claimed index is the oldest
slot, and the loop variable `old` is still `-1`. -/
theorem get_index_busy (dx : directx_sys_t) (hpos : 0 < dx.surface_count)
    (hbusy : ∀ j : Nat, (j : Int) < dx.surface_count → (surface_at dx j).refcount ≠ 0) :
    (get_loop dx dx.surface_count.toNat 0 (-1) (-1)).1 = -1 ∧
    0 ≤ (get_loop dx dx.surface_count.toNat 0 (-1) (-1)).2 ∧
    (get_loop dx dx.surface_count.toNat 0 (-1) (-1)).2.toNat = get_index dx ∧
    first_oldest dx (fun _ => true) dx.surface_count.toNat (get_index dx) := by
  have h1 : (get_loop dx dx.surface_count.toNat 0 (-1) (-1)).1 = -1 := by
    rcases (get_loop_pool dx).1 with ⟨h, _⟩ | ⟨_, hlt, hp, _⟩
    · exact h
    · have := hbusy (get_loop dx dx.surface_count.toNat 0 (-1) (-1)).1.toNat (by omega)
      simp [is_free] at hp
      exact absurd hp this
  rcases (get_loop_pool dx).2 with ⟨_, hnone⟩ | ⟨h0, hfo⟩
  · have := hnone 0 (by omega)
    simp at this
  · have hidx : get_index dx = (get_loop dx dx.surface_count.toNat 0 (-1) (-1)).2.toNat := by
      unfold get_index
      simp only [h1, ge_iff_le, h0, if_true]
      rfl
    refine ⟨h1, h0, hidx.symm, ?_⟩
    rw [hidx]
    exact hfo

/-- The result of `directx_va_Get` when the device check succeeds. -/
theorem directx_va_Get_success {W : Type} (cb : callbacks W) (pic : picture_t) (data : Nat)
    (st : State W) (hcheck : (cb.pf_check_device st.world).1 = VLC_SUCCESS) :
    directx_va_Get cb pic data st =
      { status := VLC_SUCCESS,
        pic := { pic with context := some (get_index st.dx) },
        data := st.dx.hw_surface.getD (get_index st.dx) 0,
        st :=
          { dx :=
              { st.dx with
                surface_order := wrap32 (st.dx.surface_order + 1),
                surface := st.dx.surface.set (get_index st.dx)
                  { surface_at st.dx (get_index st.dx) with
                    refcount := 1, order := wrap32 (st.dx.surface_order + 1) } },
            world := (cb.pf_check_device st.world).2,
            log :=
              if (get_loop st.dx st.dx.surface_count.toNat 0 (-1) (-1)).1 ≥ 0 then
                st.log ++ [Call.check_device]
              else if (get_loop st.dx st.dx.surface_count.toNat 0 (-1) (-1)).2 ≥ 0 then
                st.log ++ [Call.check_device] ++
                  [Call.msg_Warn_no_free_buffer
                    (get_loop st.dx st.dx.surface_count.toNat 0 (-1) (-1)).2.toNat]
              else st.log ++ [Call.check_device] } } := by
  simp [directx_va_Get, hcheck]

/-- The result of `directx_va_Get` when the device check fails. -/
theorem directx_va_Get_failure {W : Type} (cb : callbacks W) (pic : picture_t) (data : Nat)
    (st : State W) (hcheck : (cb.pf_check_device st.world).1 ≠ VLC_SUCCESS) :
    directx_va_Get cb pic data st =
      { status := VLC_EGENERIC, pic := pic, data := data,
        st := { dx := st.dx, world := (cb.pf_check_device st.world).2,
                log := st.log ++ [Call.check_device] } } := by
  simp [directx_va_Get, hcheck]

/-- The slot a successful `directx_va_Get` claims, when it lies in the array:
reference count 1 and the new generation; the other slots are untouched. -/
theorem directx_va_Get_claims {W : Type} (cb : callbacks W) (pic : picture_t) (data : Nat)
    (st : State W) (hcheck : (cb.pf_check_device st.world).1 = VLC_SUCCESS) :
    (get_index st.dx < st.dx.surface.length →
      surface_at (directx_va_Get cb pic data st).st.dx (get_index st.dx) =
        { surface_at st.dx (get_index st.dx) with
          refcount := 1, order := wrap32 (st.dx.surface_order + 1) }) ∧
    (∀ j, j ≠ get_index st.dx →
      surface_at (directx_va_Get cb pic data st).st.dx j = surface_at st.dx j) := by
  rw [directx_va_Get_success cb pic data st hcheck]
  constructor
  · intro hlt
    exact getD_set_self _ _ _ _ hlt
  · intro j hj
    exact getD_set_other _ _ _ _ _ (fun h => hj h.symm)

/-- In a non-empty pool the claimed index lies in the pool. -/
theorem get_index_in_pool (dx : directx_sys_t) (hpos : 0 < dx.surface_count) :
    (get_index dx : Int) < dx.surface_count := by
  by_cases hfree : ∃ j : Nat, (j : Int) < dx.surface_count ∧ (surface_at dx j).refcount = 0
  · obtain ⟨_, hlt, _, _⟩ := get_index_free dx hfree
    omega
  · have hbusy : ∀ j : Nat, (j : Int) < dx.surface_count → (surface_at dx j).refcount ≠ 0 :=
      fun j hj hz => hfree ⟨j, hj, hz⟩
    obtain ⟨_, _, _, hlt, _, _⟩ := get_index_busy dx hpos hbusy
    omega

/-- C11: when the device check succeeds and at least one surface of the pool
has reference count 0, `directx_va_Get` succeeds and claims a surface `i` of the
pool whose reference count was 0 and whose generation is minimal among the
surfaces with reference count 0, the lowest index among those with that
generation; its reference count becomes 1. -/
theorem directx_va_Get_oldest_free {W : Type} (cb : callbacks W) (pic : picture_t)
    (data : Nat) (st : State W)
    (hcheck : (cb.pf_check_device st.world).1 = VLC_SUCCESS)
    (hwf : st.dx.surface_count ≤ st.dx.surface.length)
    (hfree : ∃ j : Nat, (j : Int) < st.dx.surface_count ∧ (surface_at st.dx j).refcount = 0) :
    ∃ i : Nat,
      (directx_va_Get cb pic data st).status = VLC_SUCCESS ∧
      (directx_va_Get cb pic data st).pic.context = some i ∧
      (i : Int) < st.dx.surface_count ∧
      (surface_at st.dx i).refcount = 0 ∧
      (∀ j : Nat, (j : Int) < st.dx.surface_count → (surface_at st.dx j).refcount = 0 →
        (surface_at st.dx i).order ≤ (surface_at st.dx j).order ∧
        ((surface_at st.dx j).order = (surface_at st.dx i).order → i ≤ j)) ∧
      (surface_at (directx_va_Get cb pic data st).st.dx i).refcount = 1 := by
  obtain ⟨_, hlt, hp, hmin⟩ := get_index_free st.dx hfree
  have hclaim := (directx_va_Get_claims cb pic data st hcheck).1 (by omega)
  refine ⟨get_index st.dx, ?_, ?_, by omega, by simpa [is_free] using hp, ?_, ?_⟩
  · rw [directx_va_Get_success cb pic data st hcheck]
  · rw [directx_va_Get_success cb pic data st hcheck]
  · intro j hj hjf
    exact hmin j (by omega) (by simp [is_free, hjf])
  · rw [hclaim]

theorem directx_va_Get_oldest_free_witness :
    (directx_va_Get sample_callbacks sample_pic 0 (sample_pool [0, 0, 1] [5, 2, 8])).pic.context
      = some 1 ∧
    ∃ i : Nat,
      (directx_va_Get sample_callbacks sample_pic 0
        (sample_pool [0, 0, 1] [5, 2, 8])).status = VLC_SUCCESS ∧
      (directx_va_Get sample_callbacks sample_pic 0
        (sample_pool [0, 0, 1] [5, 2, 8])).pic.context = some i ∧
      (i : Int) < (sample_pool [0, 0, 1] [5, 2, 8]).dx.surface_count ∧
      (surface_at (sample_pool [0, 0, 1] [5, 2, 8]).dx i).refcount = 0 ∧
      (∀ j : Nat, (j : Int) < (sample_pool [0, 0, 1] [5, 2, 8]).dx.surface_count →
        (surface_at (sample_pool [0, 0, 1] [5, 2, 8]).dx j).refcount = 0 →
        (surface_at (sample_pool [0, 0, 1] [5, 2, 8]).dx i).order ≤
          (surface_at (sample_pool [0, 0, 1] [5, 2, 8]).dx j).order ∧
        ((surface_at (sample_pool [0, 0, 1] [5, 2, 8]).dx j).order =
          (surface_at (sample_pool [0, 0, 1] [5, 2, 8]).dx i).order → i ≤ j)) ∧
      (surface_at (directx_va_Get sample_callbacks sample_pic 0
        (sample_pool [0, 0, 1] [5, 2, 8])).st.dx i).refcount = 1 :=
  ⟨by decide,
   directx_va_Get_oldest_free sample_callbacks sample_pic 0 (sample_pool [0, 0, 1] [5, 2, 8])
     (by decide) (by decide) ⟨0, by decide, by decide⟩⟩

/-- C12: when the device check succeeds, the pool is not empty and no surface
of it has reference count 0, `directx_va_Get` still returns `VLC_SUCCESS`; it
claims the surface `i` of the lowest generation in the whole pool, the lowest
index among those with that generation, and logs the warning for `i`. -/
theorem directx_va_Get_fallback_oldest {W : Type} (cb : callbacks W) (pic : picture_t)
    (data : Nat) (st : State W)
    (hcheck : (cb.pf_check_device st.world).1 = VLC_SUCCESS)
    (hpos : 0 < st.dx.surface_count)
    (hbusy : ∀ j : Nat, (j : Int) < st.dx.surface_count → (surface_at st.dx j).refcount ≠ 0) :
    ∃ i : Nat,
      (directx_va_Get cb pic data st).status = VLC_SUCCESS ∧
      (directx_va_Get cb pic data st).pic.context = some i ∧
      (i : Int) < st.dx.surface_count ∧
      (∀ j : Nat, (j : Int) < st.dx.surface_count →
        (surface_at st.dx i).order ≤ (surface_at st.dx j).order ∧
        ((surface_at st.dx j).order = (surface_at st.dx i).order → i ≤ j)) ∧
      (directx_va_Get cb pic data st).st.log =
        st.log ++ [Call.check_device, Call.msg_Warn_no_free_buffer i] := by
  obtain ⟨h1, h2, h3, hlt, _, hmin⟩ := get_index_busy st.dx hpos hbusy
  have hn1 : ¬ (get_loop st.dx st.dx.surface_count.toNat 0 (-1) (-1)).1 ≥ 0 := by omega
  refine ⟨get_index st.dx, ?_, ?_, by omega, ?_, ?_⟩
  · rw [directx_va_Get_success cb pic data st hcheck]
  · rw [directx_va_Get_success cb pic data st hcheck]
  · intro j hj
    exact hmin j (by omega) rfl
  · rw [directx_va_Get_success cb pic data st hcheck]
    simp only [hn1, if_false, ge_iff_le, h2, if_true, h3, List.append_assoc,
      List.singleton_append]

theorem directx_va_Get_fallback_oldest_witness :
    (directx_va_Get sample_callbacks sample_pic 0 (sample_pool [1, 2, 1] [5, 2, 8])).pic.context
      = some 1 ∧
    ∃ i : Nat,
      (directx_va_Get sample_callbacks sample_pic 0
        (sample_pool [1, 2, 1] [5, 2, 8])).status = VLC_SUCCESS ∧
      (directx_va_Get sample_callbacks sample_pic 0
        (sample_pool [1, 2, 1] [5, 2, 8])).pic.context = some i ∧
      (i : Int) < (sample_pool [1, 2, 1] [5, 2, 8]).dx.surface_count ∧
      (∀ j : Nat, (j : Int) < (sample_pool [1, 2, 1] [5, 2, 8]).dx.surface_count →
        (surface_at (sample_pool [1, 2, 1] [5, 2, 8]).dx i).order ≤
          (surface_at (sample_pool [1, 2, 1] [5, 2, 8]).dx j).order ∧
        ((surface_at (sample_pool [1, 2, 1] [5, 2, 8]).dx j).order =
          (surface_at (sample_pool [1, 2, 1] [5, 2, 8]).dx i).order → i ≤ j)) ∧
      (directx_va_Get sample_callbacks sample_pic 0
        (sample_pool [1, 2, 1] [5, 2, 8])).st.log =
        (sample_pool [1, 2, 1] [5, 2, 8]).log ++
          [Call.check_device, Call.msg_Warn_no_free_buffer i] :=
  ⟨by decide,
   directx_va_Get_fallback_oldest sample_callbacks sample_pic 0
     (sample_pool [1, 2, 1] [5, 2, 8]) (by decide) (by decide)
     (by
       intro j hj
       have hj3 : j < 3 := by
         have : (j : Int) < 3 := hj
         omega
       interval_cases j <;> decide)⟩

/-- C17: `directx_va_Get` returns an error exactly when the device check
`pf_check_device` fails; in that case the error is `VLC_EGENERIC`, the session
(every surface's reference count and generation, the generation counter) is
unchanged, and so are the caller's picture and the `*data` cell. -/
theorem directx_va_Get_error_iff {W : Type} (cb : callbacks W) (pic : picture_t)
    (data : Nat) (st : State W) :
    ((directx_va_Get cb pic data st).status ≠ VLC_SUCCESS ↔
      (cb.pf_check_device st.world).1 ≠ VLC_SUCCESS) ∧
    ((cb.pf_check_device st.world).1 ≠ VLC_SUCCESS →
      (directx_va_Get cb pic data st).status = VLC_EGENERIC ∧
      (directx_va_Get cb pic data st).st.dx = st.dx ∧
      (directx_va_Get cb pic data st).pic = pic ∧
      (directx_va_Get cb pic data st).data = data) := by
  by_cases hcheck : (cb.pf_check_device st.world).1 = VLC_SUCCESS
  · rw [directx_va_Get_success cb pic data st hcheck]
    simp [hcheck]
  · rw [directx_va_Get_failure cb pic data st hcheck]
    have hne : VLC_EGENERIC ≠ VLC_SUCCESS := by decide
    exact ⟨⟨fun _ => hcheck, fun _ => hne⟩, fun _ => ⟨rfl, rfl, rfl, rfl⟩⟩

theorem directx_va_Get_error_iff_witness :
    (sample_callbacks_device_lost.pf_check_device (sample_pool [0, 0, 1] [5, 2, 8]).world).1
      ≠ VLC_SUCCESS ∧
    (directx_va_Get sample_callbacks_device_lost sample_pic 0
      (sample_pool [0, 0, 1] [5, 2, 8])).status = VLC_EGENERIC ∧
    (directx_va_Get sample_callbacks_device_lost sample_pic 0
      (sample_pool [0, 0, 1] [5, 2, 8])).st.dx = (sample_pool [0, 0, 1] [5, 2, 8]).dx ∧
    (directx_va_Get sample_callbacks_device_lost sample_pic 0
      (sample_pool [0, 0, 1] [5, 2, 8])).pic = sample_pic :=
  have h := (directx_va_Get_error_iff sample_callbacks_device_lost sample_pic 0
    (sample_pool [0, 0, 1] [5, 2, 8])).2 (by decide)
  ⟨by decide, h.1, h.2.1, h.2.2.1⟩

/-! ## Theorems: acquire and release -/

/-- The result of `directx_va_Release` on a picture bound to a slot `i` whose
lock pointer is `NULL`. -/
theorem directx_va_Release_no_lock {W : Type} (pic : picture_t) (st : State W) (i : Nat)
    (h : pic.context = some i) (hl : (surface_at st.dx i).p_lock = 0) :
    directx_va_Release pic st = none := by
  simp [directx_va_Release, h, hl]

/-- The result of `directx_va_Release` on a picture bound to a slot `i` whose
lock pointer is set. -/
theorem directx_va_Release_bound {W : Type} (pic : picture_t) (st : State W) (i : Nat)
    (h : pic.context = some i) (hl : (surface_at st.dx i).p_lock ≠ 0) :
    directx_va_Release pic st =
      some
        ({ pic with context := none },
         { st with
           dx := { st.dx with
                   surface := st.dx.surface.set i
                     { surface_at st.dx i with
                       refcount := wrap32 ((surface_at st.dx i).refcount - 1) } },
           log := st.log ++ [Call.picture_Release pic.handle] }) := by
  simp [directx_va_Release, h, hl]

/-- What `directx_va_Release` changes for a picture bound to the slot `i`, when
it returns: the reference count of that slot, when it lies in the array, and
the picture's context. -/
theorem directx_va_Release_slots {W : Type} (pic : picture_t) (st : State W) (i : Nat)
    (h : pic.context = some i) :
    directx_va_Release pic st = none ∨
    ∃ r : picture_t × State W,
      directx_va_Release pic st = some r ∧
      r.2.dx.surface.length = st.dx.surface.length ∧
      r.2.dx.surface_count = st.dx.surface_count ∧
      r.2.dx.surface_order = st.dx.surface_order ∧
      (∀ j, j ≠ i → surface_at r.2.dx j = surface_at st.dx j) ∧
      (surface_at r.2.dx i =
          { surface_at st.dx i with
            refcount := wrap32 ((surface_at st.dx i).refcount - 1) } ∨
        surface_at r.2.dx i = surface_at st.dx i) ∧
      r.1 = { pic with context := none } := by
  by_cases hl : (surface_at st.dx i).p_lock = 0
  · exact Or.inl (directx_va_Release_no_lock pic st i h hl)
  right
  refine ⟨_, directx_va_Release_bound pic st i h hl, ?_, rfl, rfl, ?_, ?_, rfl⟩
  · simp
  · intro j hj
    exact getD_set_other _ _ _ _ _ (fun h' => hj h'.symm)
  · exact getD_set_cases _ _ _ _ _

/-- C14 (counterexample): in a pool whose three surfaces are all referenced,
Acquire succeeds on the fallback path and claims surface 1, whose reference
count was 1; after the Release of the same picture that count is 0. -/
theorem directx_va_Get_Release_fallback_not_roundtrip :
    (directx_va_Get sample_callbacks sample_pic 0 (sample_pool [1, 1, 1] [5, 2, 8])).status
      = VLC_SUCCESS ∧
    (directx_va_Get sample_callbacks sample_pic 0 (sample_pool [1, 1, 1] [5, 2, 8])).pic.context
      = some 1 ∧
    (surface_at (sample_pool [1, 1, 1] [5, 2, 8]).dx 1).refcount = 1 ∧
    (directx_va_Release
        (directx_va_Get sample_callbacks sample_pic 0 (sample_pool [1, 1, 1] [5, 2, 8])).pic
        (directx_va_Get sample_callbacks sample_pic 0 (sample_pool [1, 1, 1] [5, 2, 8])).st).map
      (fun r => (surface_at r.2.dx 1).refcount) = some 0 := by
  refine ⟨by decide, by decide, by decide, by decide⟩

/-- C14 (amended): when the device check succeeds on a pool that is not empty,
lies in the array and whose surfaces all have their lock pointer set (the
allocation loop of Setup has reached them), Acquire followed immediately by
Release on the same picture is carried out and leaves the claimed surface's
reference count at 0 and the picture without context.  When the pool held a
surface with reference count 0, 0 is also the value before the Acquire, so the
pair restores it; when it held none (the fallback), the value before was not
0. -/
theorem directx_va_Get_Release_roundtrip {W : Type} (cb : callbacks W) (pic : picture_t)
    (data : Nat) (st : State W)
    (hcheck : (cb.pf_check_device st.world).1 = VLC_SUCCESS)
    (hpos : 0 < st.dx.surface_count)
    (hwf : st.dx.surface_count ≤ st.dx.surface.length)
    (hlock : ∀ j, j < st.dx.surface_count.toNat → (surface_at st.dx j).p_lock ≠ 0) :
    ∃ (i : Nat) (r : picture_t × State W),
      (directx_va_Get cb pic data st).pic.context = some i ∧
      directx_va_Release (directx_va_Get cb pic data st).pic
        (directx_va_Get cb pic data st).st = some r ∧
      (surface_at r.2.dx i).refcount = 0 ∧
      r.1.context = none ∧
      ((∃ j : Nat, (j : Int) < st.dx.surface_count ∧ (surface_at st.dx j).refcount = 0) →
        (surface_at st.dx i).refcount = 0 ∧
        (surface_at r.2.dx i).refcount = (surface_at st.dx i).refcount) ∧
      ((∀ j : Nat, (j : Int) < st.dx.surface_count → (surface_at st.dx j).refcount ≠ 0) →
        (surface_at st.dx i).refcount ≠ 0) := by
  have hlt := get_index_in_pool st.dx hpos
  have hin : get_index st.dx < st.dx.surface.length := by omega
  have hclaim := (directx_va_Get_claims cb pic data st hcheck).1 hin
  have hctx : (directx_va_Get cb pic data st).pic.context = some (get_index st.dx) := by
    rw [directx_va_Get_success cb pic data st hcheck]
  have hlen : get_index st.dx < (directx_va_Get cb pic data st).st.dx.surface.length := by
    rw [directx_va_Get_success cb pic data st hcheck]
    simpa using hin
  have hl : (surface_at (directx_va_Get cb pic data st).st.dx (get_index st.dx)).p_lock ≠ 0 := by
    rw [hclaim]
    exact hlock (get_index st.dx) (by omega)
  have hset : surface_at
      { (directx_va_Get cb pic data st).st.dx with
        surface := (directx_va_Get cb pic data st).st.dx.surface.set (get_index st.dx)
          { surface_at (directx_va_Get cb pic data st).st.dx (get_index st.dx) with
            refcount := wrap32
              ((surface_at (directx_va_Get cb pic data st).st.dx (get_index st.dx)).refcount
                - 1) } } (get_index st.dx) =
      { surface_at (directx_va_Get cb pic data st).st.dx (get_index st.dx) with
        refcount := wrap32
          ((surface_at (directx_va_Get cb pic data st).st.dx (get_index st.dx)).refcount - 1) } :=
    getD_set_self _ _ _ _ hlen
  have hafter : (surface_at
      { (directx_va_Get cb pic data st).st.dx with
        surface := (directx_va_Get cb pic data st).st.dx.surface.set (get_index st.dx)
          { surface_at (directx_va_Get cb pic data st).st.dx (get_index st.dx) with
            refcount := wrap32
              ((surface_at (directx_va_Get cb pic data st).st.dx (get_index st.dx)).refcount
                - 1) } } (get_index st.dx)).refcount = 0 := by
    rw [hset, hclaim]
    show wrap32 (1 - 1) = 0
    decide
  refine ⟨get_index st.dx, _, hctx, directx_va_Release_bound _ _ _ hctx hl, hafter, rfl, ?_, ?_⟩
  · intro hfree
    obtain ⟨_, _, hp, _⟩ := get_index_free st.dx hfree
    have hp0 : (surface_at st.dx (get_index st.dx)).refcount = 0 := by
      simpa [is_free] using hp
    exact ⟨hp0, hafter.trans hp0.symm⟩
  · intro hbusy
    exact hbusy (get_index st.dx) hlt

theorem directx_va_Get_Release_roundtrip_witness :
    ∃ (i : Nat) (r : picture_t × State Unit),
      (directx_va_Get sample_callbacks sample_pic 0
        (sample_pool [0, 0, 1] [5, 2, 8])).pic.context = some i ∧
      directx_va_Release
        (directx_va_Get sample_callbacks sample_pic 0 (sample_pool [0, 0, 1] [5, 2, 8])).pic
        (directx_va_Get sample_callbacks sample_pic 0 (sample_pool [0, 0, 1] [5, 2, 8])).st
          = some r ∧
      (surface_at r.2.dx i).refcount = 0 ∧
      r.1.context = none ∧
      (surface_at (sample_pool [0, 0, 1] [5, 2, 8]).dx i).refcount = 0 ∧
      (surface_at r.2.dx i).refcount
        = (surface_at (sample_pool [0, 0, 1] [5, 2, 8]).dx i).refcount :=
  have h := directx_va_Get_Release_roundtrip sample_callbacks sample_pic 0
    (sample_pool [0, 0, 1] [5, 2, 8]) (by decide) (by decide) (by decide) (by decide)
  h.elim fun i hi => hi.elim fun r hr =>
    ⟨i, r, hr.1, hr.2.1, hr.2.2.1, hr.2.2.2.1,
      (hr.2.2.2.2.1 ⟨0, by decide, by decide⟩).1, (hr.2.2.2.2.1 ⟨0, by decide, by decide⟩).2⟩

set_option maxRecDepth 8000 in
/-- A Release on a slot the allocation loop of Setup never reached: on the
sample platform whose allocator fails at index 2, Setup leaves a pool of 20
surfaces of which only the slots 0 to 2 have their lock pointer set; the fourth
Acquire succeeds and binds its picture to the slot 3, whose lock pointer is
`NULL`, and the Release of that picture cannot be made. -/
theorem directx_va_Release_unbuilt_slot :
    (run sample_callbacks_alloc_fail 64 sample_ops_half_built sample_session).map
      (fun s => s.st.dx.surface_count) = some 20 ∧
    (run sample_callbacks_alloc_fail 64 sample_ops_half_built sample_session).map
      (fun s => s.bound.lookup 4) = some (some 3) ∧
    (run sample_callbacks_alloc_fail 64 sample_ops_half_built sample_session).map
      (fun s => (s.st.dx.surface.take 4).map (fun x => x.p_lock)) = some [1, 1, 1, 0] ∧
    (run sample_callbacks_alloc_fail 64 (sample_ops_half_built ++ [Op.release 4])
      sample_session).isSome = false := by
  refine ⟨by decide, by decide, by decide, by decide⟩

/-- C18 (the code at the failing input): on a session whose pool is empty
(zero-initialised, just opened, or torn down after a Setup) the loop of
`directx_va_Get` does not run and neither branch after it assigns the index;
the call still returns `VLC_SUCCESS`, binds the picture to slot 0, which is not
below `surface_count = 0`, and hands out `hw_surface[0]`: `NULL` before any
Setup, the handle released by the teardown after one. -/
theorem directx_va_Get_empty_pool_claims_slot_zero :
    sample_state.dx.surface_count = 0 ∧
    (directx_va_Get sample_callbacks sample_pic 0 sample_state).status = VLC_SUCCESS ∧
    (directx_va_Get sample_callbacks sample_pic 0 sample_state).pic.context = some 0 ∧
    (directx_va_Get sample_callbacks sample_pic 0 sample_state).data = 0 ∧
    (directx_va_Get sample_callbacks sample_pic 0 sample_state).st.dx.surface_count = 0 ∧
    (directx_va_Open sample_callbacks helpers_none true sample_avctx fmt_unknown_profile false
      sample_state).1 = VLC_SUCCESS ∧
    (directx_va_Get sample_callbacks sample_pic 0
      (directx_va_Open sample_callbacks helpers_none true sample_avctx fmt_unknown_profile false
        sample_state).2).status = VLC_SUCCESS ∧
    (directx_va_Get sample_callbacks sample_pic 0
      (directx_va_Open sample_callbacks helpers_none true sample_avctx fmt_unknown_profile false
        sample_state).2).pic.context = some 0 ∧
    (directx_va_Get sample_callbacks sample_pic 0
      (directx_va_Open sample_callbacks helpers_none true sample_avctx fmt_unknown_profile false
        sample_state).2).st.dx.surface_count = 0 ∧
    (DestroyVideoDecoder sample_callbacks
      (directx_va_Setup sample_callbacks 64 sample_avctx sample_state).2.2).dx.surface_count
        = 0 ∧
    Call.Release_hw_surface 100 ∈
      (DestroyVideoDecoder sample_callbacks
        (directx_va_Setup sample_callbacks 64 sample_avctx sample_state).2.2).log ∧
    (directx_va_Get sample_callbacks sample_pic 0
      (DestroyVideoDecoder sample_callbacks
        (directx_va_Setup sample_callbacks 64 sample_avctx sample_state).2.2)).status
          = VLC_SUCCESS ∧
    (directx_va_Get sample_callbacks sample_pic 0
      (DestroyVideoDecoder sample_callbacks
        (directx_va_Setup sample_callbacks 64 sample_avctx sample_state).2.2)).pic.context
          = some 0 ∧
    (directx_va_Get sample_callbacks sample_pic 0
      (DestroyVideoDecoder sample_callbacks
        (directx_va_Setup sample_callbacks 64 sample_avctx sample_state).2.2)).data = 100 := by
  refine ⟨by decide, by decide, by decide, by decide, by decide, by decide, by decide,
    by decide, by decide, by decide, by decide, by decide, by decide, by decide⟩

/-- C19 (the code at the failing input): a Setup at 1920x1082 succeeds and
stores the payloads 300 to 319; a Setup at 1280x720 releases them in its
teardown, then fails at index 2 with the stored count back at 20 and the slots
3 to 19 still holding the released payloads; the teardown that follows releases
them again: payload 303, allocated once, is released twice. -/
theorem DestroyVideoDecoder_after_failed_rebuild_releases_twice :
    (directx_va_Setup sample_callbacks_rebuild_fail 64 sample_avctx sample_state).1
      = VLC_SUCCESS ∧
    (directx_va_Setup sample_callbacks_rebuild_fail 64 sample_avctx_720
      (directx_va_Setup sample_callbacks_rebuild_fail 64 sample_avctx sample_state).2.2).1
      = VLC_EGENERIC ∧
    sample_rebuild_failed.dx.surface_count = 20 ∧
    (sample_rebuild_failed.dx.surface.take 5).map (fun s => s.p_pic)
      = [400, 401, 0, 303, 304] ∧
    sample_rebuild_failed.log.count (Call.alloc_surface_pic ⟨1920, 1082, 25, 1⟩ 3) = 1 ∧
    sample_rebuild_failed.log.count (Call.picture_Release 303) = 1 ∧
    (DestroyVideoDecoder sample_callbacks_rebuild_fail sample_rebuild_failed).log.count
      (Call.picture_Release 303) = 2 := by
  refine ⟨by decide, by decide, by decide, by decide, by decide, by decide, by decide⟩

/-! ## Theorems: session close -/

theorem DestroyVideoDecoder_log {W : Type} (cb : callbacks W) (st : State W) :
    (DestroyVideoDecoder cb st).log = st.log ++ teardown_trace st.dx := by
  unfold DestroyVideoDecoder teardown_trace
  by_cases hd : st.dx.decoder ≠ 0
  · simp only [List.append_assoc]
    rw [if_pos hd, if_pos hd]
  · simp only [List.append_assoc]
    rw [if_neg hd, if_neg hd]
    simp

theorem teardown_trace_filter (dx : directx_sys_t) :
    (teardown_trace dx).filter (fun c => !c.is_handle_release) = teardown_trace dx := by
  apply List.filter_eq_self.mpr
  intro c hc
  unfold teardown_trace at hc
  simp only [List.mem_append, List.mem_singleton, List.mem_map] at hc
  rcases hc with ((rfl | ⟨h, _, rfl⟩) | ⟨x, _, rfl⟩) | hc
  · rfl
  · rfl
  · rfl
  · by_cases hd : dx.decoder ≠ 0
    · rw [if_pos hd, List.mem_singleton] at hc
      subst hc
      rfl
    · rw [if_neg hd] at hc
      cases hc

/-- C20: `directx_va_Close` tears down in the order decoder, video service,
device manager, device.  Its calls are those of `DestroyVideoDecoder`
(`pf_destroy_surfaces`, the releases of the backing handles, the releases of the
payloads, the release of the decoder when there is one), then
`pf_destroy_video_service`, `pf_destroy_device_manager` and `pf_destroy_device`,
in that order; the service and device steps also release the `d3ddec` and
`d3ddev` handles when they are set, and the library is freed last.  After the
decoder teardown step `surface_count` is 0 and the decoder handle is null, and
they still are when Close returns. -/
theorem directx_va_Close_order {W : Type} (cb : callbacks W) (st : State W) :
    (DestroyVideoDecoder cb st).log = st.log ++ teardown_trace st.dx ∧
    (DestroyVideoDecoder cb st).dx.surface_count = 0 ∧
    (DestroyVideoDecoder cb st).dx.decoder = 0 ∧
    (directx_va_Close cb st).log =
      st.log ++ teardown_trace st.dx
        ++ [Call.destroy_video_service]
        ++ (if st.dx.d3ddec ≠ 0 then [Call.Release_d3ddec st.dx.d3ddec] else [])
        ++ [Call.destroy_device_manager, Call.destroy_device]
        ++ (if st.dx.d3ddev ≠ 0 then [Call.Release_d3ddev st.dx.d3ddev] else [])
        ++ (if st.dx.hdecoder_dll ≠ 0 then [Call.FreeLibrary st.dx.hdecoder_dll] else []) ∧
    (∃ extra : List Call,
      (directx_va_Close cb st).log = st.log ++ extra ∧
      extra.filter (fun c => !c.is_handle_release) =
        teardown_trace st.dx ++
          [Call.destroy_video_service, Call.destroy_device_manager, Call.destroy_device]) ∧
    (directx_va_Close cb st).dx.surface_count = 0 ∧
    (directx_va_Close cb st).dx.decoder = 0 := by
  have hlog : (directx_va_Close cb st).log =
      st.log ++ teardown_trace st.dx
        ++ [Call.destroy_video_service]
        ++ (if st.dx.d3ddec ≠ 0 then [Call.Release_d3ddec st.dx.d3ddec] else [])
        ++ [Call.destroy_device_manager, Call.destroy_device]
        ++ (if st.dx.d3ddev ≠ 0 then [Call.Release_d3ddev st.dx.d3ddev] else [])
        ++ (if st.dx.hdecoder_dll ≠ 0 then [Call.FreeLibrary st.dx.hdecoder_dll] else []) := by
    have h1 := DestroyVideoDecoder_log cb st
    unfold directx_va_Close DestroyDevice DestroyDeviceManager DestroyVideoService
    simp only [h1]
    by_cases hdll : (DestroyVideoDecoder cb st).dx.hdecoder_dll ≠ 0
    · have hdll2 : st.dx.hdecoder_dll ≠ 0 := hdll
      rw [if_pos hdll, if_pos hdll2]
      simp [DestroyVideoDecoder]
    · have hdll2 : ¬ st.dx.hdecoder_dll ≠ 0 := hdll
      rw [if_neg hdll, if_neg hdll2]
      simp [DestroyVideoDecoder]
  refine ⟨DestroyVideoDecoder_log cb st, rfl, rfl, hlog, ?_, ?_, ?_⟩
  · refine ⟨teardown_trace st.dx
        ++ [Call.destroy_video_service]
        ++ (if st.dx.d3ddec ≠ 0 then [Call.Release_d3ddec st.dx.d3ddec] else [])
        ++ [Call.destroy_device_manager, Call.destroy_device]
        ++ (if st.dx.d3ddev ≠ 0 then [Call.Release_d3ddev st.dx.d3ddev] else [])
        ++ (if st.dx.hdecoder_dll ≠ 0 then [Call.FreeLibrary st.dx.hdecoder_dll] else []),
      by rw [hlog]; simp only [List.append_assoc], ?_⟩
    simp only [List.filter_append, teardown_trace_filter]
    by_cases h1 : st.dx.d3ddec ≠ 0 <;> by_cases h2 : st.dx.d3ddev ≠ 0 <;>
      by_cases h3 : st.dx.hdecoder_dll ≠ 0 <;>
      simp [h1, h2, h3, Call.is_handle_release]
  · unfold directx_va_Close
    simp only []
    split_ifs <;> rfl
  · unfold directx_va_Close
    simp only []
    split_ifs <;> rfl

/-! ## Theorems: sequences of operations -/

/-- The allocation loop keeps the length of the pool array, and leaves every
slot as it was or with reference count and generation 0. -/
theorem alloc_loop_slots {W : Type} (cb : callbacks W) (fmt : video_format_t) (n : Nat) :
    ∀ (i : Nat) (st : State W),
      (alloc_loop cb fmt n i st).2.dx.surface.length = st.dx.surface.length ∧
      ∀ j, surface_at (alloc_loop cb fmt n i st).2.dx j = surface_at st.dx j ∨
        ((surface_at (alloc_loop cb fmt n i st).2.dx j).refcount = 0 ∧
          (surface_at (alloc_loop cb fmt n i st).2.dx j).order = 0) := by
  induction n with
  | zero => intro i st; exact ⟨rfl, fun j => Or.inl rfl⟩
  | succ n ih =>
    intro i st
    rw [alloc_loop]
    have hstep : ∀ j, surface_at
        { st.dx with surface := (st.dx.surface.set i
            ⟨0, 0, surface_lock, (cb.pf_alloc_surface_pic st.world fmt i).1⟩) } j = surface_at st.dx j ∨
        ((surface_at
          { st.dx with surface := (st.dx.surface.set i
            ⟨0, 0, surface_lock, (cb.pf_alloc_surface_pic st.world fmt i).1⟩) } j).refcount = 0 ∧
         (surface_at
          { st.dx with surface := (st.dx.surface.set i
            ⟨0, 0, surface_lock, (cb.pf_alloc_surface_pic st.world fmt i).1⟩) } j).order = 0) := by
      intro j
      rcases getD_set_cases st.dx.surface i j
        (⟨0, 0, surface_lock, (cb.pf_alloc_surface_pic st.world fmt i).1⟩ : vlc_va_surface_t)
        ⟨0, 0, 0, 0⟩
        with h | h
      · right
        simp only [surface_at]
        rw [h]
        exact ⟨rfl, rfl⟩
      · left
        exact h
    by_cases hp : (cb.pf_alloc_surface_pic st.world fmt i).1 = 0
    · simp only [hp, if_true]
      refine ⟨by simp, ?_⟩
      simpa only [hp] using hstep
    · simp only [hp, if_false]
      obtain ⟨h1, h2⟩ := ih (i + 1)
        { dx := { st.dx with
                    surface := (st.dx.surface.set i
                      ⟨0, 0, surface_lock, (cb.pf_alloc_surface_pic st.world fmt i).1⟩) },
          world := (cb.pf_alloc_surface_pic st.world fmt i).2,
          log := st.log ++ [Call.alloc_surface_pic fmt i] }
      refine ⟨by rw [h1]; simp, ?_⟩
      intro j
      rcases h2 j with h | h
      · rcases hstep j with h' | h'
        · left; rw [h]; exact h'
        · right; rw [h]; exact h'
      · right; exact h

/-- Setup keeps the length of the pool array and the generation counter, and
leaves every slot as it was or with reference count and generation 0. -/
theorem directx_va_Setup_slots {W : Type} (cb : callbacks W) (MAX_SURFACE_COUNT : Int)
    (avctx : AVCodecContext) (st : State W) :
    (directx_va_Setup cb MAX_SURFACE_COUNT avctx st).2.2.dx.surface.length
      = st.dx.surface.length ∧
    (directx_va_Setup cb MAX_SURFACE_COUNT avctx st).2.2.dx.surface_order
      = st.dx.surface_order ∧
    ∀ j, surface_at (directx_va_Setup cb MAX_SURFACE_COUNT avctx st).2.2.dx j
        = surface_at st.dx j ∨
      ((surface_at (directx_va_Setup cb MAX_SURFACE_COUNT avctx st).2.2.dx j).refcount = 0 ∧
        (surface_at (directx_va_Setup cb MAX_SURFACE_COUNT avctx st).2.2.dx j).order = 0) := by
  cases hfast : setup_fast_path st.dx avctx with
  | true =>
    rw [directx_va_Setup_fast cb MAX_SURFACE_COUNT avctx st hfast]
    exact ⟨rfl, rfl, fun j => Or.inl rfl⟩
  | false =>
    by_cases h : avctx.coded_width ≤ 0 ∨ avctx.coded_height ≤ 0 ∨
        computed_surface_count st.dx avctx > MAX_SURFACE_COUNT
    · rw [directx_va_Setup_early cb MAX_SURFACE_COUNT avctx st hfast h]
      exact ⟨rfl, rfl, fun j => Or.inl rfl⟩
    · have hd : ¬ (avctx.coded_width ≤ 0 ∨ avctx.coded_height ≤ 0) := by omega
      have hc2 : ¬ computed_surface_count st.dx avctx > MAX_SURFACE_COUNT := by omega
      unfold directx_va_Setup
      simp only [hfast, Bool.false_eq_true, if_false, computed_surface_count_destroy, hd, hc2]
      split
      · exact ⟨rfl, rfl, fun j => Or.inl rfl⟩
      · simp only []
        refine ⟨?_, ?_, ?_⟩
        · rw [(alloc_loop_slots cb _ _ 0 _).1]
          rfl
        · rw [(alloc_loop_frame cb _ _ 0 _).1]
          rfl
        · intro j
          exact (alloc_loop_slots cb _ _ 0 _).2 j

/-- A free surface of the pool, as a statement and as a test. -/
theorem has_free_surface_iff (dx : directx_sys_t) :
    has_free_surface dx = true ↔
      ∃ j : Nat, (j : Int) < dx.surface_count ∧ (surface_at dx j).refcount = 0 := by
  unfold has_free_surface
  simp only [List.any_eq_true, List.mem_range, is_free, decide_eq_true_eq]
  constructor
  · rintro ⟨j, hj, hf⟩
    exact ⟨j, by omega, hf⟩
  · rintro ⟨j, hj, hf⟩
    exact ⟨j, by omega, hf⟩

theorem bindings_to_nil (i : Nat) : bindings_to [] i = 0 := rfl

theorem bindings_to_cons (b : Nat × Nat) (l : List (Nat × Nat)) (i : Nat) :
    bindings_to (b :: l) i = bindings_to l i + (if b.2 = i then 1 else 0) := by
  unfold bindings_to
  by_cases h : b.2 = i
  · simp [List.filter_cons, h]
  · simp [List.filter_cons, h]

theorem bindings_to_filter_le (q : Nat × Nat → Bool) (l : List (Nat × Nat)) (i : Nat) :
    bindings_to (l.filter q) i ≤ bindings_to l i := by
  induction l with
  | nil => simp [bindings_to]
  | cons b l ih =>
    by_cases hq : q b = true
    · rw [List.filter_cons_of_pos hq, bindings_to_cons, bindings_to_cons]
      omega
    · rw [List.filter_cons_of_neg hq, bindings_to_cons]
      omega

/-- Dropping the bindings of a picture bound to `i` frees at least one binding
of `i`. -/
theorem bindings_to_drop (pic i : Nat) (l : List (Nat × Nat)) (h : l.lookup pic = some i) :
    bindings_to (l.filter (fun b => decide (b.1 ≠ pic))) i + 1 ≤ bindings_to l i := by
  induction l with
  | nil => simp [List.lookup] at h
  | cons b l ih =>
    obtain ⟨p, k⟩ := b
    by_cases hp : pic = p
    · subst hp
      have hk : k = i := by simpa [List.lookup] using h
      subst hk
      have e : List.filter (fun b : Nat × Nat => decide (b.1 ≠ pic)) ((pic, k) :: l) =
          List.filter (fun b : Nat × Nat => decide (b.1 ≠ pic)) l := by
        simp [List.filter_cons]
      rw [e, bindings_to_cons]
      have := bindings_to_filter_le (fun b => decide (b.1 ≠ pic)) l k
      simp only [if_true]
      omega
    · have hl : l.lookup pic = some i := by
        have hne : (pic == p) = false := by simpa using hp
        simpa [List.lookup, hne] using h
      have hpp : ¬ p = pic := fun h' => hp h'.symm
      have e : List.filter (fun b : Nat × Nat => decide (b.1 ≠ pic)) ((p, k) :: l) =
          (p, k) :: List.filter (fun b : Nat × Nat => decide (b.1 ≠ pic)) l := by
        simp [List.filter_cons, hpp]
      rw [e, bindings_to_cons, bindings_to_cons]
      have := ih hl
      omega

theorem surface_at_mem_or_zero (dx : directx_sys_t) (i : Nat) :
    surface_at dx i ∈ dx.surface ∨ surface_at dx i = ⟨0, 0, 0, 0⟩ := by
  unfold surface_at
  by_cases h : i < dx.surface.length
  · left
    rw [List.getD_eq_getElem _ _ h]
    exact List.getElem_mem h
  · right
    rw [List.getD_eq_default _ _ (by omega)]

theorem fresh_session_slots {W : Type} (s : Session W) (h : fresh_session s) (i : Nat) :
    (surface_at s.st.dx i).refcount = 0 ∧ (surface_at s.st.dx i).order = 0 := by
  rcases surface_at_mem_or_zero s.st.dx i with hm | hz
  · exact h.2.2.2 _ hm
  · rw [hz]; exact ⟨rfl, rfl⟩

theorem bind_picture_le (bound : List (Nat × Nat)) (p : picture_t) (j : Nat) :
    bindings_to (bind_picture bound p) j ≤
      bindings_to bound j + (if p.context = some j then 1 else 0) := by
  unfold bind_picture
  cases hc : p.context with
  | none =>
    simp only [reduceCtorEq, if_false, Nat.add_zero]
    exact bindings_to_filter_le _ _ _
  | some i =>
    simp only [bindings_to_cons, Option.some.injEq]
    have := bindings_to_filter_le (fun b => decide (b.1 ≠ p.handle)) bound j
    omega

/-- An operation of an exclusive use keeps the reference counts in agreement
with the bindings. -/
theorem step_exclusive_inv {W : Type} (cb : callbacks W) (MAX_SURFACE_COUNT : Int)
    (hMAX : 0 ≤ MAX_SURFACE_COUNT) (op : Op) (s s1 : Session W)
    (hinv : exclusive_inv MAX_SURFACE_COUNT s) (hadm : adm_exclusive op s = true)
    (hstep : step cb MAX_SURFACE_COUNT op s = some s1) :
    exclusive_inv MAX_SURFACE_COUNT s1 := by
  obtain ⟨hlen, hcount, hslots⟩ := hinv
  cases op with
  | setup avctx =>
    simp only [step, Option.some.injEq] at hstep
    subst hstep
    obtain ⟨hl, _, hs⟩ := directx_va_Setup_slots cb MAX_SURFACE_COUNT avctx s.st
    refine ⟨by simp only [hl]; exact hlen,
      directx_va_Setup_surface_count_le cb MAX_SURFACE_COUNT avctx s.st hMAX hcount, ?_⟩
    intro i
    simp only [adm_exclusive, Bool.or_eq_true, List.isEmpty_iff] at hadm
    rcases hadm with hfast | hempty
    · simp only [directx_va_Setup_fast cb MAX_SURFACE_COUNT avctx s.st hfast]
      exact hslots i
    · have hb : bindings_to s.bound i = 0 := by rw [hempty]; rfl
      have h0 := hslots i
      rcases hs i with h | ⟨h, _⟩
      · simp only [h]; exact h0
      · simp only [h, hb]
        exact ⟨by simp, by omega⟩
  | get pic =>
    simp only [step, Option.some.injEq] at hstep
    subst hstep
    by_cases hcheck : (cb.pf_check_device s.st.world).1 = VLC_SUCCESS
    · simp only [adm_exclusive] at hadm
      obtain ⟨_, hlt, hp, _⟩ := get_index_free s.st.dx ((has_free_surface_iff _).mp hadm)
      have hp0 : (surface_at s.st.dx (get_index s.st.dx)).refcount = 0 := by
        simpa [is_free] using hp
      have hin : get_index s.st.dx < s.st.dx.surface.length := by omega
      obtain ⟨hself, hother⟩ := directx_va_Get_claims cb ⟨pic, s.bound.lookup pic⟩ 0 s.st hcheck
      have hctx : (directx_va_Get cb ⟨pic, s.bound.lookup pic⟩ 0 s.st).pic.context
          = some (get_index s.st.dx) := by
        rw [directx_va_Get_success cb _ 0 s.st hcheck]
      have hl : (directx_va_Get cb ⟨pic, s.bound.lookup pic⟩ 0 s.st).st.dx.surface.length
          = s.st.dx.surface.length := by
        rw [directx_va_Get_success cb _ 0 s.st hcheck]
        simp
      have hc : (directx_va_Get cb ⟨pic, s.bound.lookup pic⟩ 0 s.st).st.dx.surface_count
          = s.st.dx.surface_count := by
        rw [directx_va_Get_success cb _ 0 s.st hcheck]
      refine ⟨by simp only [hl]; exact hlen, by simp only [hc]; exact hcount, ?_⟩
      intro j
      have hb := bind_picture_le s.bound
        (directx_va_Get cb ⟨pic, s.bound.lookup pic⟩ 0 s.st).pic j
      rw [hctx] at hb
      simp only
      by_cases hj : j = get_index s.st.dx
      · subst hj
        rw [hself hin]
        have h0 := hslots (get_index s.st.dx)
        simp only [if_true] at hb
        exact ⟨by simp only; omega, by simp⟩
      · rw [hother j hj]
        have h0 := hslots j
        have hne : ¬ some (get_index s.st.dx) = some j := by
          intro h; exact hj (Option.some.inj h).symm
        simp only [hne, if_false] at hb
        exact ⟨by omega, h0.2⟩
    · rw [directx_va_Get_failure cb _ 0 s.st hcheck]
      refine ⟨hlen, hcount, ?_⟩
      intro j
      have h0 := hslots j
      refine ⟨?_, h0.2⟩
      have hle : bindings_to (bind_picture s.bound ⟨pic, s.bound.lookup pic⟩) j
          ≤ bindings_to s.bound j := by
        unfold bind_picture
        cases hlk : s.bound.lookup pic with
        | none => exact bindings_to_filter_le _ _ _
        | some i =>
          simp only [bindings_to_cons]
          have hdrop := bindings_to_drop pic i s.bound hlk
          have hfl := bindings_to_filter_le (fun b => decide (b.1 ≠ pic)) s.bound j
          by_cases hij : i = j
          · subst hij; simp only [if_true]; omega
          · simp only [hij, if_false]; omega
      simp only
      omega
  | release pic =>
    cases hlk : s.bound.lookup pic with
    | none => simp [step, directx_va_Release, hlk] at hstep
    | some i =>
      rcases directx_va_Release_slots ⟨pic, s.bound.lookup pic⟩ s.st i (by simp [hlk])
        with hnone | ⟨r, hr, hl, hc, _, hother, hself, hpic⟩
      · simp [step, hnone] at hstep
      simp only [step, hr, Option.some.injEq] at hstep
      subst hstep
      have hdrop := bindings_to_drop pic i s.bound hlk
      refine ⟨by simp only [hl]; exact hlen, by simp only [hc]; exact hcount, ?_⟩
      intro j
      have h0 := hslots j
      have hfl := bindings_to_filter_le (fun b => decide (b.1 ≠ pic)) s.bound j
      have hbound : bindings_to (bind_picture s.bound r.1) j
          = bindings_to (s.bound.filter (fun b => decide (b.1 ≠ pic))) j := by
        rw [hpic]; rfl
      simp only
      rw [hbound]
      by_cases hij : j = i
      · subst hij
        rcases hself with h | h
        · rw [h]
          have h1 : (surface_at s.st.dx j).refcount = 1 := by omega
          simp only [h1]
          have hw : wrap32 (1 - 1) = 0 := by decide
          rw [hw]
          constructor
          · have : bindings_to s.bound j ≤ 1 := by omega
            omega
          · omega
        · rw [h]
          exact ⟨by omega, h0.2⟩
      · rw [hother j hij]
        exact ⟨by omega, h0.2⟩
  | teardown =>
    simp only [step, Option.some.injEq] at hstep
    subst hstep
    exact ⟨hlen, hMAX, hslots⟩

theorem run_where_exclusive_inv {W : Type} (cb : callbacks W) (MAX_SURFACE_COUNT : Int)
    (hMAX : 0 ≤ MAX_SURFACE_COUNT) (ops : List Op) :
    ∀ s s1 : Session W, exclusive_inv MAX_SURFACE_COUNT s →
      run_where cb MAX_SURFACE_COUNT adm_exclusive ops s = some s1 →
      exclusive_inv MAX_SURFACE_COUNT s1 := by
  induction ops with
  | nil =>
    intro s s1 hinv hrun
    simp only [run_where, Option.some.injEq] at hrun
    subst hrun
    exact hinv
  | cons op ops ih =>
    intro s s1 hinv hrun
    rw [run_where] at hrun
    by_cases hadm : adm_exclusive op s = true
    · rw [if_pos hadm] at hrun
      cases hstep : step cb MAX_SURFACE_COUNT op s with
      | none => rw [hstep] at hrun; cases hrun
      | some s2 =>
        rw [hstep] at hrun
        exact ih s2 s1 (step_exclusive_inv cb MAX_SURFACE_COUNT hMAX op s s2 hinv hadm hstep)
          hrun
    · rw [if_neg hadm] at hrun
      cases hrun

theorem fresh_exclusive_inv {W : Type} (MAX_SURFACE_COUNT : Int) (s : Session W)
    (hMAX : 0 ≤ MAX_SURFACE_COUNT) (hlen : MAX_SURFACE_COUNT ≤ s.st.dx.surface.length)
    (hfresh : fresh_session s) : exclusive_inv MAX_SURFACE_COUNT s := by
  refine ⟨hlen, by rw [hfresh.2.1]; exact hMAX, ?_⟩
  intro i
  rw [hfresh.1, (fresh_session_slots s hfresh i).1]
  exact ⟨by simp [bindings_to], by omega⟩

theorem sample_session_mpeg2_fresh : fresh_session sample_session_mpeg2 :=
  ⟨rfl, rfl, rfl, by decide⟩

/-- C15 (counterexample): on the six-surface pool the seventh Acquire reuses
surface 0, which picture 1 still holds, and sets its reference count to 1; the
Releases of the pictures 1 and 7, both bound by an Acquire and not yet
released, leave the reference count -1.  The same happens when a Setup rebuilds
the pool while picture 1 is bound and picture 1 is released afterwards. -/
theorem run_release_below_zero :
    (run sample_callbacks 64 (sample_ops_exhaust ++ [Op.release 1, Op.release 7])
      sample_session_mpeg2).map (fun s => (surface_at s.st.dx 0).refcount) = some (-1) ∧
    (run sample_callbacks 64
      [Op.setup sample_avctx, Op.get 1, Op.setup sample_avctx_720, Op.release 1]
      sample_session_mpeg2).map (fun s => (surface_at s.st.dx 0).refcount) = some (-1) := by
  refine ⟨by decide, by decide⟩

/-- C15 (amended): in every state reached from a fresh session by Setup,
Acquire, Release and teardown operations in which each Release is applied to a
picture bound by an earlier Acquire and not yet released, each Acquire is made
while the pool holds a surface with reference count 0, and each Setup off the
fast path while no picture is bound, every surface's reference count is 0 or 1
and at least the number of pictures bound to it: no Release takes it below
0. -/
theorem exclusive_run_refcount_nonneg {W : Type} (cb : callbacks W)
    (MAX_SURFACE_COUNT : Int) (ops : List Op) (s0 s : Session W)
    (hMAX : 0 ≤ MAX_SURFACE_COUNT) (hlen : MAX_SURFACE_COUNT ≤ s0.st.dx.surface.length)
    (hfresh : fresh_session s0)
    (hrun : run_where cb MAX_SURFACE_COUNT adm_exclusive ops s0 = some s) :
    ∀ i, 0 ≤ (surface_at s.st.dx i).refcount ∧ (surface_at s.st.dx i).refcount ≤ 1 ∧
      (bindings_to s.bound i : Int) ≤ (surface_at s.st.dx i).refcount := by
  obtain ⟨_, _, hslots⟩ := run_where_exclusive_inv cb MAX_SURFACE_COUNT hMAX ops s0 s
    (fresh_exclusive_inv MAX_SURFACE_COUNT s0 hMAX hlen hfresh) hrun
  intro i
  have := hslots i
  exact ⟨by omega, this.2, this.1⟩

theorem exclusive_run_refcount_nonneg_witness :
    (sample_ops_result.st.dx.surface.take 6).map (fun x => x.refcount) = [0, 1, 1, 0, 0, 0] ∧
    ∀ i, 0 ≤ (surface_at sample_ops_result.st.dx i).refcount ∧
      (surface_at sample_ops_result.st.dx i).refcount ≤ 1 ∧
      (bindings_to sample_ops_result.bound i : Int) ≤
        (surface_at sample_ops_result.st.dx i).refcount :=
  ⟨by decide,
   exclusive_run_refcount_nonneg sample_callbacks 64 sample_ops sample_session_mpeg2
     sample_ops_result (by decide) (by decide) sample_session_mpeg2_fresh rfl⟩

/-- The generations after `directx_va_Get`: the counter, and every slot as it
was but for the claimed one, which takes the new counter value. -/
theorem directx_va_Get_generations {W : Type} (cb : callbacks W) (pic : picture_t)
    (data : Nat) (st : State W) :
    ((directx_va_Get cb pic data st).st.dx.surface_order = st.dx.surface_order ∧
      ∀ j, surface_at (directx_va_Get cb pic data st).st.dx j = surface_at st.dx j) ∨
    ((directx_va_Get cb pic data st).st.dx.surface_order = wrap32 (st.dx.surface_order + 1) ∧
      ∀ j, surface_at (directx_va_Get cb pic data st).st.dx j = surface_at st.dx j ∨
        (j = get_index st.dx ∧
          (surface_at (directx_va_Get cb pic data st).st.dx j).order
            = wrap32 (st.dx.surface_order + 1))) := by
  by_cases hcheck : (cb.pf_check_device st.world).1 = VLC_SUCCESS
  · right
    obtain ⟨_, hother⟩ := directx_va_Get_claims cb pic data st hcheck
    refine ⟨by rw [directx_va_Get_success cb pic data st hcheck], ?_⟩
    intro j
    by_cases hj : j = get_index st.dx
    · subst hj
      have hc : surface_at (directx_va_Get cb pic data st).st.dx (get_index st.dx) =
          { surface_at st.dx (get_index st.dx) with
            refcount := 1, order := wrap32 (st.dx.surface_order + 1) } ∨
          surface_at (directx_va_Get cb pic data st).st.dx (get_index st.dx) =
            surface_at st.dx (get_index st.dx) := by
        rw [directx_va_Get_success cb pic data st hcheck]
        exact getD_set_cases _ _ _ _ _
      rcases hc with h | h
      · right
        exact ⟨rfl, by rw [h]⟩
      · left
        exact h
    · left
      exact hother j hj
  · left
    rw [directx_va_Get_failure cb pic data st hcheck]
    exact ⟨rfl, fun j => rfl⟩

/-- An operation made while the counter has room keeps the generations in
order; Acquire, Release and teardown do not lower a generation, and Setup
leaves a generation as it is or resets it to 0. -/
theorem step_generation_inv {W : Type} (cb : callbacks W) (MAX_SURFACE_COUNT : Int)
    (op : Op) (s s1 : Session W)
    (hinv : generation_inv s.st.dx) (hadm : adm_counter op s = true)
    (hstep : step cb MAX_SURFACE_COUNT op s = some s1) :
    generation_inv s1.st.dx ∧
    ((∀ avctx, op ≠ Op.setup avctx) →
      ∀ i, (surface_at s.st.dx i).order ≤ (surface_at s1.st.dx i).order) ∧
    (∀ i, (surface_at s1.st.dx i).order = (surface_at s.st.dx i).order ∨
      (surface_at s1.st.dx i).order = 0 ∨
      (surface_at s.st.dx i).order < (surface_at s1.st.dx i).order) := by
  obtain ⟨hc0, hrange, hdist⟩ := hinv
  cases op with
  | setup avctx =>
    simp only [step, Option.some.injEq] at hstep
    subst hstep
    obtain ⟨_, hord, hs⟩ := directx_va_Setup_slots cb MAX_SURFACE_COUNT avctx s.st
    have hcase : ∀ i,
        (surface_at (directx_va_Setup cb MAX_SURFACE_COUNT avctx s.st).2.2.dx i).order
          = (surface_at s.st.dx i).order ∨
        (surface_at (directx_va_Setup cb MAX_SURFACE_COUNT avctx s.st).2.2.dx i).order = 0 := by
      intro i
      rcases hs i with h | ⟨_, h⟩
      · left; rw [h]
      · right; exact h
    refine ⟨⟨by simp only [hord]; exact hc0, ?_, ?_⟩, ?_, ?_⟩
    · intro i
      have := hrange i
      simp only [hord]
      rcases hcase i with h | h <;> simp only [h] <;> omega
    · intro i j hij hne
      have := hdist i j hij
      simp only at hne ⊢
      rcases hcase i with hi | hi
      · rcases hcase j with hj | hj
        · rw [hi, hj]; rw [hi] at hne; exact this hne
        · rw [hj]; exact hne
      · exact absurd hi hne
    · intro hno
      exact absurd rfl (hno avctx)
    · intro i
      rcases hcase i with h | h
      · exact Or.inl h
      · exact Or.inr (Or.inl h)
  | get pic =>
    simp only [step, Option.some.injEq] at hstep
    subst hstep
    simp only [adm_counter, decide_eq_true_eq] at hadm
    have hw : wrap32 (s.st.dx.surface_order + 1) = s.st.dx.surface_order + 1 :=
      wrap32_of_range _ (by omega) (by omega)
    rcases directx_va_Get_generations cb ⟨pic, s.bound.lookup pic⟩ 0 s.st with
      ⟨hord, hs⟩ | ⟨hord, hs⟩
    · refine ⟨⟨by simp only [hord]; exact hc0, ?_, ?_⟩, ?_, ?_⟩
      · intro i; simp only [hord, hs i]; exact hrange i
      · intro i j hij hne
        simp only [hs i, hs j] at hne ⊢
        exact hdist i j hij hne
      · intro _ i; simp only [hs i]; exact le_refl _
      · intro i; left; simp only [hs i]
    · rw [hw] at hord hs
      have hcase : ∀ i,
          (surface_at (directx_va_Get cb ⟨pic, s.bound.lookup pic⟩ 0 s.st).st.dx i).order
            = (surface_at s.st.dx i).order ∨
          (i = get_index s.st.dx ∧
            (surface_at (directx_va_Get cb ⟨pic, s.bound.lookup pic⟩ 0 s.st).st.dx i).order
              = s.st.dx.surface_order + 1) := by
        intro i
        rcases hs i with h | h
        · left; rw [h]
        · right; exact h
      refine ⟨⟨by simp only [hord]; omega, ?_, ?_⟩, ?_, ?_⟩
      · intro i
        have := hrange i
        simp only [hord]
        rcases hcase i with h | ⟨_, h⟩ <;> simp only [h] <;> omega
      · intro i j hij hne
        have hd := hdist i j hij
        have hri := hrange i
        have hrj := hrange j
        simp only at hne ⊢
        rcases hcase i with hi | ⟨hi1, hi⟩
        · rcases hcase j with hj | ⟨_, hj⟩
          · rw [hi, hj]; rw [hi] at hne; exact hd hne
          · rw [hi, hj]; omega
        · rcases hcase j with hj | ⟨hj1, hj⟩
          · rw [hi, hj]; omega
          · exact absurd (hi1.trans hj1.symm) hij
      · intro _ i
        have := hrange i
        simp only
        rcases hcase i with h | ⟨_, h⟩ <;> simp only [h] <;> omega
      · intro i
        have := hrange i
        simp only
        rcases hcase i with h | ⟨_, h⟩
        · exact Or.inl h
        · right; right; rw [h]; omega
  | release pic =>
    cases hlk : s.bound.lookup pic with
    | none => simp [step, directx_va_Release, hlk] at hstep
    | some k =>
      rcases directx_va_Release_slots ⟨pic, s.bound.lookup pic⟩ s.st k (by simp [hlk])
        with hnone | ⟨r, hr, _, _, hord, hother, hself, _⟩
      · simp [step, hnone] at hstep
      simp only [step, hr, Option.some.injEq] at hstep
      subst hstep
      have hsame : ∀ i, (surface_at r.2.dx i).order = (surface_at s.st.dx i).order := by
        intro i
        by_cases hik : i = k
        · subst hik
          rcases hself with h | h <;> rw [h]
        · rw [hother i hik]
      refine ⟨⟨by simp only [hord]; exact hc0, ?_, ?_⟩, ?_, ?_⟩
      · intro i; simp only [hord, hsame i]; exact hrange i
      · intro i j hij hne
        simp only [hsame i, hsame j] at hne ⊢
        exact hdist i j hij hne
      · intro _ i; simp only [hsame i]; exact le_refl _
      · intro i; left; simp only [hsame i]
  | teardown =>
    simp only [step, Option.some.injEq] at hstep
    subst hstep
    exact ⟨⟨hc0, hrange, hdist⟩, fun _ i => le_refl _, fun i => Or.inl rfl⟩

theorem run_where_generation_inv {W : Type} (cb : callbacks W) (MAX_SURFACE_COUNT : Int)
    (ops : List Op) :
    ∀ s s1 : Session W, generation_inv s.st.dx →
      run_where cb MAX_SURFACE_COUNT adm_counter ops s = some s1 →
      generation_inv s1.st.dx := by
  induction ops with
  | nil =>
    intro s s1 hinv hrun
    simp only [run_where, Option.some.injEq] at hrun
    subst hrun
    exact hinv
  | cons op ops ih =>
    intro s s1 hinv hrun
    rw [run_where] at hrun
    by_cases hadm : adm_counter op s = true
    · rw [if_pos hadm] at hrun
      cases hstep : step cb MAX_SURFACE_COUNT op s with
      | none => rw [hstep] at hrun; cases hrun
      | some s2 =>
        rw [hstep] at hrun
        exact ih s2 s1
          (step_generation_inv cb MAX_SURFACE_COUNT op s s2 hinv hadm hstep).1 hrun
    · rw [if_neg hadm] at hrun
      cases hrun

theorem fresh_generation_inv {W : Type} (s : Session W) (hfresh : fresh_session s) :
    generation_inv s.st.dx := by
  refine ⟨by rw [hfresh.2.2.1], ?_, ?_⟩
  · intro i
    rw [(fresh_session_slots s hfresh i).2, hfresh.2.2.1]
    exact ⟨le_refl _, le_refl _⟩
  · intro i j _ hne
    exact absurd (fresh_session_slots s hfresh i).2 hne

/-- C16 (counterexample): right after a Setup the six surfaces of the pool all
have generation 0, so the generations are not pairwise distinct; and a Setup
that rebuilds the pool lowers the generation of surface 0 from 1 back to 0. -/
theorem run_setup_resets_generations :
    (run sample_callbacks 64 [Op.setup sample_avctx] sample_session_mpeg2).map
      (fun s => (s.st.dx.surface_count, (surface_at s.st.dx 0).order,
        (surface_at s.st.dx 1).order)) = some (6, 0, 0) ∧
    (run sample_callbacks 64 [Op.setup sample_avctx, Op.get 1] sample_session_mpeg2).map
      (fun s => (surface_at s.st.dx 0).order) = some 1 ∧
    (run sample_callbacks 64 [Op.setup sample_avctx, Op.get 1, Op.setup sample_avctx_720]
      sample_session_mpeg2).map
      (fun s => (s.st.dx.surface_count, (surface_at s.st.dx 0).order)) = some (6, 0) := by
  refine ⟨by decide, by decide, by decide⟩

/-- C16 (amended): in every state reached from a fresh session by Setup,
Acquire, Release and teardown, each Acquire made while the generation counter
is below 2147483647, two different surfaces do not share a generation other
than 0 and every generation lies between 0 and the counter; from such a state
Acquire, Release and teardown do not lower a surface's generation, and a Setup
leaves each generation as it is or resets it to 0. -/
theorem counter_run_generations {W : Type} (cb : callbacks W) (MAX_SURFACE_COUNT : Int)
    (ops : List Op) (s0 s : Session W) (hfresh : fresh_session s0)
    (hrun : run_where cb MAX_SURFACE_COUNT adm_counter ops s0 = some s) :
    (∀ i j, i ≠ j → (surface_at s.st.dx i).order ≠ 0 →
      (surface_at s.st.dx i).order ≠ (surface_at s.st.dx j).order) ∧
    (∀ i, 0 ≤ (surface_at s.st.dx i).order ∧
      (surface_at s.st.dx i).order ≤ s.st.dx.surface_order) ∧
    (∀ (op : Op) (s1 : Session W), adm_counter op s = true →
      step cb MAX_SURFACE_COUNT op s = some s1 →
      ((∀ avctx, op ≠ Op.setup avctx) →
        ∀ i, (surface_at s.st.dx i).order ≤ (surface_at s1.st.dx i).order) ∧
      (∀ avctx, op = Op.setup avctx →
        ∀ i, (surface_at s1.st.dx i).order = (surface_at s.st.dx i).order ∨
          (surface_at s1.st.dx i).order = 0)) := by
  have hinv := run_where_generation_inv cb MAX_SURFACE_COUNT ops s0 s
    (fresh_generation_inv s0 hfresh) hrun
  refine ⟨hinv.2.2, hinv.2.1, ?_⟩
  intro op s1 hadm hstep
  obtain ⟨_, hmono, _⟩ := step_generation_inv cb MAX_SURFACE_COUNT op s s1 hinv hadm hstep
  refine ⟨hmono, ?_⟩
  intro avctx hop i
  subst hop
  simp only [step, Option.some.injEq] at hstep
  subst hstep
  rcases (directx_va_Setup_slots cb MAX_SURFACE_COUNT avctx s.st).2.2 i with h | ⟨_, h⟩
  · left; simp only [h]
  · right; exact h

theorem counter_run_generations_witness :
    (sample_ops_counter_result.st.dx.surface.take 6).map (fun x => x.order)
      = [1, 2, 3, 0, 0, 0] ∧
    sample_ops_counter_result.st.dx.surface_order = 3 ∧
    (∀ i j, i ≠ j → (surface_at sample_ops_counter_result.st.dx i).order ≠ 0 →
      (surface_at sample_ops_counter_result.st.dx i).order ≠
        (surface_at sample_ops_counter_result.st.dx j).order) ∧
    (∀ i, 0 ≤ (surface_at sample_ops_counter_result.st.dx i).order ∧
      (surface_at sample_ops_counter_result.st.dx i).order ≤
        sample_ops_counter_result.st.dx.surface_order) :=
  have h := counter_run_generations sample_callbacks 64 sample_ops sample_session_mpeg2
    sample_ops_counter_result sample_session_mpeg2_fresh rfl
  ⟨by decide, by decide, h.1, h.2.1⟩

/-! ## Theorems: name lookup -/

theorem name_loop_table (vp9 : Bool) :
    ∀ m ∈ DXVA_MODES vp9, name_loop m.guid (DXVA_MODES vp9) = some m.name := by
  cases vp9 <;> decide

/-- C27: the name lookup agrees with the mode table.  For every entry of
`DXVA_MODES`, `directx_va_GetDecoderName` on the entry's GUID returns the
entry's name, whatever the build (with or without the VP9 codec) and whatever
the text printed for an unknown GUID; and two entries with equal GUIDs have
the same name. -/
theorem directx_va_GetDecoderName_table (vp9 : Bool) (GUID_FMT : GUID → String) :
    (∀ m ∈ DXVA_MODES vp9, directx_va_GetDecoderName vp9 GUID_FMT m.guid = m.name) ∧
    (∀ m1 ∈ DXVA_MODES vp9, ∀ m2 ∈ DXVA_MODES vp9,
      IsEqualGUID m1.guid m2.guid = true → m1.name = m2.name) := by
  have hloop := name_loop_table vp9
  refine ⟨?_, ?_⟩
  · intro m hm
    unfold directx_va_GetDecoderName
    rw [hloop m hm]
  · intro m1 hm1 m2 hm2 heq
    have hg : m1.guid = m2.guid := by
      simpa [IsEqualGUID] using heq
    have h1 := hloop m1 hm1
    have h2 := hloop m2 hm2
    rw [hg, h2] at h1
    exact (Option.some.inj h1).symm

theorem directx_va_GetDecoderName_table_witness :
    mode_hevc_main ∈ DXVA_MODES true ∧
    directx_va_GetDecoderName true (fun _ => "") DXVA_ModeHEVC_VLD_Main = "HEVC Main profile" :=
  ⟨by decide,
   (directx_va_GetDecoderName_table true (fun _ => "")).1 mode_hevc_main (by decide)⟩

/-! ## Theorems: set-up with a size that is not positive -/

/-- The calls of `DestroyVideoDecoder` are no allocations. -/
theorem teardown_trace_no_allocation (dx : directx_sys_t) :
    ∀ c ∈ teardown_trace dx, c.is_allocation = false := by
  intro c hc
  unfold teardown_trace at hc
  simp only [List.mem_append, List.mem_singleton, List.mem_map] at hc
  rcases hc with ((rfl | ⟨h, _, rfl⟩) | ⟨x, _, rfl⟩) | hc
  · rfl
  · rfl
  · rfl
  · by_cases hd : dx.decoder ≠ 0
    · rw [if_pos hd, List.mem_singleton] at hc
      subst hc
      rfl
    · rw [if_neg hd] at hc
      cases hc

/-- C26: a Setup off the fast path with a coded width or height that is not
positive returns `VLC_EGENERIC` after the teardown of the pool: the state is
the one `DestroyVideoDecoder` leaves, so `surface_count` is 0 and the decoder
handle null, the stored width and height are unchanged, the calls made are
those of the teardown, and none of them is `pf_create_decoder_surfaces` or
`pf_alloc_surface_pic`. -/
theorem directx_va_Setup_nonpositive_size {W : Type} (cb : callbacks W)
    (MAX_SURFACE_COUNT : Int) (avctx : AVCodecContext) (st : State W)
    (hfast : setup_fast_path st.dx avctx = false)
    (hsize : avctx.coded_width ≤ 0 ∨ avctx.coded_height ≤ 0) :
    (directx_va_Setup cb MAX_SURFACE_COUNT avctx st).1 = VLC_EGENERIC ∧
    (directx_va_Setup cb MAX_SURFACE_COUNT avctx st).2.2 = DestroyVideoDecoder cb st ∧
    (directx_va_Setup cb MAX_SURFACE_COUNT avctx st).2.2.dx.surface_count = 0 ∧
    (directx_va_Setup cb MAX_SURFACE_COUNT avctx st).2.2.dx.decoder = 0 ∧
    (directx_va_Setup cb MAX_SURFACE_COUNT avctx st).2.2.dx.width = st.dx.width ∧
    (directx_va_Setup cb MAX_SURFACE_COUNT avctx st).2.2.dx.height = st.dx.height ∧
    (directx_va_Setup cb MAX_SURFACE_COUNT avctx st).2.2.log = st.log ++ teardown_trace st.dx ∧
    (∀ c ∈ teardown_trace st.dx, c.is_allocation = false) := by
  have h := directx_va_Setup_early cb MAX_SURFACE_COUNT avctx st hfast
    (by rcases hsize with h | h
        · exact Or.inl h
        · exact Or.inr (Or.inl h))
  rw [h]
  exact ⟨rfl, rfl, rfl, rfl, rfl, rfl, DestroyVideoDecoder_log cb st,
    teardown_trace_no_allocation st.dx⟩

theorem directx_va_Setup_nonpositive_size_witness :
    setup_fast_path (sample_pool [1, 0, 0] [3, 0, 0]).dx sample_avctx_no_width = false ∧
    (sample_avctx_no_width.coded_width ≤ 0 ∨ sample_avctx_no_width.coded_height ≤ 0) ∧
    (directx_va_Setup sample_callbacks 64 sample_avctx_no_width
      (sample_pool [1, 0, 0] [3, 0, 0])).1 = VLC_EGENERIC ∧
    (directx_va_Setup sample_callbacks 64 sample_avctx_no_width
      (sample_pool [1, 0, 0] [3, 0, 0])).2.2.dx.surface_count = 0 ∧
    (directx_va_Setup sample_callbacks 64 sample_avctx_no_width
      (sample_pool [1, 0, 0] [3, 0, 0])).2.2.dx.decoder = 0 ∧
    (directx_va_Setup sample_callbacks 64 sample_avctx_no_width
      (sample_pool [1, 0, 0] [3, 0, 0])).2.2.dx.width = 1920 ∧
    (directx_va_Setup sample_callbacks 64 sample_avctx_no_width
      (sample_pool [1, 0, 0] [3, 0, 0])).2.2.log =
      [Call.destroy_surfaces, Call.Release_hw_surface 101, Call.Release_hw_surface 102,
        Call.Release_hw_surface 103, Call.picture_Release 201, Call.picture_Release 202,
        Call.picture_Release 203, Call.Release_decoder 7] :=
  have h := directx_va_Setup_nonpositive_size sample_callbacks 64 sample_avctx_no_width
    (sample_pool [1, 0, 0] [3, 0, 0]) (by decide) (Or.inl (by decide))
  ⟨by decide, Or.inl (by decide), h.1, h.2.2.1, h.2.2.2.1, h.2.2.2.2.1, by decide⟩

/-! ## Theorems: opening a session -/

/-- The mode loop changes no field of the session but the selected mode. -/
theorem mode_loop_dx {W : Type} (cb : callbacks W) (hp : nal_helpers) (fmt : es_format_t)
    (l : List GUID) (table : List directx_va_mode_t) :
    ∀ st : State W,
      (mode_loop cb hp fmt l table st).2.dx =
        { st.dx with input := (mode_loop cb hp fmt l table st).2.dx.input } := by
  induction table with
  | nil => intro st; rfl
  | cons mode rest ih =>
    intro st
    rw [mode_loop_cons]
    split
    · split
      · rfl
      · exact ih _
    · exact ih st

/-- The negotiation changes no field of the session but the selected mode; its
calls start with the query of the candidate list and are calls of the
negotiation. -/
theorem FindVideoServiceConversion_frame {W : Type} (cb : callbacks W) (hp : nal_helpers)
    (vp9 : Bool) (fmt : es_format_t) (st : State W) :
    (FindVideoServiceConversion cb hp vp9 fmt st).2.dx =
      { st.dx with input := (FindVideoServiceConversion cb hp vp9 fmt st).2.dx.input } ∧
    ∃ extra : List Call,
      (FindVideoServiceConversion cb hp vp9 fmt st).2.log =
        st.log ++ Call.get_input_list :: extra ∧
      ∀ c ∈ extra, c.is_negotiation = true := by
  unfold FindVideoServiceConversion
  simp only []
  split
  · exact ⟨rfl, [], rfl, by simp⟩
  · split
    · exact ⟨rfl, [], rfl, by simp⟩
    · refine ⟨mode_loop_dx cb hp fmt _ _ _, ?_⟩
      obtain ⟨extra, h1, h2, _⟩ := mode_loop_frame cb hp fmt
        (cb.pf_get_input_list st.world).1.2 (DXVA_MODES vp9)
        { st with world := (cb.pf_get_input_list st.world).2,
                  log := st.log ++ [Call.get_input_list] }
      refine ⟨extra ++ [Call.release_input_list], ?_, ?_⟩
      · simp only [h1]
        simp
      · intro c hc
        rcases List.mem_append.mp hc with hc | hc
        · have := h2 c hc
          cases c <;> simp_all [Call.is_setup_output, Call.is_negotiation]
        · rw [List.mem_singleton] at hc
          subst hc
          rfl

theorem FindVideoServiceConversion_log_drop {W : Type} (cb : callbacks W) (hp : nal_helpers)
    (vp9 : Bool) (fmt : es_format_t) (st : State W) :
    (FindVideoServiceConversion cb hp vp9 fmt st).2.log =
      st.log ++ (FindVideoServiceConversion cb hp vp9 fmt st).2.log.drop st.log.length := by
  obtain ⟨_, extra, h, _⟩ := FindVideoServiceConversion_frame cb hp vp9 fmt st
  rw [h]
  simp


/-- The steps of an Open from the device creation on, once device, device
manager and video service are created: the negotiation decides. -/
theorem open_steps_negotiation {W : Type} (cb : callbacks W) (hp : nal_helpers) (vp9 : Bool)
    (ctx : AVCodecContext) (fmt : es_format_t) (st1 st4 : State W)
    (hd : (cb.pf_create_device st1.world).1.1 = 0)
    (hm : (cb.pf_create_device_manager (cb.pf_create_device st1.world).2).1 = 0)
    (hv : (cb.pf_create_video_service
      (cb.pf_create_device_manager (cb.pf_create_device st1.world).2).2).1.1 = 0)
    (hst4 : st4 =
      { dx := { st1.dx with
                d3ddev := (cb.pf_create_device st1.world).1.2,
                d3ddec := (cb.pf_create_video_service
                  (cb.pf_create_device_manager (cb.pf_create_device st1.world).2).2).1.2 },
        world := (cb.pf_create_video_service
          (cb.pf_create_device_manager (cb.pf_create_device st1.world).2).2).2,
        log := st1.log ++ [Call.create_device] ++ [Call.create_device_manager]
          ++ [Call.create_video_service] }) :
    open_steps cb hp vp9 ctx fmt st1 =
      if (FindVideoServiceConversion cb hp vp9 fmt st4).1 ≠ 0 then
        (VLC_EGENERIC, (FindVideoServiceConversion cb hp vp9 fmt st4).2)
      else
        (VLC_SUCCESS,
          { (FindVideoServiceConversion cb hp vp9 fmt st4).2 with
            dx := { (FindVideoServiceConversion cb hp vp9 fmt st4).2.dx with
                    thread_count := ctx.thread_count } }) := by
  subst hst4
  unfold open_steps
  simp only [hd, hm, hv, ne_eq, not_true_eq_false, if_false]

/-- The result of an Open once the library step passed and device, device
manager and video service are created. -/
theorem directx_va_Open_negotiation {W : Type} (cb : callbacks W) (hp : nal_helpers)
    (vp9 : Bool) (ctx : AVCodecContext) (fmt : es_format_t) (b_dll : Bool) (st : State W)
    (hl : library_loaded cb b_dll st.world = true)
    (hd : device_created cb b_dll st.world = true)
    (hm : device_manager_created cb b_dll st.world = true)
    (hv : video_service_created cb b_dll st.world = true) :
    directx_va_Open cb hp vp9 ctx fmt b_dll st =
      if (FindVideoServiceConversion cb hp vp9 fmt
          (open_state_negotiation cb ctx b_dll st)).1 ≠ 0 then
        (VLC_EGENERIC, (FindVideoServiceConversion cb hp vp9 fmt
          (open_state_negotiation cb ctx b_dll st)).2)
      else
        (VLC_SUCCESS,
          { (FindVideoServiceConversion cb hp vp9 fmt
              (open_state_negotiation cb ctx b_dll st)).2 with
            dx := { (FindVideoServiceConversion cb hp vp9 fmt
                      (open_state_negotiation cb ctx b_dll st)).2.dx with
                    thread_count := ctx.thread_count } }) := by
  cases b_dll with
  | false =>
    simp only [device_created, device_manager_created, video_service_created,
      open_world_service, open_world_manager, open_world_device, Bool.false_eq_true, if_false,
      decide_eq_true_eq] at hd hm hv
    unfold directx_va_Open
    simp only [Bool.false_eq_true, if_false]
    exact open_steps_negotiation cb hp vp9 ctx fmt _ _ hd hm hv (by simp [open_state_negotiation, open_world_service, open_world_manager, open_world_device])
  | true =>
    simp only [library_loaded, device_created, device_manager_created, video_service_created,
      open_world_service, open_world_manager, open_world_device, if_true,
      decide_eq_true_eq, Bool.not_true, Bool.false_or] at hl hd hm hv
    unfold directx_va_Open
    simp only [if_true, hl, if_false]
    exact open_steps_negotiation cb hp vp9 ctx fmt _ _ hd hm hv (by simp [open_state_negotiation, open_world_service, open_world_manager, open_world_device])


/-- The result of an Open in terms of its steps: the status, the calls, the
thread count and the handles left in the session. -/
theorem directx_va_Open_run {W : Type} (cb : callbacks W) (hp : nal_helpers) (vp9 : Bool)
    (ctx : AVCodecContext) (fmt : es_format_t) (b_dll : Bool) (st : State W) :
    (directx_va_Open cb hp vp9 ctx fmt b_dll st).1 =
      (if (library_loaded cb b_dll st.world && device_created cb b_dll st.world
          && device_manager_created cb b_dll st.world && video_service_created cb b_dll st.world
          && mode_negotiated cb hp vp9 ctx fmt b_dll st) = true
        then VLC_SUCCESS else VLC_EGENERIC) ∧
    (directx_va_Open cb hp vp9 ctx fmt b_dll st).2.log =
      st.log ++ spec_open_calls cb hp vp9 ctx fmt b_dll st ∧
    (directx_va_Open cb hp vp9 ctx fmt b_dll st).2.dx.thread_count =
      (if (library_loaded cb b_dll st.world && device_created cb b_dll st.world
          && device_manager_created cb b_dll st.world && video_service_created cb b_dll st.world
          && mode_negotiated cb hp vp9 ctx fmt b_dll st) = true
        then ctx.thread_count else st.dx.thread_count) ∧
    (directx_va_Open cb hp vp9 ctx fmt b_dll st).2.dx.hdecoder_dll =
      (if b_dll = true then (cb.LoadLibrary st.world).1 else st.dx.hdecoder_dll) ∧
    (directx_va_Open cb hp vp9 ctx fmt b_dll st).2.dx.d3ddev =
      (if library_loaded cb b_dll st.world = true then
        (cb.pf_create_device (open_world_device cb b_dll st.world)).1.2
      else st.dx.d3ddev) ∧
    (directx_va_Open cb hp vp9 ctx fmt b_dll st).2.dx.d3ddec =
      (if (library_loaded cb b_dll st.world && device_created cb b_dll st.world
          && device_manager_created cb b_dll st.world) = true then
        (cb.pf_create_video_service (open_world_service cb b_dll st.world)).1.2
      else st.dx.d3ddec) := by
  by_cases hall : (library_loaded cb b_dll st.world && device_created cb b_dll st.world
      && device_manager_created cb b_dll st.world && video_service_created cb b_dll st.world)
      = true
  · have hall2 := hall
    simp only [Bool.and_eq_true] at hall2
    obtain ⟨⟨⟨hl, hd⟩, hm⟩, hv⟩ := hall2
    have hrun := directx_va_Open_negotiation cb hp vp9 ctx fmt b_dll st hl hd hm hv
    have hdrop := FindVideoServiceConversion_log_drop cb hp vp9 fmt
      (open_state_negotiation cb ctx b_dll st)
    have hdx := (FindVideoServiceConversion_frame cb hp vp9 fmt
      (open_state_negotiation cb ctx b_dll st)).1
    have hcalls : spec_open_calls cb hp vp9 ctx fmt b_dll st =
        (if b_dll = true then [Call.LoadLibrary] else []) ++
          [Call.create_device, Call.create_device_manager, Call.create_video_service] ++
          negotiation_calls cb hp vp9 ctx fmt b_dll st := by
      simp [spec_open_calls, hl, hd, hm, hv]
    have hlog : (FindVideoServiceConversion cb hp vp9 fmt
        (open_state_negotiation cb ctx b_dll st)).2.log =
        st.log ++ spec_open_calls cb hp vp9 ctx fmt b_dll st := by
      rw [hcalls, hdrop]
      simp [negotiation_calls, open_state_negotiation]
    have hneg : mode_negotiated cb hp vp9 ctx fmt b_dll st =
        decide ((FindVideoServiceConversion cb hp vp9 fmt
          (open_state_negotiation cb ctx b_dll st)).1 = 0) := rfl
    rw [hrun]
    simp only [hl, hd, hm, hv, Bool.and_self, Bool.true_and, hneg, decide_eq_true_eq, if_true]
    by_cases hf : (FindVideoServiceConversion cb hp vp9 fmt
        (open_state_negotiation cb ctx b_dll st)).1 = 0
    · simp only [hf, ne_eq, not_true_eq_false, if_false, if_true]
      refine ⟨trivial, hlog, trivial, ?_, ?_, ?_⟩
      · show (FindVideoServiceConversion cb hp vp9 fmt
          (open_state_negotiation cb ctx b_dll st)).2.dx.hdecoder_dll = _
        rw [hdx]; rfl
      · show (FindVideoServiceConversion cb hp vp9 fmt
          (open_state_negotiation cb ctx b_dll st)).2.dx.d3ddev = _
        rw [hdx]; rfl
      · show (FindVideoServiceConversion cb hp vp9 fmt
          (open_state_negotiation cb ctx b_dll st)).2.dx.d3ddec = _
        rw [hdx]; rfl
    · simp only [hf, ne_eq, not_false_eq_true, if_true, if_false]
      refine ⟨trivial, hlog, ?_, ?_, ?_, ?_⟩
      · rw [hdx]; rfl
      · rw [hdx]; rfl
      · rw [hdx]; rfl
      · rw [hdx]; rfl
  · have hall3 : (library_loaded cb b_dll st.world && device_created cb b_dll st.world
        && device_manager_created cb b_dll st.world && video_service_created cb b_dll st.world
        && mode_negotiated cb hp vp9 ctx fmt b_dll st) = false := by
      simp only [Bool.not_eq_true] at hall
      rw [hall]; rfl
    rw [hall3]
    simp only [Bool.false_eq_true, if_false]
    cases b_dll with
    | false =>
      unfold directx_va_Open open_steps spec_open_calls
      unfold library_loaded device_created device_manager_created video_service_created
        open_world_service open_world_manager open_world_device at hall ⊢
      simp only [Bool.false_eq_true, if_false] at hall ⊢
      by_cases hd : (cb.pf_create_device st.world).1.1 = 0
      · by_cases hm : (cb.pf_create_device_manager (cb.pf_create_device st.world).2).1 = 0
        · by_cases hv : (cb.pf_create_video_service
              (cb.pf_create_device_manager (cb.pf_create_device st.world).2).2).1.1 = 0
          · exact absurd (by simp [hd, hm, hv]) hall
          · simp [hd, hm, hv]
        · simp [hd, hm]
      · simp [hd]
    | true =>
      unfold directx_va_Open open_steps spec_open_calls
      unfold library_loaded device_created device_manager_created video_service_created
        open_world_service open_world_manager open_world_device at hall ⊢
      simp only [if_true] at hall ⊢
      by_cases hl : (cb.LoadLibrary st.world).1 = 0
      · simp [hl]
      · by_cases hd : (cb.pf_create_device (cb.LoadLibrary st.world).2).1.1 = 0
        · by_cases hm : (cb.pf_create_device_manager
              (cb.pf_create_device (cb.LoadLibrary st.world).2).2).1 = 0
          · by_cases hv : (cb.pf_create_video_service
                (cb.pf_create_device_manager
                  (cb.pf_create_device (cb.LoadLibrary st.world).2).2).2).1.1 = 0
            · exact absurd (by simp [hl, hd, hm, hv]) hall
            · simp [hl, hd, hm, hv]
          · simp [hl, hd, hm]
        · simp [hl, hd]


/-- The calls of the negotiation of an Open start with the query of the
candidate list and are calls of the negotiation. -/
theorem negotiation_calls_head {W : Type} (cb : callbacks W) (hp : nal_helpers) (vp9 : Bool)
    (ctx : AVCodecContext) (fmt : es_format_t) (b_dll : Bool) (st : State W) :
    ∃ extra : List Call,
      negotiation_calls cb hp vp9 ctx fmt b_dll st = Call.get_input_list :: extra ∧
      ∀ c ∈ extra, c.is_negotiation = true := by
  obtain ⟨_, extra, h, hneg⟩ := FindVideoServiceConversion_frame cb hp vp9 fmt
    (open_state_negotiation cb ctx b_dll st)
  refine ⟨extra, ?_, hneg⟩
  unfold negotiation_calls
  rw [h]
  simp

/-- Which steps of an Open are made: each creation step exactly when every
step before it passed. -/
theorem spec_open_calls_mem {W : Type} (cb : callbacks W) (hp : nal_helpers) (vp9 : Bool)
    (ctx : AVCodecContext) (fmt : es_format_t) (b_dll : Bool) (st : State W) :
    (Call.create_device ∈ spec_open_calls cb hp vp9 ctx fmt b_dll st ↔
      library_loaded cb b_dll st.world = true) ∧
    (Call.create_device_manager ∈ spec_open_calls cb hp vp9 ctx fmt b_dll st ↔
      library_loaded cb b_dll st.world = true ∧ device_created cb b_dll st.world = true) ∧
    (Call.create_video_service ∈ spec_open_calls cb hp vp9 ctx fmt b_dll st ↔
      library_loaded cb b_dll st.world = true ∧ device_created cb b_dll st.world = true ∧
        device_manager_created cb b_dll st.world = true) ∧
    (Call.get_input_list ∈ spec_open_calls cb hp vp9 ctx fmt b_dll st ↔
      library_loaded cb b_dll st.world = true ∧ device_created cb b_dll st.world = true ∧
        device_manager_created cb b_dll st.world = true ∧
        video_service_created cb b_dll st.world = true) ∧
    (∀ c ∈ spec_open_calls cb hp vp9 ctx fmt b_dll st, c.is_destroy = false) := by
  obtain ⟨extra, hcalls, hneg⟩ := negotiation_calls_head cb hp vp9 ctx fmt b_dll st
  have hex1 : Call.create_device ∉ extra := fun h => by
    have := hneg _ h; simp [Call.is_negotiation] at this
  have hex2 : Call.create_device_manager ∉ extra := fun h => by
    have := hneg _ h; simp [Call.is_negotiation] at this
  have hex3 : Call.create_video_service ∉ extra := fun h => by
    have := hneg _ h; simp [Call.is_negotiation] at this
  have hdes : ∀ c ∈ extra, c.is_destroy = false := by
    intro c hc
    have := hneg c hc
    cases c <;> simp_all [Call.is_negotiation, Call.is_destroy]
  unfold spec_open_calls
  rw [hcalls]
  cases b_dll <;> cases library_loaded cb _ st.world <;> cases device_created cb _ st.world <;>
    cases device_manager_created cb _ st.world <;>
    cases video_service_created cb _ st.world <;>
    simp [hex1, hex2, hex3, Call.is_destroy] <;> exact hdes


/-- The calls `directx_va_Close` makes. -/
theorem directx_va_Close_log {W : Type} (cb : callbacks W) (st : State W) :
    (directx_va_Close cb st).log =
      st.log ++ teardown_trace st.dx
        ++ [Call.destroy_video_service]
        ++ (if st.dx.d3ddec ≠ 0 then [Call.Release_d3ddec st.dx.d3ddec] else [])
        ++ [Call.destroy_device_manager, Call.destroy_device]
        ++ (if st.dx.d3ddev ≠ 0 then [Call.Release_d3ddev st.dx.d3ddev] else [])
        ++ (if st.dx.hdecoder_dll ≠ 0 then [Call.FreeLibrary st.dx.hdecoder_dll] else []) := by
  have h1 := DestroyVideoDecoder_log cb st
  unfold directx_va_Close DestroyDevice DestroyDeviceManager DestroyVideoService
  simp only [h1]
  by_cases hdll : (DestroyVideoDecoder cb st).dx.hdecoder_dll ≠ 0
  · have hdll2 : st.dx.hdecoder_dll ≠ 0 := hdll
    rw [if_pos hdll, if_pos hdll2]
    simp [DestroyVideoDecoder]
  · have hdll2 : ¬ st.dx.hdecoder_dll ≠ 0 := hdll
    rw [if_neg hdll, if_neg hdll2]
    simp [DestroyVideoDecoder]

/-- C21: `directx_va_Open` returns `VLC_SUCCESS` or `VLC_EGENERIC`, and
`VLC_SUCCESS` exactly when device creation, device-manager creation,
video-service creation and the mode negotiation are all made and all report
success.  Its calls are, in this order, the loader (when a library is asked
for), `pf_create_device`, `pf_create_device_manager`, `pf_create_video_service`
and the calls of the negotiation, each step made only when every step before it
passed, so that nothing is called after the first failing step (none of the
four when the library does not load).  `thread_count` is the one of the codec
context after a success and unchanged after a failure. -/
theorem directx_va_Open_success_iff {W : Type} (cb : callbacks W) (hp : nal_helpers)
    (vp9 : Bool) (ctx : AVCodecContext) (fmt : es_format_t) (b_dll : Bool) (st : State W) :
    ((directx_va_Open cb hp vp9 ctx fmt b_dll st).1 = VLC_SUCCESS ∨
      (directx_va_Open cb hp vp9 ctx fmt b_dll st).1 = VLC_EGENERIC) ∧
    ((directx_va_Open cb hp vp9 ctx fmt b_dll st).1 = VLC_SUCCESS ↔
      (Call.create_device ∈ spec_open_calls cb hp vp9 ctx fmt b_dll st ∧
        device_created cb b_dll st.world = true) ∧
      (Call.create_device_manager ∈ spec_open_calls cb hp vp9 ctx fmt b_dll st ∧
        device_manager_created cb b_dll st.world = true) ∧
      (Call.create_video_service ∈ spec_open_calls cb hp vp9 ctx fmt b_dll st ∧
        video_service_created cb b_dll st.world = true) ∧
      (Call.get_input_list ∈ spec_open_calls cb hp vp9 ctx fmt b_dll st ∧
        mode_negotiated cb hp vp9 ctx fmt b_dll st = true)) ∧
    (directx_va_Open cb hp vp9 ctx fmt b_dll st).2.log =
      st.log ++ spec_open_calls cb hp vp9 ctx fmt b_dll st ∧
    (directx_va_Open cb hp vp9 ctx fmt b_dll st).2.dx.thread_count =
      (if (directx_va_Open cb hp vp9 ctx fmt b_dll st).1 = VLC_SUCCESS then ctx.thread_count
       else st.dx.thread_count) := by
  obtain ⟨hstatus, hlog, hthread, _⟩ := directx_va_Open_run cb hp vp9 ctx fmt b_dll st
  obtain ⟨hm1, hm2, hm3, hm4, _⟩ := spec_open_calls_mem cb hp vp9 ctx fmt b_dll st
  have hne : VLC_EGENERIC ≠ VLC_SUCCESS := by decide
  by_cases hall : (library_loaded cb b_dll st.world && device_created cb b_dll st.world
      && device_manager_created cb b_dll st.world && video_service_created cb b_dll st.world
      && mode_negotiated cb hp vp9 ctx fmt b_dll st) = true
  · rw [if_pos hall] at hstatus hthread
    have hall2 := hall
    simp only [Bool.and_eq_true] at hall2
    obtain ⟨⟨⟨⟨hl, hd⟩, hm⟩, hv⟩, hf⟩ := hall2
    refine ⟨Or.inl hstatus, ?_, hlog, ?_⟩
    · refine ⟨fun _ => ⟨⟨hm1.mpr hl, hd⟩, ⟨hm2.mpr ⟨hl, hd⟩, hm⟩, ⟨hm3.mpr ⟨hl, hd, hm⟩, hv⟩,
        ⟨hm4.mpr ⟨hl, hd, hm, hv⟩, hf⟩⟩, fun _ => hstatus⟩
    · rw [if_pos hstatus, hthread]
  · rw [if_neg hall] at hstatus hthread
    have hfail : (directx_va_Open cb hp vp9 ctx fmt b_dll st).1 ≠ VLC_SUCCESS := by
      rw [hstatus]; exact hne
    refine ⟨Or.inr hstatus, ?_, hlog, ?_⟩
    · refine ⟨fun h => absurd h hfail, ?_⟩
      rintro ⟨⟨h1, hd⟩, ⟨_, hm⟩, ⟨_, hv⟩, ⟨_, hf⟩⟩
      have hl := hm1.mp h1
      exact absurd (by simp [hl, hd, hm, hv, hf]) hall
    · rw [if_neg hfail, hthread]

theorem directx_va_Open_success_iff_witness :
    (directx_va_Open sample_callbacks helpers_none true sample_avctx fmt_unknown_profile true
      sample_state).1 = VLC_SUCCESS ∧
    (directx_va_Open sample_callbacks helpers_none true sample_avctx fmt_unknown_profile true
      sample_state).2.log =
      [Call.LoadLibrary, Call.create_device, Call.create_device_manager,
        Call.create_video_service, Call.get_input_list,
        Call.setup_output DXVA_ModeHEVC_VLD_Main, Call.setup_output DXVA_ModeHEVC_VLD_Main10,
        Call.release_input_list] ∧
    (directx_va_Open sample_callbacks helpers_none true sample_avctx fmt_unknown_profile true
      sample_state).2.dx.thread_count = 1 ∧
    (directx_va_Open sample_callbacks_no_library helpers_none true sample_avctx
      fmt_unknown_profile true sample_state).1 = VLC_EGENERIC ∧
    (directx_va_Open sample_callbacks_no_library helpers_none true sample_avctx
      fmt_unknown_profile true sample_state).2.log = [Call.LoadLibrary] ∧
    (directx_va_Open sample_callbacks_no_library helpers_none true sample_avctx
      fmt_unknown_profile true sample_state).2.dx.thread_count = 0 :=
  have h := directx_va_Open_success_iff sample_callbacks helpers_none true sample_avctx
    fmt_unknown_profile true sample_state
  ⟨h.2.1.mpr ⟨⟨by decide, by decide⟩, ⟨by decide, by decide⟩, ⟨by decide, by decide⟩,
      ⟨by decide, by decide⟩⟩,
    by decide, by decide, by decide, by decide, by decide⟩

/-- C22 (counterexample): on the sample platform with a failing device-manager
creation, an Open that asks for the library returns `VLC_EGENERIC` after the
calls `LoadLibrary`, `pf_create_device`, `pf_create_device_manager` and nothing
else: the library handle 1 and the device handle 2 are still in the session
and nothing has been destroyed. -/
theorem directx_va_Open_failure_keeps_device :
    (directx_va_Open sample_callbacks_no_manager helpers_none true sample_avctx
      fmt_unknown_profile true sample_state).1 = VLC_EGENERIC ∧
    (directx_va_Open sample_callbacks_no_manager helpers_none true sample_avctx
      fmt_unknown_profile true sample_state).2.log =
      [Call.LoadLibrary, Call.create_device, Call.create_device_manager] ∧
    (directx_va_Open sample_callbacks_no_manager helpers_none true sample_avctx
      fmt_unknown_profile true sample_state).2.dx.hdecoder_dll = 1 ∧
    (directx_va_Open sample_callbacks_no_manager helpers_none true sample_avctx
      fmt_unknown_profile true sample_state).2.dx.d3ddev = 2 := by
  refine ⟨by decide, by decide, by decide, by decide⟩

/-- C22 (amended): `directx_va_Open` destroys nothing, whether it fails or not:
none of its calls is a destroy hook, the release of a handle or the freeing of
the library.  The library handle, the device handle and the video-service
handle the steps made so far have left stay in the session, and it is
`directx_va_Close` on that session that destroys the video service, the device
manager and the device, releases the `d3ddec` and `d3ddev` handles that are set
and frees the library when its handle is set. -/
theorem directx_va_Open_destroys_nothing {W : Type} (cb : callbacks W) (hp : nal_helpers)
    (vp9 : Bool) (ctx : AVCodecContext) (fmt : es_format_t) (b_dll : Bool) (st : State W) :
    (∃ calls : List Call,
      (directx_va_Open cb hp vp9 ctx fmt b_dll st).2.log = st.log ++ calls ∧
      ∀ c ∈ calls, c.is_destroy = false) ∧
    (directx_va_Open cb hp vp9 ctx fmt b_dll st).2.dx.hdecoder_dll =
      (if b_dll = true then (cb.LoadLibrary st.world).1 else st.dx.hdecoder_dll) ∧
    (directx_va_Open cb hp vp9 ctx fmt b_dll st).2.dx.d3ddev =
      (if library_loaded cb b_dll st.world = true then
        (cb.pf_create_device (open_world_device cb b_dll st.world)).1.2
      else st.dx.d3ddev) ∧
    (directx_va_Open cb hp vp9 ctx fmt b_dll st).2.dx.d3ddec =
      (if (library_loaded cb b_dll st.world && device_created cb b_dll st.world
          && device_manager_created cb b_dll st.world) = true then
        (cb.pf_create_video_service (open_world_service cb b_dll st.world)).1.2
      else st.dx.d3ddec) ∧
    (directx_va_Close cb (directx_va_Open cb hp vp9 ctx fmt b_dll st).2).log =
      (directx_va_Open cb hp vp9 ctx fmt b_dll st).2.log
        ++ teardown_trace (directx_va_Open cb hp vp9 ctx fmt b_dll st).2.dx
        ++ [Call.destroy_video_service]
        ++ (if (directx_va_Open cb hp vp9 ctx fmt b_dll st).2.dx.d3ddec ≠ 0 then
              [Call.Release_d3ddec (directx_va_Open cb hp vp9 ctx fmt b_dll st).2.dx.d3ddec]
            else [])
        ++ [Call.destroy_device_manager, Call.destroy_device]
        ++ (if (directx_va_Open cb hp vp9 ctx fmt b_dll st).2.dx.d3ddev ≠ 0 then
              [Call.Release_d3ddev (directx_va_Open cb hp vp9 ctx fmt b_dll st).2.dx.d3ddev]
            else [])
        ++ (if (directx_va_Open cb hp vp9 ctx fmt b_dll st).2.dx.hdecoder_dll ≠ 0 then
              [Call.FreeLibrary (directx_va_Open cb hp vp9 ctx fmt b_dll st).2.dx.hdecoder_dll]
            else []) := by
  obtain ⟨_, hlog, _, hdll, hdev, hdec⟩ := directx_va_Open_run cb hp vp9 ctx fmt b_dll st
  obtain ⟨_, _, _, _, hdes⟩ := spec_open_calls_mem cb hp vp9 ctx fmt b_dll st
  exact ⟨⟨_, hlog, hdes⟩, hdll, hdev, hdec, directx_va_Close_log cb _⟩

theorem directx_va_Open_destroys_nothing_witness :
    (directx_va_Open sample_callbacks_no_manager helpers_none true sample_avctx
      fmt_unknown_profile true sample_state).1 = VLC_EGENERIC ∧
    (directx_va_Open sample_callbacks_no_manager helpers_none true sample_avctx
      fmt_unknown_profile true sample_state).2.dx.d3ddev = 2 ∧
    (directx_va_Close sample_callbacks_no_manager
      (directx_va_Open sample_callbacks_no_manager helpers_none true sample_avctx
        fmt_unknown_profile true sample_state).2).log =
      [Call.LoadLibrary, Call.create_device, Call.create_device_manager,
        Call.destroy_surfaces, Call.destroy_video_service, Call.destroy_device_manager,
        Call.destroy_device, Call.Release_d3ddev 2, Call.FreeLibrary 1] :=
  have h := directx_va_Open_destroys_nothing sample_callbacks_no_manager helpers_none true
    sample_avctx fmt_unknown_profile true sample_state
  ⟨by decide, h.2.2.1.trans (by decide), h.2.2.2.2.trans (by decide)⟩

/-! ## Theorems: the effect of an Acquire -/

/-- A successful `directx_va_Get` passed the device check. -/
theorem directx_va_Get_status {W : Type} (cb : callbacks W) (pic : picture_t) (data : Nat)
    (st : State W) (hok : (directx_va_Get cb pic data st).status = VLC_SUCCESS) :
    (cb.pf_check_device st.world).1 = VLC_SUCCESS := by
  by_contra hcheck
  rw [directx_va_Get_failure cb pic data st hcheck] at hok
  have hne : VLC_EGENERIC ≠ VLC_SUCCESS := by decide
  exact hne hok

/-- The claimed index lies in the array when the pool does. -/
theorem get_index_lt_length (dx : directx_sys_t)
    (hpool : dx.surface_count ≤ dx.surface.length) (hlen : 0 < dx.surface.length) :
    get_index dx < dx.surface.length := by
  by_cases hpos : 0 < dx.surface_count
  · have h := get_index_in_pool dx hpos
    omega
  · have h0 : dx.surface_count.toNat = 0 := by omega
    unfold get_index
    rw [h0]
    simp [get_loop]
    exact hlen

/-- C23 (counterexample): on the three-surface sample pool with the generation
counter at 2147483647, a successful Acquire claims surface 1 and leaves both
its generation and the counter at -2147483648, not at the old counter plus
one. -/
theorem directx_va_Get_counter_wraps :
    (directx_va_Get sample_callbacks sample_pic 0 sample_pool_counter_max).status
      = VLC_SUCCESS ∧
    (directx_va_Get sample_callbacks sample_pic 0 sample_pool_counter_max).pic.context
      = some 1 ∧
    sample_pool_counter_max.dx.surface_order + 1 = 2147483648 ∧
    (surface_at (directx_va_Get sample_callbacks sample_pic 0 sample_pool_counter_max).st.dx
      1).order = -2147483648 ∧
    (directx_va_Get sample_callbacks sample_pic 0 sample_pool_counter_max).st.dx.surface_order
      = -2147483648 := by
  refine ⟨by decide, by decide, by decide, by decide, by decide⟩

/-- C23 (amended): a successful Acquire on a pool that lies in the array, made
while the generation counter is below 2147483647, claims the index
`get_index`, sets that surface's reference count to 1 and its generation to the
old counter plus one, raises the counter by exactly one, and leaves every other
slot, the payload of the claimed one, the surface count and the size of the
array unchanged. -/
theorem directx_va_Get_frame_effect {W : Type} (cb : callbacks W) (pic : picture_t)
    (data : Nat) (st : State W)
    (hok : (directx_va_Get cb pic data st).status = VLC_SUCCESS)
    (hpool : st.dx.surface_count ≤ st.dx.surface.length) (hlen : 0 < st.dx.surface.length)
    (hlow : -2147483648 ≤ st.dx.surface_order) (hcounter : st.dx.surface_order < 2147483647) :
    (directx_va_Get cb pic data st).pic.context = some (get_index st.dx) ∧
    (surface_at (directx_va_Get cb pic data st).st.dx (get_index st.dx)).refcount = 1 ∧
    (surface_at (directx_va_Get cb pic data st).st.dx (get_index st.dx)).order
      = st.dx.surface_order + 1 ∧
    (surface_at (directx_va_Get cb pic data st).st.dx (get_index st.dx)).p_pic
      = (surface_at st.dx (get_index st.dx)).p_pic ∧
    (directx_va_Get cb pic data st).st.dx.surface_order = st.dx.surface_order + 1 ∧
    (∀ j, j ≠ get_index st.dx →
      surface_at (directx_va_Get cb pic data st).st.dx j = surface_at st.dx j) ∧
    (directx_va_Get cb pic data st).st.dx.surface_count = st.dx.surface_count ∧
    (directx_va_Get cb pic data st).st.dx.surface.length = st.dx.surface.length := by
  have hcheck := directx_va_Get_status cb pic data st hok
  have hi := get_index_lt_length st.dx hpool hlen
  have hw : wrap32 (st.dx.surface_order + 1) = st.dx.surface_order + 1 :=
    wrap32_of_range _ (by omega) (by omega)
  obtain ⟨hclaim, hother⟩ := directx_va_Get_claims cb pic data st hcheck
  have hc := hclaim hi
  refine ⟨?_, ?_, ?_, ?_, ?_, hother, ?_, ?_⟩
  · rw [directx_va_Get_success cb pic data st hcheck]
  · rw [hc]
  · rw [hc]; exact hw
  · rw [hc]
  · rw [directx_va_Get_success cb pic data st hcheck]; exact hw
  · rw [directx_va_Get_success cb pic data st hcheck]
  · rw [directx_va_Get_success cb pic data st hcheck]
    simp

theorem directx_va_Get_frame_effect_witness :
    (directx_va_Get sample_callbacks sample_pic 0 (sample_pool [1, 0, 1] [4, 2, 8])).pic.context
      = some 1 ∧
    ((directx_va_Get sample_callbacks sample_pic 0
      (sample_pool [1, 0, 1] [4, 2, 8])).st.dx.surface.take 3).map
        (fun x => (x.refcount, x.order)) = [(1, 4), (1, 9), (1, 8)] ∧
    (directx_va_Get sample_callbacks sample_pic 0
      (sample_pool [1, 0, 1] [4, 2, 8])).st.dx.surface_order = 8 + 1 ∧
    (directx_va_Get sample_callbacks sample_pic 0
      (sample_pool [1, 0, 1] [4, 2, 8])).st.dx.surface_count = 3 :=
  have h := directx_va_Get_frame_effect sample_callbacks sample_pic 0
    (sample_pool [1, 0, 1] [4, 2, 8]) (by decide) (by decide) (by decide) (by decide)
    (by decide)
  ⟨h.1.trans (by decide), by decide, h.2.2.2.2.1, h.2.2.2.2.2.2.1.trans (by decide)⟩

/-! ## Theorems: the generation counter -/

/-- A sequence of operations in two parts. -/
theorem run_where_append {W : Type} (cb : callbacks W) (MAX_SURFACE_COUNT : Int)
    (adm : Op → Session W → Bool) (ops1 ops2 : List Op) :
    ∀ s : Session W,
      run_where cb MAX_SURFACE_COUNT adm (ops1 ++ ops2) s =
        (run_where cb MAX_SURFACE_COUNT adm ops1 s).bind
          (run_where cb MAX_SURFACE_COUNT adm ops2) := by
  induction ops1 with
  | nil => intro s; rfl
  | cons op ops ih =>
    intro s
    simp only [List.cons_append, run_where]
    split
    · split
      · exact ih _
      · rfl
    · rfl

theorem wrap32_range (x : Int) : -2147483648 ≤ wrap32 x ∧ wrap32 x ≤ 2147483647 := by
  unfold wrap32
  omega

theorem wrap32_add (x y : Int) : wrap32 (wrap32 x + y) = wrap32 (x + y) := by
  unfold wrap32
  omega

/-- On an empty pool the index of line 406 is 0. -/
theorem get_index_empty (dx : directx_sys_t) (h : dx.surface_count = 0) : get_index dx = 0 := by
  unfold get_index
  rw [h]
  simp [get_loop]

/-- Acquires on an empty pool, the device check passing: each of them claims
slot 0 and raises the counter, in 32 bits; the pool stays empty and the other
slots and fields are untouched. -/
theorem run_get_empty {W : Type} (cb : callbacks W) (MAX_SURFACE_COUNT : Int) (p : Nat)
    (hcheck : ∀ w, (cb.pf_check_device w).1 = VLC_SUCCESS) (n : Nat) :
    ∀ s : Session W, s.st.dx.surface_count = 0 →
      -2147483648 ≤ s.st.dx.surface_order → s.st.dx.surface_order ≤ 2147483647 →
      ∃ s1 : Session W,
        run cb MAX_SURFACE_COUNT (List.replicate n (Op.get p)) s = some s1 ∧
        s1.st.dx.surface_count = 0 ∧
        s1.st.dx.surface_order = wrap32 (s.st.dx.surface_order + n) ∧
        s1.st.dx.codec_id = s.st.dx.codec_id ∧
        s1.st.dx.width = s.st.dx.width ∧
        s1.st.dx.decoder = s.st.dx.decoder ∧
        ∀ j, j ≠ 0 → surface_at s1.st.dx j = surface_at s.st.dx j := by
  induction n with
  | zero =>
    intro s h0 hlo hhi
    exact ⟨s, rfl, h0, by simp [wrap32_of_range _ hlo hhi], rfl, rfl, rfl, fun _ _ => rfl⟩
  | succ n ih =>
    intro s h0 _ _
    have hg := directx_va_Get_success cb ⟨p, s.bound.lookup p⟩ 0 s.st (hcheck _)
    have hcl := (directx_va_Get_claims cb ⟨p, s.bound.lookup p⟩ 0 s.st (hcheck _)).2
    rw [get_index_empty s.st.dx h0] at hcl
    have hord : (directx_va_Get cb ⟨p, s.bound.lookup p⟩ 0 s.st).st.dx.surface_order =
        wrap32 (s.st.dx.surface_order + 1) := by rw [hg]
    have hcodec1 : (directx_va_Get cb ⟨p, s.bound.lookup p⟩ 0 s.st).st.dx.codec_id =
        s.st.dx.codec_id := by rw [hg]
    have hwidth1 : (directx_va_Get cb ⟨p, s.bound.lookup p⟩ 0 s.st).st.dx.width =
        s.st.dx.width := by rw [hg]
    have hdec1 : (directx_va_Get cb ⟨p, s.bound.lookup p⟩ 0 s.st).st.dx.decoder =
        s.st.dx.decoder := by rw [hg]
    obtain ⟨s1, hrun, hc, hw, hcodec, hwidth, hdec, hslots⟩ := ih
      { st := (directx_va_Get cb ⟨p, s.bound.lookup p⟩ 0 s.st).st,
        bound := bind_picture s.bound (directx_va_Get cb ⟨p, s.bound.lookup p⟩ 0 s.st).pic }
      (by rw [hg]; exact h0)
      (by rw [hord]; exact (wrap32_range _).1) (by rw [hord]; exact (wrap32_range _).2)
    simp only [] at hw hcodec hwidth hdec hslots
    refine ⟨s1, ?_, hc, ?_, hcodec.trans hcodec1, hwidth.trans hwidth1,
      hdec.trans hdec1, ?_⟩
    · rw [List.replicate_succ]
      show run_where cb MAX_SURFACE_COUNT (fun _ _ => true) _ s = _
      simp only [run_where, step, if_true]
      exact hrun
    · rw [hw, hord, wrap32_add]
      push_cast
      ring_nf
    · intro j hj
      rw [hslots j hj, hcl j hj]

/-- C24 (counterexample): from the zero-initialised MPEG-2 sample session,
2147483648 Acquires followed by a Setup end in a pool of six surfaces whose
generation counter is -2147483648 while surface 1 has the generation 0, which
is above the counter. -/
theorem run_counter_wraps_below_generations :
    ∃ s : Session Unit,
      run sample_callbacks 64 sample_ops_wrap sample_session_mpeg2 = some s ∧
      s.st.dx.surface_count = 6 ∧
      s.st.dx.surface_order = -2147483648 ∧
      (surface_at s.st.dx 1).order = 0 := by
  obtain ⟨s1, hrun, hc, hw, hcodec, hwidth, hdec, hslots⟩ :=
    run_get_empty sample_callbacks 64 1 (fun _ => rfl) 2147483648 sample_session_mpeg2 rfl
      (by decide) (by decide)
  have hw2 : s1.st.dx.surface_order = -2147483648 := by
    rw [hw]; decide
  have hfast : setup_fast_path s1.st.dx sample_avctx = false := by
    unfold setup_fast_path
    rw [hdec]
    simp [sample_session_mpeg2, sample_dx]
  have hcount : computed_surface_count s1.st.dx sample_avctx = 6 := by
    unfold computed_surface_count
    rw [hcodec, if_neg (by decide)]
    decide
  have hstored := directx_va_Setup_stored sample_callbacks 64 sample_avctx s1.st hfast
    (by decide) (by decide) (by rw [hcount]; decide)
  have hsl := directx_va_Setup_slots sample_callbacks 64 sample_avctx s1.st
  refine ⟨{ s1 with st := (directx_va_Setup sample_callbacks 64 sample_avctx s1.st).2.2 },
    ?_, ?_, ?_, ?_⟩
  · unfold sample_ops_wrap run
    rw [run_where_append]
    have hrun2 : run_where sample_callbacks 64 (fun _ _ => true)
        (List.replicate 2147483648 (Op.get 1)) sample_session_mpeg2 = some s1 := hrun
    rw [hrun2]
    rfl
  · show (directx_va_Setup sample_callbacks 64 sample_avctx s1.st).2.2.dx.surface_count = 6
    rw [hstored.1, hcount]
  · show (directx_va_Setup sample_callbacks 64 sample_avctx s1.st).2.2.dx.surface_order = _
    rw [hsl.2.1, hw2]
  · show (surface_at (directx_va_Setup sample_callbacks 64 sample_avctx s1.st).2.2.dx 1).order
      = 0
    rcases hsl.2.2 1 with h | ⟨_, h⟩
    · rw [h, hslots 1 (by decide)]
      decide
    · exact h


/-- The pool stays in the array: a sequence of operations keeps the length of
the array and a surface count of at most `MAX_SURFACE_COUNT`. -/
theorem run_where_pool_in_array {W : Type} (cb : callbacks W) (MAX_SURFACE_COUNT : Int)
    (adm : Op → Session W → Bool) (hMAX : 0 ≤ MAX_SURFACE_COUNT) (ops : List Op) :
    ∀ s s1 : Session W, s.st.dx.surface_count ≤ MAX_SURFACE_COUNT →
      run_where cb MAX_SURFACE_COUNT adm ops s = some s1 →
      s1.st.dx.surface.length = s.st.dx.surface.length ∧
      s1.st.dx.surface_count ≤ MAX_SURFACE_COUNT := by
  induction ops with
  | nil =>
    intro s s1 hc hrun
    simp only [run_where, Option.some.injEq] at hrun
    subst hrun
    exact ⟨rfl, hc⟩
  | cons op ops ih =>
    intro s s1 hc hrun
    simp only [run_where] at hrun
    split at hrun
    · split at hrun
      · rename_i s2 hstep
        have hkey : s2.st.dx.surface.length = s.st.dx.surface.length ∧
            s2.st.dx.surface_count ≤ MAX_SURFACE_COUNT := by
          cases op with
          | setup avctx =>
            simp only [step, Option.some.injEq] at hstep
            subst hstep
            exact ⟨(directx_va_Setup_slots cb MAX_SURFACE_COUNT avctx s.st).1,
              directx_va_Setup_surface_count_le cb MAX_SURFACE_COUNT avctx s.st hMAX hc⟩
          | get pic =>
            simp only [step, Option.some.injEq] at hstep
            subst hstep
            by_cases hcheck : (cb.pf_check_device s.st.world).1 = VLC_SUCCESS
            · rw [directx_va_Get_success cb _ _ s.st hcheck]
              exact ⟨by simp, hc⟩
            · rw [directx_va_Get_failure cb _ _ s.st hcheck]
              exact ⟨rfl, hc⟩
          | release pic =>
            simp only [step] at hstep
            cases hctx : s.bound.lookup pic with
            | none =>
              simp [directx_va_Release, hctx] at hstep
            | some i =>
              rcases directx_va_Release_slots ⟨pic, s.bound.lookup pic⟩ s.st i hctx
                with hnone | ⟨r, hr, hlen, hcount, _⟩
              · simp [hnone] at hstep
              rw [hr] at hstep
              simp only [Option.some.injEq] at hstep
              subst hstep
              exact ⟨hlen, by rw [hcount]; exact hc⟩
          | teardown =>
            simp only [step, Option.some.injEq] at hstep
            subst hstep
            exact ⟨rfl, by rw [(DestroyVideoDecoder_frame cb s.st).1]; exact hMAX⟩
        obtain ⟨h1, h2⟩ := ih s2 s1 hkey.2 hrun
        exact ⟨h1.trans hkey.1, h2⟩
      · cases hrun
    · cases hrun

/-- C24 (amended): in every state reached from a fresh session by Setup,
Acquire, Release and teardown, each Acquire made while the generation counter
is below 2147483647, every surface's generation is at most the counter; and a
successful Acquire made in such a state while the counter is below 2147483647
leaves the claimed surface with a generation strictly above that of every
other surface. -/
theorem counter_run_generation_bound {W : Type} (cb : callbacks W) (MAX_SURFACE_COUNT : Int)
    (ops : List Op) (s0 s : Session W) (hfresh : fresh_session s0)
    (hMAX : 0 ≤ MAX_SURFACE_COUNT) (hlen : MAX_SURFACE_COUNT ≤ s0.st.dx.surface.length)
    (hslot : 0 < s0.st.dx.surface.length)
    (hrun : run_where cb MAX_SURFACE_COUNT adm_counter ops s0 = some s) :
    (∀ i, (surface_at s.st.dx i).order ≤ s.st.dx.surface_order) ∧
    (∀ (pic : picture_t) (data : Nat), s.st.dx.surface_order < 2147483647 →
      (directx_va_Get cb pic data s.st).status = VLC_SUCCESS →
      (∀ i, (surface_at (directx_va_Get cb pic data s.st).st.dx i).order ≤
        (directx_va_Get cb pic data s.st).st.dx.surface_order) ∧
      ∀ j, j ≠ get_index s.st.dx →
        (surface_at (directx_va_Get cb pic data s.st).st.dx j).order <
          (surface_at (directx_va_Get cb pic data s.st).st.dx (get_index s.st.dx)).order) := by
  have hinv := run_where_generation_inv cb MAX_SURFACE_COUNT ops s0 s
    (fresh_generation_inv s0 hfresh) hrun
  obtain ⟨hpl, hpc⟩ := run_where_pool_in_array cb MAX_SURFACE_COUNT adm_counter hMAX ops s0 s
    (by rw [hfresh.2.1]; exact hMAX) hrun
  obtain ⟨hc0, hrange, _⟩ := hinv
  refine ⟨fun i => (hrange i).2, ?_⟩
  intro pic data hcounter hok
  have hcheck := directx_va_Get_status cb pic data s.st hok
  have hi : get_index s.st.dx < s.st.dx.surface.length :=
    get_index_lt_length s.st.dx (by rw [hpl]; omega) (by rw [hpl]; exact hslot)
  have hw : wrap32 (s.st.dx.surface_order + 1) = s.st.dx.surface_order + 1 :=
    wrap32_of_range _ (by omega) (by omega)
  obtain ⟨hclaim, hother⟩ := directx_va_Get_claims cb pic data s.st hcheck
  have hord : (directx_va_Get cb pic data s.st).st.dx.surface_order
      = s.st.dx.surface_order + 1 := by
    rw [directx_va_Get_success cb pic data s.st hcheck]; exact hw
  have hci : (surface_at (directx_va_Get cb pic data s.st).st.dx (get_index s.st.dx)).order
      = s.st.dx.surface_order + 1 := by
    rw [hclaim hi]; exact hw
  refine ⟨?_, ?_⟩
  · intro i
    by_cases hii : i = get_index s.st.dx
    · rw [hii, hci, hord]
    · rw [hother i hii, hord]
      have := (hrange i).2
      omega
  · intro j hj
    rw [hother j hj, hci]
    have := (hrange j).2
    omega

theorem counter_run_generation_bound_witness :
    sample_ops_counter_result.st.dx.surface_order = 3 ∧
    get_index sample_ops_counter_result.st.dx = 3 ∧
    ((directx_va_Get sample_callbacks sample_pic 0
      sample_ops_counter_result.st).st.dx.surface.take 6).map (fun x => x.order)
        = [1, 2, 3, 4, 0, 0] ∧
    (∀ j, j ≠ get_index sample_ops_counter_result.st.dx →
      (surface_at (directx_va_Get sample_callbacks sample_pic 0
        sample_ops_counter_result.st).st.dx j).order <
      (surface_at (directx_va_Get sample_callbacks sample_pic 0
        sample_ops_counter_result.st).st.dx
          (get_index sample_ops_counter_result.st.dx)).order) :=
  have h := counter_run_generation_bound sample_callbacks 64 sample_ops sample_session_mpeg2
    sample_ops_counter_result sample_session_mpeg2_fresh (by decide) (by decide) (by decide) rfl
  ⟨by decide, by decide, by decide, (h.2 sample_pic 0 (by decide) (by decide)).2⟩

/-! ## Theorems: the first Acquires after a Setup -/

/-- The allocation loop leaves the slots below its start index as they are. -/
theorem alloc_loop_below {W : Type} (cb : callbacks W) (fmt : video_format_t) (n : Nat) :
    ∀ (i : Nat) (st : State W) (j : Nat), j < i →
      surface_at (alloc_loop cb fmt n i st).2.dx j = surface_at st.dx j := by
  induction n with
  | zero => intro i st j _; rfl
  | succ n ih =>
    intro i st j hj
    unfold alloc_loop
    simp only []
    split
    · simp only [surface_at]
      exact getD_set_other _ _ _ _ _ (by omega)
    · rw [ih (i + 1) _ j (by omega)]
      simp only [surface_at]
      exact getD_set_other _ _ _ _ _ (by omega)

/-- A successful allocation loop leaves each slot it went through with
reference count and generation 0. -/
theorem alloc_loop_built {W : Type} (cb : callbacks W) (fmt : video_format_t) (n : Nat) :
    ∀ (i : Nat) (st : State W), (alloc_loop cb fmt n i st).1 = VLC_SUCCESS →
      i + n ≤ st.dx.surface.length →
      ∀ j, i ≤ j → j < i + n →
        (surface_at (alloc_loop cb fmt n i st).2.dx j).refcount = 0 ∧
        (surface_at (alloc_loop cb fmt n i st).2.dx j).order = 0 := by
  induction n with
  | zero => intro i st _ _ j h1 h2; omega
  | succ n ih =>
    intro i st hok hlen j h1 h2
    unfold alloc_loop at hok ⊢
    simp only [] at hok ⊢
    split at hok
    · have hne : VLC_EGENERIC ≠ VLC_SUCCESS := by decide
      exact absurd hok hne
    · rename_i hp
      rw [if_neg hp]
      by_cases hji : j = i
      · subst hji
        rw [alloc_loop_below cb fmt n (j + 1) _ j (by omega)]
        simp only [surface_at]
        rw [getD_set_self _ _ _ _ (by omega)]
        exact ⟨rfl, rfl⟩
      · exact ih (i + 1) _ hok (by simp only [List.length_set]; omega) j (by omega) (by omega)

/-- A successful Setup off the fast path leaves every surface of the pool with
reference count and generation 0. -/
theorem directx_va_Setup_built {W : Type} (cb : callbacks W) (MAX_SURFACE_COUNT : Int)
    (avctx : AVCodecContext) (st : State W) (hfast : setup_fast_path st.dx avctx = false)
    (hok : (directx_va_Setup cb MAX_SURFACE_COUNT avctx st).1 = VLC_SUCCESS)
    (hlen : MAX_SURFACE_COUNT ≤ st.dx.surface.length) :
    ∀ j : Nat, (j : Int) < (directx_va_Setup cb MAX_SURFACE_COUNT avctx st).2.2.dx.surface_count →
      (surface_at (directx_va_Setup cb MAX_SURFACE_COUNT avctx st).2.2.dx j).refcount = 0 ∧
      (surface_at (directx_va_Setup cb MAX_SURFACE_COUNT avctx st).2.2.dx j).order = 0 := by
  obtain ⟨hw, hh, hc⟩ := directx_va_Setup_success_reaches cb MAX_SURFACE_COUNT avctx st hfast hok
  have hstored := (directx_va_Setup_stored cb MAX_SURFACE_COUNT avctx st hfast hw hh hc).1
  rw [hstored]
  have hd : ¬ (avctx.coded_width ≤ 0 ∨ avctx.coded_height ≤ 0) := by omega
  have hc2 : ¬ computed_surface_count st.dx avctx > MAX_SURFACE_COUNT := by omega
  unfold directx_va_Setup at hok ⊢
  simp only [hfast, Bool.false_eq_true, if_false, computed_surface_count_destroy, hd, hc2]
    at hok ⊢
  split at hok
  · have hne : VLC_EGENERIC ≠ VLC_SUCCESS := by decide
    exact absurd hok hne
  · rename_i hp
    rw [if_neg hp]
    simp only [] at hok ⊢
    intro j hj
    refine alloc_loop_built cb _ _ 0 _ hok ?_ j (Nat.zero_le _) (by omega)
    simp only [Nat.zero_add]
    show (computed_surface_count st.dx avctx).toNat ≤ st.dx.surface.length
    omega

theorem lookup_mem (p i : Nat) (l : List (Nat × Nat)) (h : l.lookup p = some i) :
    (p, i) ∈ l := by
  induction l with
  | nil => simp [List.lookup] at h
  | cons b l ih =>
    obtain ⟨k, v⟩ := b
    by_cases hk : p = k
    · subst hk
      have : v = i := by simpa [List.lookup] using h
      subst this
      exact List.mem_cons_self _ _
    · have hne : (p == k) = false := by simpa using hk
      have hl : l.lookup p = some i := by
        simpa [List.lookup, hne] using h
      exact List.mem_cons_of_mem _ (ih hl)


/-- The bindings after an operation on a picture are the pairs of before, or
the pair of the picture with its new context. -/
theorem bind_picture_mem (bound : List (Nat × Nat)) (p : picture_t) (b : Nat × Nat)
    (h : b ∈ bind_picture bound p) : b ∈ bound ∨ p.context = some b.2 := by
  unfold bind_picture at h
  cases hc : p.context with
  | none =>
    rw [hc] at h
    exact Or.inl (List.mem_filter.mp h).1
  | some i =>
    rw [hc] at h
    rcases List.mem_cons.mp h with rfl | h
    · exact Or.inr rfl
    · exact Or.inl (List.mem_filter.mp h).1

/-- On a pool whose surfaces below `k` have been claimed (generation at least
1) and whose surfaces from `k` on are untouched (reference count and generation
0), the Acquires of a sequence of Acquires and Releases return `k`, `k + 1`,
... as long as untouched surfaces are left, when the pictures bound are bound to
surfaces below `k` and the counter has room. -/
theorem acquired_fresh_pool {W : Type} (cb : callbacks W) (MAX_SURFACE_COUNT : Int) (N : Int)
    (ops : List Op) :
    ∀ (s : Session W) (k : Nat),
      (∀ op ∈ ops, op.is_get_or_release = true) →
      s.st.dx.surface_count = N →
      N ≤ s.st.dx.surface.length →
      0 ≤ s.st.dx.surface_order →
      s.st.dx.surface_order + (N - k) ≤ 2147483647 →
      (∀ j, j < k → 1 ≤ (surface_at s.st.dx j).order) →
      (∀ j : Nat, k ≤ j → (j : Int) < N →
        (surface_at s.st.dx j).refcount = 0 ∧ (surface_at s.st.dx j).order = 0) →
      (∀ b ∈ s.bound, b.2 < k) →
      ∀ (i idx : Nat), ((k + i : Nat) : Int) < N →
        (acquired cb MAX_SURFACE_COUNT ops s)[i]? = some idx → idx = k + i := by
  induction ops with
  | nil =>
    intro s k _ _ _ _ _ _ _ _ i idx _ hget
    simp [acquired] at hget
  | cons op ops ih =>
    intro s k hops hN hlen hc0 hroom htouched hfresh hb i idx hi hget
    have hop := hops op (List.mem_cons_self _ _)
    have hops1 : ∀ o ∈ ops, o.is_get_or_release = true :=
      fun o ho => hops o (List.mem_cons_of_mem _ ho)
    have hkN : (k : Int) < N := by push_cast at hi; omega
    cases op with
    | setup avctx => simp [Op.is_get_or_release] at hop
    | teardown => simp [Op.is_get_or_release] at hop
    | get p =>
      by_cases hcheck : (cb.pf_check_device s.st.world).1 = VLC_SUCCESS
      · have hg := directx_va_Get_success cb ⟨p, s.bound.lookup p⟩ 0 s.st hcheck
        obtain ⟨hclaim, hother⟩ := directx_va_Get_claims cb ⟨p, s.bound.lookup p⟩ 0 s.st hcheck
        have hidx : get_index s.st.dx = k := by
          obtain ⟨_, hlt, _, hmin⟩ := get_index_free s.st.dx
            ⟨k, by rw [hN]; exact hkN, (hfresh k (le_refl _) hkN).1⟩
          rw [hN] at hlt hmin
          have hk := hmin k (by omega) (by simp [is_free, (hfresh k (le_refl _) hkN).1])
          rw [(hfresh k (le_refl _) hkN).2] at hk
          have hge : k ≤ get_index s.st.dx := by
            by_contra hcon
            have := htouched (get_index s.st.dx) (by omega)
            omega
          have h0 := (hfresh (get_index s.st.dx) hge (by omega)).2
          have := hk.2 h0.symm
          omega
        rw [hidx] at hclaim hother hg
        have hw : wrap32 (s.st.dx.surface_order + 1) = s.st.dx.surface_order + 1 :=
          wrap32_of_range _ (by omega) (by omega)
        have hstatus : (directx_va_Get cb ⟨p, s.bound.lookup p⟩ 0 s.st).status = VLC_SUCCESS := by
          rw [hg]
        have hctx : (directx_va_Get cb ⟨p, s.bound.lookup p⟩ 0 s.st).pic.context = some k := by
          rw [hg]
        have hcount : (directx_va_Get cb ⟨p, s.bound.lookup p⟩ 0 s.st).st.dx.surface_count = N := by
          rw [hg]; exact hN
        have hlen1 : N ≤ (directx_va_Get cb ⟨p, s.bound.lookup p⟩ 0 s.st).st.dx.surface.length := by
          rw [hg]; simp only [List.length_set]; exact hlen
        have hord : (directx_va_Get cb ⟨p, s.bound.lookup p⟩ 0 s.st).st.dx.surface_order
            = s.st.dx.surface_order + 1 := by
          rw [hg]; exact hw
        have hck := hclaim (by omega)
        simp only [acquired, step, acquired_by, hstatus, if_true, hctx, Option.toList,
          List.singleton_append] at hget
        cases i with
        | zero =>
          simp only [List.getElem?_cons_zero, Option.some.injEq] at hget
          omega
        | succ i =>
          simp only [List.getElem?_cons_succ] at hget
          have := ih
            { st := (directx_va_Get cb ⟨p, s.bound.lookup p⟩ 0 s.st).st,
              bound := bind_picture s.bound (directx_va_Get cb ⟨p, s.bound.lookup p⟩ 0 s.st).pic }
            (k + 1) hops1 hcount hlen1 (by rw [hord]; omega)
            (by rw [hord]; push_cast; omega)
            (by
              intro j hj
              by_cases hjk : j = k
              · subst hjk
                rw [hck]
                show 1 ≤ wrap32 (s.st.dx.surface_order + 1)
                rw [hw]; omega
              · rw [hother j hjk]
                exact htouched j (by omega))
            (by
              intro j hj hjN
              rw [hother j (by omega)]
              exact hfresh j (by omega) hjN)
            (by
              intro b hbm
              rcases bind_picture_mem _ _ _ hbm with hbm | hbm
              · have := hb b hbm
                omega
              · rw [hctx] at hbm
                have : k = b.2 := Option.some.inj hbm
                omega)
            i idx (by push_cast at hi ⊢; omega) hget
          omega
      · have hg := directx_va_Get_failure cb ⟨p, s.bound.lookup p⟩ 0 s.st hcheck
        have hne : VLC_EGENERIC ≠ VLC_SUCCESS := by decide
        have hstatus : ¬ (directx_va_Get cb ⟨p, s.bound.lookup p⟩ 0 s.st).status = VLC_SUCCESS := by
          rw [hg]; exact hne
        have hdx : (directx_va_Get cb ⟨p, s.bound.lookup p⟩ 0 s.st).st.dx = s.st.dx := by
          rw [hg]
        have hpic : (directx_va_Get cb ⟨p, s.bound.lookup p⟩ 0 s.st).pic
            = ⟨p, s.bound.lookup p⟩ := by
          rw [hg]
        simp only [acquired, step, acquired_by, hstatus, if_false, List.nil_append] at hget
        exact ih
          { st := (directx_va_Get cb ⟨p, s.bound.lookup p⟩ 0 s.st).st,
            bound := bind_picture s.bound (directx_va_Get cb ⟨p, s.bound.lookup p⟩ 0 s.st).pic }
          k hops1 (by rw [hdx]; exact hN) (by rw [hdx]; exact hlen) (by rw [hdx]; exact hc0)
          (by rw [hdx]; exact hroom) (by rw [hdx]; exact htouched) (by rw [hdx]; exact hfresh)
          (by
            intro b hbm
            rcases bind_picture_mem _ _ _ hbm with hbm | hbm
            · exact hb b hbm
            · rw [hpic] at hbm
              exact hb (p, b.2) (lookup_mem _ _ _ hbm))
          i idx hi hget
    | release p =>
      cases hlk : s.bound.lookup p with
      | none =>
        simp [acquired, step, directx_va_Release, hlk] at hget
      | some j =>
        have hjk : j < k := hb (p, j) (lookup_mem _ _ _ hlk)
        rcases directx_va_Release_slots ⟨p, s.bound.lookup p⟩ s.st j hlk
          with hnone | ⟨r, hr, hlen1, hcount, hord, hother, hself, hpic⟩
        · simp [acquired, step, hnone] at hget
        have horder : ∀ j1, (surface_at r.2.dx j1).order = (surface_at s.st.dx j1).order := by
          intro j1
          by_cases hj1 : j1 = j
          · subst hj1
            rcases hself with h | h
            · rw [h]
            · rw [h]
          · rw [hother j1 hj1]
        simp only [acquired, step, acquired_by, hr, List.nil_append] at hget
        exact ih { st := r.2, bound := bind_picture s.bound r.1 } k hops1
          (by rw [hcount]; exact hN) (by rw [hlen1]; exact hlen) (by rw [hord]; exact hc0)
          (by rw [hord]; exact hroom)
          (by intro j1 hj1; rw [horder]; exact htouched j1 hj1)
          (by
            intro j1 hj1 hj1N
            rw [hother j1 (by omega)]
            exact hfresh j1 hj1 hj1N)
          (by
            intro b hbm
            rcases bind_picture_mem _ _ _ hbm with hbm | hbm
            · exact hb b hbm
            · rw [hpic] at hbm
              cases hbm)
          i idx hi hget

/-- C25 (counterexample): on the six-surface sample pool, four pictures are
acquired and a second Setup at another size rebuilds the pool of six surfaces
while they are held.  The release of the picture 4 then takes the reference
count of the new surface 3 to -1, and the next four Acquires return the indices
0, 1, 2 and 4. -/
theorem acquired_after_stale_release :
    setup_fast_path sample_session_held.st.dx sample_avctx_720 = false ∧
    (directx_va_Setup sample_callbacks 64 sample_avctx_720 sample_session_held.st).1
      = VLC_SUCCESS ∧
    sample_session_rebuilt.st.dx.surface_count = 6 ∧
    (sample_session_rebuilt.st.dx.surface.take 6).map (fun x => (x.refcount, x.order))
      = [(0, 0), (0, 0), (0, 0), (0, 0), (0, 0), (0, 0)] ∧
    sample_session_rebuilt.bound = [(4, 3), (3, 2), (2, 1), (1, 0)] ∧
    acquired sample_callbacks 64 sample_ops_stale sample_session_rebuilt = [0, 1, 2, 4] := by
  refine ⟨by decide, by decide, by decide, by decide, by decide, by decide⟩

/-- C25 (amended): after a successful Setup off the fast path, made while no
picture is bound, on a session whose array holds `MAX_SURFACE_COUNT` slots and
whose generation counter is not negative and has room for the `N` surfaces
built, the successful Acquires of any sequence of Acquires and Releases return
the indices 0, 1, ..., `N - 1` in that order: the `k`-th of them, for `k` below
`N`, returns `k`, whichever Releases are made between them. -/
theorem acquired_after_Setup {W : Type} (cb : callbacks W) (MAX_SURFACE_COUNT : Int)
    (avctx : AVCodecContext) (st : State W) (ops : List Op)
    (hfast : setup_fast_path st.dx avctx = false)
    (hok : (directx_va_Setup cb MAX_SURFACE_COUNT avctx st).1 = VLC_SUCCESS)
    (hlen : MAX_SURFACE_COUNT ≤ st.dx.surface.length)
    (hc0 : 0 ≤ st.dx.surface_order)
    (hroom : st.dx.surface_order
      + (directx_va_Setup cb MAX_SURFACE_COUNT avctx st).2.2.dx.surface_count ≤ 2147483647)
    (hops : ∀ op ∈ ops, op.is_get_or_release = true) :
    ∀ k idx : Nat,
      (k : Int) < (directx_va_Setup cb MAX_SURFACE_COUNT avctx st).2.2.dx.surface_count →
      (acquired cb MAX_SURFACE_COUNT ops
        { st := (directx_va_Setup cb MAX_SURFACE_COUNT avctx st).2.2, bound := [] })[k]?
          = some idx →
      idx = k := by
  intro k idx hk hget
  obtain ⟨hw, hh, hc⟩ := directx_va_Setup_success_reaches cb MAX_SURFACE_COUNT avctx st hfast hok
  have hstored := (directx_va_Setup_stored cb MAX_SURFACE_COUNT avctx st hfast hw hh hc).1
  obtain ⟨hl, hord, _⟩ := directx_va_Setup_slots cb MAX_SURFACE_COUNT avctx st
  have hbuilt := directx_va_Setup_built cb MAX_SURFACE_COUNT avctx st hfast hok hlen
  have h := acquired_fresh_pool cb MAX_SURFACE_COUNT
    (directx_va_Setup cb MAX_SURFACE_COUNT avctx st).2.2.dx.surface_count ops
    { st := (directx_va_Setup cb MAX_SURFACE_COUNT avctx st).2.2, bound := [] } 0 hops rfl
    (by
      show (directx_va_Setup cb MAX_SURFACE_COUNT avctx st).2.2.dx.surface_count
        ≤ ((directx_va_Setup cb MAX_SURFACE_COUNT avctx st).2.2.dx.surface.length : Int)
      rw [hl, hstored]
      omega)
    (by
      show 0 ≤ (directx_va_Setup cb MAX_SURFACE_COUNT avctx st).2.2.dx.surface_order
      rw [hord]; exact hc0)
    (by
      show (directx_va_Setup cb MAX_SURFACE_COUNT avctx st).2.2.dx.surface_order + _ ≤ _
      rw [hord]
      push_cast
      omega)
    (fun j hj => absurd hj (Nat.not_lt_zero j))
    (fun j _ hj => hbuilt j hj)
    (fun b hb => by cases hb)
    k idx (by simpa using hk) hget
  omega

theorem acquired_after_Setup_witness :
    acquired sample_callbacks 64 sample_ops_recycle sample_session_built
      = [0, 1, 2, 3, 4, 5, 0] ∧
    sample_session_built.st.dx.surface_count = 6 ∧
    ∀ k idx : Nat, (k : Int) < sample_session_built.st.dx.surface_count →
      (acquired sample_callbacks 64 sample_ops_recycle sample_session_built)[k]? = some idx →
      idx = k :=
  ⟨by decide, by decide,
    acquired_after_Setup sample_callbacks 64 sample_avctx sample_session_mpeg2.st
      sample_ops_recycle (by decide) (by decide) (by decide) (by decide) (by decide)
      (by decide)⟩

end DirectxVa
